import Mathlib

/-!
# Lightmap baking: `createLightmapForMesh` of `src/utils/lightMapper.js`

A shallow embedding of the per-triangle shading and of the UV-space rasterizer.

Numbers.
* The coverage test `pointInTriangle` decides which cells are written, and its
  outcome on zero-area triangles and on triangle edges depends on what a
  JavaScript `Number` does on division by zero and on rounding.  It is embedded
  over `JSNum`, a model of IEEE-754 binary64: finite values are the rationals
  they denote, every arithmetic result is rounded to nearest (ties to even) with
  a 53 bit significand, and signed zero, the infinities and NaN are values.
* The shading arithmetic (lines 506-579) is embedded twice.  Over exact
  rationals `ℚ` (`lightContribution`, `triangleShading`), for the formulas of the
  light loop: rounding and overflow are not modelled there.  Over `JSNum`
  (`Binary64.lightContribution`, `Binary64.triangleShading`), for what overflow
  and NaN do to the clamp.  `Math.sqrt` is a parameter `sqrt` of every
  definition that needs a vector length.
* Grid coordinates and array indices are integers, as in the source once
  `gridSize` is an integer (the texture size is even).  `mapUVToGrid` floors the
  binary64 product `uv * gridSize` of a finite UV; the floor and the clamp of
  the result are exact.

Effects.  The bake orchestrator `bakeLightmap` and `createLightmapTexture` are
functions on an explicit state: the children of `document.body` and the alerts
shown (`Page`), the scene's lights and render targets (`Scene`) and the meshes.
A call that throws is a parameter (`BakeFaults`, `Mesh.throwsAfter`).  The canvas
of a mesh is the list of drawing steps made on it.  Timers, logging and the
layout of the created elements are not modelled.
-/

namespace Lightmap

/-! ## JavaScript numbers -/

/-- A JavaScript `Number`: a finite binary64 value (`fin 0` is `+0`), negative
zero, the two infinities, or NaN. -/
inductive JSNum where
  | fin (q : ℚ)
  | negZero
  | posInf
  | negInf
  | nan
  deriving DecidableEq

namespace JSNum

/-- Floor of the base two logarithm of `n` by repeated halving; `fuel` bounds
the number of halvings. -/
def log2Aux : ℕ → ℕ → ℕ
  | 0, _ => 0
  | fuel + 1, n => if n < 2 then 0 else log2Aux fuel (n / 2) + 1

/-- Floor of the base two logarithm of a positive natural number. -/
def log2Floor (n : ℕ) : ℕ := log2Aux n n

/-- The power of two `2 ^ e` as a rational. -/
def pow2 (e : ℤ) : ℚ :=
  if 0 ≤ e then ((2 ^ e.toNat : ℕ) : ℚ) else 1 / ((2 ^ (-e).toNat : ℕ) : ℚ)

/-- Floor of the base two logarithm of `|q|`, for `q ≠ 0`. -/
def binade (q : ℚ) : ℤ :=
  let e : ℤ := (log2Floor q.num.natAbs : ℤ) - (log2Floor q.den : ℤ)
  if pow2 e ≤ |q| then e else e - 1

/-- Exponent of the unit in the last place of the binary64 values around `q`:
53 significant bits, and the subnormal spacing `2 ^ (-1074)` at the bottom. -/
def ulpExp (q : ℚ) : ℤ := max (binade q - 52) (-1074)

/-- Nearest integer, ties to the even one. -/
def roundHalfEven (x : ℚ) : ℤ :=
  let f := ⌊x⌋
  let r := x - f
  if r < 1 / 2 then f
  else if 1 / 2 < r then f + 1
  else if f % 2 = 0 then f else f + 1

/-- Round a non-zero exact result to binary64 (round to nearest, ties to even):
overflow gives an infinity and underflow a zero, both with the sign of `q`. -/
def roundBinary64 (q : ℚ) : JSNum :=
  let u : ℚ := pow2 (ulpExp q)
  let r : ℚ := (roundHalfEven (q / u) : ℚ) * u
  if pow2 1024 ≤ |r| then (if 0 < q then posInf else negInf)
  else if r = 0 then (if q < 0 then negZero else fin 0)
  else fin r

/-- The sign bit (false for NaN). -/
def signBit : JSNum → Bool
  | fin q => decide (q < 0)
  | negZero => true
  | posInf => false
  | negInf => true
  | nan => false

/-- Zero with the given sign bit. -/
def zero (negative : Bool) : JSNum := if negative then negZero else fin 0

/-- Infinity with the given sign bit. -/
def inf (negative : Bool) : JSNum := if negative then negInf else posInf

/-- Whether the value is `+0` or `-0`. -/
def isZero : JSNum → Bool
  | fin q => decide (q = 0)
  | negZero => true
  | _ => false

/-- Whether the value is `+Infinity` or `-Infinity`. -/
def isInf : JSNum → Bool
  | posInf => true
  | negInf => true
  | _ => false

/-- Unary minus. -/
def neg : JSNum → JSNum
  | fin q => if q = 0 then negZero else fin (-q)
  | negZero => fin 0
  | posInf => negInf
  | negInf => posInf
  | nan => nan

/-- Addition `a + b`. -/
def add : JSNum → JSNum → JSNum
  | nan, _ => nan
  | _, nan => nan
  | posInf, negInf => nan
  | negInf, posInf => nan
  | posInf, _ => posInf
  | negInf, _ => negInf
  | _, posInf => posInf
  | _, negInf => negInf
  | negZero, negZero => negZero
  | negZero, fin b => fin b
  | fin a, negZero => fin a
  | fin a, fin b => if a + b = 0 then fin 0 else roundBinary64 (a + b)

/-- Subtraction `a - b`. -/
def sub (a b : JSNum) : JSNum := add a (neg b)

/-- Multiplication `a * b`. -/
def mul (a b : JSNum) : JSNum :=
  match a, b with
  | nan, _ => nan
  | _, nan => nan
  | fin x, fin y =>
      if x = 0 ∨ y = 0 then zero (signBit a != signBit b) else roundBinary64 (x * y)
  | _, _ =>
      if (isInf a && isZero b) || (isZero a && isInf b) then nan
      else if isInf a || isInf b then inf (signBit a != signBit b)
      else zero (signBit a != signBit b)

/-- Division `a / b`. -/
def div (a b : JSNum) : JSNum :=
  match a, b with
  | nan, _ => nan
  | _, nan => nan
  | fin x, fin y =>
      if y = 0 then (if x = 0 then nan else inf (signBit a != signBit b))
      else if x = 0 then zero (signBit a != signBit b)
      else roundBinary64 (x / y)
  | _, _ =>
      if (isInf a && isInf b) || (isZero a && isZero b) then nan
      else if isInf a || isZero b then inf (signBit a != signBit b)
      else zero (signBit a != signBit b)

/-- The comparison `a <= b` (false when either side is NaN; `-0` equals `+0`). -/
def le : JSNum → JSNum → Bool
  | nan, _ => false
  | _, nan => false
  | negInf, _ => true
  | _, posInf => true
  | posInf, _ => false
  | _, negInf => false
  | negZero, negZero => true
  | negZero, fin b => decide (0 ≤ b)
  | fin a, negZero => decide (a ≤ 0)
  | fin a, fin b => decide (a ≤ b)

/-- The comparison `a >= b`. -/
def ge (a b : JSNum) : Bool := le b a

/-- The comparison `a > b` (false when either side is NaN). -/
def gt (a b : JSNum) : Bool := le b a && !le a b

/-- The function `Math.max(a, b)`: NaN when either argument is NaN, and `+0` is
larger than `-0`. -/
def max (a b : JSNum) : JSNum :=
  match a, b with
  | nan, _ => nan
  | _, nan => nan
  | negZero, fin q => if 0 ≤ q then fin q else negZero
  | fin q, negZero => if 0 ≤ q then fin q else negZero
  | _, _ => if le a b then b else a

/-- The function `Math.min(a, b)`: NaN when either argument is NaN, and `-0` is
smaller than `+0`. -/
def min (a b : JSNum) : JSNum :=
  match a, b with
  | nan, _ => nan
  | _, nan => nan
  | negZero, fin q => if q < 0 then fin q else negZero
  | fin q, negZero => if q < 0 then fin q else negZero
  | _, _ => if le a b then a else b

/-- An integer as a `Number` (exact below `2 ^ 53`). -/
def ofInt (n : ℤ) : JSNum := fin n

/-- Whether the value is an infinity or NaN. -/
def isInfOrNan : JSNum → Bool
  | posInf => true
  | negInf => true
  | nan => true
  | _ => false

/-- The value `v` denotes the integer `n`: it is the finite value `n`, or `n` is
zero and `v` is negative zero. -/
def IsInt (v : JSNum) (n : ℤ) : Prop := v = fin (n : ℚ) ∨ (n = 0 ∧ v = negZero)

instance : Neg JSNum := ⟨neg⟩
instance : Add JSNum := ⟨add⟩
instance : Sub JSNum := ⟨sub⟩
instance : Mul JSNum := ⟨mul⟩
instance : Div JSNum := ⟨div⟩

end JSNum

/-! ## The coverage test (lines 601-607) -/

/-- The literal `0.5`. -/
def jsHalf : JSNum := JSNum.fin (1 / 2)

/-- The literal `1`. -/
def jsOne : JSNum := JSNum.fin 1

/-- The literal `2`. -/
def jsTwo : JSNum := JSNum.fin 2

/-- The literal `0`. -/
def jsZero : JSNum := JSNum.fin 0

/-- The local `area` of `pointInTriangle`. -/
def triangleArea (v1x v1y v2x v2y v3x v3y : JSNum) : JSNum :=
  jsHalf * (-v2y * v3x + v1y * (-v2x + v3x) + v1x * (v2y - v3y) + v2x * v3y)

/-- The divisor `2 * area` of the two divisions in `pointInTriangle`. -/
def baryDivisor (v1x v1y v2x v2y v3x v3y : JSNum) : JSNum :=
  jsTwo * triangleArea v1x v1y v2x v2y v3x v3y

/-- The local `s` of `pointInTriangle`. -/
def baryS (px py v1x v1y v2x v2y v3x v3y : JSNum) : JSNum :=
  jsOne / baryDivisor v1x v1y v2x v2y v3x v3y
    * (v1y * v3x - v1x * v3y + (v3y - v1y) * px + (v1x - v3x) * py)

/-- The local `t` of `pointInTriangle`. -/
def baryT (px py v1x v1y v2x v2y v3x v3y : JSNum) : JSNum :=
  jsOne / baryDivisor v1x v1y v2x v2y v3x v3y
    * (v1x * v2y - v1y * v2x + (v1y - v2y) * px + (v2x - v1x) * py)

/-- The function `pointInTriangle`: `s >= 0 && t >= 0 && (s + t) <= 1`. -/
def pointInTriangle (px py v1x v1y v2x v2y v3x v3y : JSNum) : Bool :=
  let s := baryS px py v1x v1y v2x v2y v3x v3y
  let t := baryT px py v1x v1y v2x v2y v3x v3y
  JSNum.ge s jsZero && JSNum.ge t jsZero && JSNum.le (s + t) jsOne

/-! ## Vectors and colours (BABYLON value types) -/

/-- A `BABYLON.Vector2`. -/
structure Vector2 where
  x : ℚ
  y : ℚ
  deriving DecidableEq

/-- A `BABYLON.Vector3`. -/
structure Vector3 where
  x : ℚ
  y : ℚ
  z : ℚ
  deriving DecidableEq

/-- A `BABYLON.Color3`. -/
structure Color3 where
  r : ℚ
  g : ℚ
  b : ℚ
  deriving DecidableEq

namespace Vector3

/-- The method `a.subtract(b)`. -/
def subtract (a b : Vector3) : Vector3 := ⟨a.x - b.x, a.y - b.y, a.z - b.z⟩

/-- The method `a.scale(k)`. -/
def scale (a : Vector3) (k : ℚ) : Vector3 := ⟨a.x * k, a.y * k, a.z * k⟩

/-- The static `BABYLON.Vector3.Dot(a, b)`. -/
def Dot (a b : Vector3) : ℚ := a.x * b.x + a.y * b.y + a.z * b.z

/-- The method `a.lengthSquared()`. -/
def lengthSquared (a : Vector3) : ℚ := a.x * a.x + a.y * a.y + a.z * a.z

/-- The method `a.length()`, `Math.sqrt` of the squared length. -/
def length (sqrt : ℚ → ℚ) (a : Vector3) : ℚ := sqrt (lengthSquared a)

/-- The method `a.normalize()`: a vector of length `0` or `1` is returned as it
is, any other is scaled by `1 / length`. -/
def normalize (sqrt : ℚ → ℚ) (a : Vector3) : Vector3 :=
  let len := length sqrt a
  if len = 0 ∨ len = 1 then a else scale a (1 / len)

/-- The static `BABYLON.Vector3.Distance(a, b)`. -/
def Distance (sqrt : ℚ → ℚ) (a b : Vector3) : ℚ := sqrt (lengthSquared (subtract a b))

end Vector3

/-! ## Lights and the shading of one triangle (lines 506-579) -/

/-- Which `instanceof` test of the light loop a light passes. -/
inductive LightKind where
  | point
  | directional
  | hemispheric
  | other
  deriving DecidableEq

/-- A light of `scene.lights`, with the fields the light loop reads. `diffuse`
is `none` when `light.diffuse` is missing. -/
structure Light where
  kind : LightKind
  enabled : Bool
  position : Vector3
  direction : Vector3
  intensity : ℚ
  diffuse : Option Color3

/-- The colour `light.diffuse || new BABYLON.Color3(1, 1, 1)`. -/
def lightColorOf (light : Light) : Color3 := light.diffuse.getD ⟨1, 1, 1⟩

/-- The colour `(intensity * lightColor.r, intensity * lightColor.g,
intensity * lightColor.b)`. -/
def tint (intensity : ℚ) (lightColor : Color3) : Color3 :=
  ⟨intensity * lightColor.r, intensity * lightColor.g, intensity * lightColor.b⟩

/-- The values `contributionR`, `contributionG`, `contributionB` at the end of
one pass of the light loop for an enabled light. -/
def lightContribution (sqrt : ℚ → ℚ) (isWall isBox : Bool)
    (worldCenter worldNormal : Vector3) (light : Light) : Color3 :=
  let lightColor := lightColorOf light
  match light.kind with
  | LightKind.point =>
      let lightDir := Vector3.normalize sqrt (Vector3.subtract light.position worldCenter)
      let dot := Vector3.Dot worldNormal lightDir
      if 0 < dot then
        let distance := Vector3.Distance sqrt light.position worldCenter
        let attenuation := 1 / (1 + 1 / 10 * distance + 1 / 100 * distance * distance)
        let intensity := dot * light.intensity * attenuation
        let c := tint intensity lightColor
        if isWall || isBox then
          let verticalFactor := max 0 (lightDir.y * (1 / 2) + 1 / 2)
          let shadowFactor := max 0 (1 - distance / 15)
          ⟨c.r * verticalFactor * shadowFactor, c.g * verticalFactor * shadowFactor,
            c.b * verticalFactor * shadowFactor⟩
        else c
      else ⟨0, 0, 0⟩
  | LightKind.directional =>
      let dot := Vector3.Dot worldNormal (Vector3.scale light.direction (-1))
      if 0 < dot then tint (dot * light.intensity) lightColor else ⟨0, 0, 0⟩
  | LightKind.hemispheric =>
      let dot := Vector3.Dot worldNormal light.direction
      tint ((dot * (1 / 2) + 1 / 2) * light.intensity) lightColor
  | LightKind.other => ⟨0, 0, 0⟩

/-- One pass of the loop `for (const light of lights)` on the running value
`(lightR, lightG, lightB)`: a disabled light is skipped by `continue`. -/
def lightStep (sqrt : ℚ → ℚ) (isWall isBox : Bool) (worldCenter worldNormal : Vector3)
    (acc : Color3) (light : Light) : Color3 :=
  if light.enabled then
    let c := lightContribution sqrt isWall isBox worldCenter worldNormal light
    ⟨acc.r + c.r, acc.g + c.g, acc.b + c.b⟩
  else acc

/-- The ambient start value `(0.1, 0.1, 0.1)` of the running light. -/
def ambient : Color3 := ⟨1 / 10, 1 / 10, 1 / 10⟩

/-- The running value after the light loop, before the clamp. -/
def accumulateLights (sqrt : ℚ → ℚ) (isWall isBox : Bool) (worldCenter worldNormal : Vector3)
    (lights : List Light) : Color3 :=
  lights.foldl (lightStep sqrt isWall isBox worldCenter worldNormal) ambient

/-- The clamp `Math.max(0.1, Math.min(1.0, v))` of a finite value in exact
arithmetic; `Binary64.clampChannel` is the clamp of a `Number`, NaN included. -/
def clampChannel (v : ℚ) : ℚ := max (1 / 10) (min 1 v)

/-- The shading value `(lightR, lightG, lightB)` of a triangle after the clamp. -/
def triangleShading (sqrt : ℚ → ℚ) (isWall isBox : Bool) (worldCenter worldNormal : Vector3)
    (lights : List Light) : Color3 :=
  let total := accumulateLights sqrt isWall isBox worldCenter worldNormal lights
  ⟨clampChannel total.r, clampChannel total.g, clampChannel total.b⟩

/-! ## The shading of one triangle in binary64 (lines 506-579 and 613-617) -/

namespace Binary64

/-- A `BABYLON.Vector3` with `Number` components. -/
structure Vector3 where
  x : JSNum
  y : JSNum
  z : JSNum
  deriving DecidableEq

/-- A `BABYLON.Color3` with `Number` components. -/
structure Color3 where
  r : JSNum
  g : JSNum
  b : JSNum
  deriving DecidableEq

namespace Vector3

/-- The method `a.subtract(b)`. -/
def subtract (a b : Vector3) : Vector3 := ⟨a.x - b.x, a.y - b.y, a.z - b.z⟩

/-- The method `a.scale(k)`. -/
def scale (a : Vector3) (k : JSNum) : Vector3 := ⟨a.x * k, a.y * k, a.z * k⟩

/-- The static `BABYLON.Vector3.Dot(a, b)`. -/
def Dot (a b : Vector3) : JSNum := a.x * b.x + a.y * b.y + a.z * b.z

/-- The method `a.length()`: `Math.sqrt(x * x + y * y + z * z)`. -/
def length (sqrt : JSNum → JSNum) (a : Vector3) : JSNum :=
  sqrt (a.x * a.x + a.y * a.y + a.z * a.z)

/-- The method `a.normalize()`: the vector is returned as it is when its length
passes `len === 0 || len === 1.0`, and scaled by `1.0 / len` otherwise. -/
def normalize (sqrt : JSNum → JSNum) (a : Vector3) : Vector3 :=
  let len := length sqrt a
  if JSNum.isZero len = true ∨ len = jsOne then a else scale a (jsOne / len)

/-- The static `BABYLON.Vector3.Distance(a, b)`. -/
def Distance (sqrt : JSNum → JSNum) (a b : Vector3) : JSNum :=
  length sqrt (subtract a b)

end Vector3

/-- A light of `scene.lights` with `Number` fields. -/
structure Light where
  kind : LightKind
  enabled : Bool
  position : Vector3
  direction : Vector3
  intensity : JSNum
  diffuse : Option Color3

/-- The literal `0.1`: the binary64 value nearest to one tenth. -/
def tenth : JSNum := JSNum.roundBinary64 (1 / 10)

/-- The literal `0.01`: the binary64 value nearest to one hundredth. -/
def hundredth : JSNum := JSNum.roundBinary64 (1 / 100)

/-- The colour `light.diffuse || new BABYLON.Color3(1, 1, 1)`. -/
def lightColorOf (light : Light) : Color3 := light.diffuse.getD ⟨jsOne, jsOne, jsOne⟩

/-- The colour `(intensity * lightColor.r, intensity * lightColor.g,
intensity * lightColor.b)`. -/
def tint (intensity : JSNum) (lightColor : Color3) : Color3 :=
  ⟨intensity * lightColor.r, intensity * lightColor.g, intensity * lightColor.b⟩

/-- The values `contributionR`, `contributionG`, `contributionB` at the end of
one pass of the light loop for an enabled light (lines 515-569), with `sqrt` for
`Math.sqrt`. -/
def lightContribution (sqrt : JSNum → JSNum) (isWall isBox : Bool)
    (worldCenter worldNormal : Vector3) (light : Light) : Color3 :=
  let lightColor := lightColorOf light
  match light.kind with
  | LightKind.point =>
      let lightDir := Vector3.normalize sqrt (Vector3.subtract light.position worldCenter)
      let dot := Vector3.Dot worldNormal lightDir
      if JSNum.gt dot jsZero then
        let distance := Vector3.Distance sqrt light.position worldCenter
        let attenuation := jsOne / (jsOne + tenth * distance + hundredth * distance * distance)
        let intensity := dot * light.intensity * attenuation
        let c := tint intensity lightColor
        if isWall || isBox then
          let verticalFactor := JSNum.max jsZero (lightDir.y * jsHalf + jsHalf)
          let shadowFactor := JSNum.max jsZero (jsOne - distance / JSNum.fin 15)
          ⟨c.r * verticalFactor * shadowFactor, c.g * verticalFactor * shadowFactor,
            c.b * verticalFactor * shadowFactor⟩
        else c
      else ⟨jsZero, jsZero, jsZero⟩
  | LightKind.directional =>
      let dot := Vector3.Dot worldNormal (Vector3.scale light.direction (JSNum.fin (-1)))
      if JSNum.gt dot jsZero then tint (dot * light.intensity) lightColor
      else ⟨jsZero, jsZero, jsZero⟩
  | LightKind.hemispheric =>
      let dot := Vector3.Dot worldNormal light.direction
      tint ((dot * jsHalf + jsHalf) * light.intensity) lightColor
  | LightKind.other => ⟨jsZero, jsZero, jsZero⟩

/-- One pass of the loop `for (const light of lights)` on the running value
`(lightR, lightG, lightB)`. -/
def lightStep (sqrt : JSNum → JSNum) (isWall isBox : Bool) (worldCenter worldNormal : Vector3)
    (acc : Color3) (light : Light) : Color3 :=
  if light.enabled then
    let c := lightContribution sqrt isWall isBox worldCenter worldNormal light
    ⟨acc.r + c.r, acc.g + c.g, acc.b + c.b⟩
  else acc

/-- The ambient start value `(0.1, 0.1, 0.1)` of the running light. -/
def ambient : Color3 := ⟨tenth, tenth, tenth⟩

/-- The running value after the light loop, before the clamp. -/
def accumulateLights (sqrt : JSNum → JSNum) (isWall isBox : Bool)
    (worldCenter worldNormal : Vector3) (lights : List Light) : Color3 :=
  lights.foldl (lightStep sqrt isWall isBox worldCenter worldNormal) ambient

/-- The clamp `Math.max(0.1, Math.min(1.0, v))`. -/
def clampChannel (v : JSNum) : JSNum := JSNum.max tenth (JSNum.min jsOne v)

/-- The shading value `(lightR, lightG, lightB)` of a triangle after the clamp. -/
def triangleShading (sqrt : JSNum → JSNum) (isWall isBox : Bool)
    (worldCenter worldNormal : Vector3) (lights : List Light) : Color3 :=
  let total := accumulateLights sqrt isWall isBox worldCenter worldNormal lights
  ⟨clampChannel total.r, clampChannel total.g, clampChannel total.b⟩

/-- The value `Math.max(lightmapData[idx], light * 255)` stored in a covered
cell that held `old` (lines 615-617). -/
def writtenValue (old light : JSNum) : JSNum := JSNum.max old (light * JSNum.fin 255)

end Binary64

/-! ## The rasterizer (lines 581-620) -/

/-- A grid cell, the result of `mapUVToGrid`. -/
structure GridPoint where
  x : ℤ
  y : ℤ
  deriving DecidableEq

/-- The product `uv.x * gridSize` (and `uv.y * gridSize`) of `mapUVToGrid` for a
finite coordinate `u`: the exact product rounded to binary64. -/
def scaleToGrid (gridSize : ℕ) (u : ℚ) : JSNum := JSNum.fin u * JSNum.ofInt (gridSize : ℤ)

/-- The value `Math.max(0, Math.min(gridSize - 1, Math.floor(p)))` for a product
`p`. The floor of a finite value and the clamp of an integer are exact;
`Math.floor` keeps a zero or an infinity, of which the clamp makes an end of the
range. The product of a finite coordinate and `gridSize` is never NaN
(`scaleToGrid_ne_nan`), for which JavaScript would return NaN. -/
def clampToGrid (gridSize : ℕ) : JSNum → ℤ
  | JSNum.fin q => max 0 (min ((gridSize : ℤ) - 1) ⌊q⌋)
  | JSNum.negZero => max 0 (min ((gridSize : ℤ) - 1) 0)
  | JSNum.posInf => max 0 ((gridSize : ℤ) - 1)
  | JSNum.negInf => 0
  | JSNum.nan => 0

/-- The function `mapUVToGrid` on a UV with finite components. -/
def mapUVToGrid (gridSize : ℕ) (uv : Vector2) : GridPoint :=
  ⟨clampToGrid gridSize (scaleToGrid gridSize uv.x),
    clampToGrid gridSize (scaleToGrid gridSize uv.y)⟩

/-- The cell lies in the grid: both coordinates are in `[0, gridSize - 1]`. -/
def GridPoint.inGrid (gridSize : ℕ) (g : GridPoint) : Prop :=
  0 ≤ g.x ∧ g.x < gridSize ∧ 0 ≤ g.y ∧ g.y < gridSize

/-- Twice the signed area of the triangle `g1 g2 g3` in exact integer
arithmetic (the sum that `pointInTriangle` halves to get `area`). -/
def twiceArea (g1 g2 g3 : GridPoint) : ℤ :=
  -g2.y * g3.x + g1.y * (-g2.x + g3.x) + g1.x * (g2.y - g3.y) + g2.x * g3.y

/-- The point `(x, y)` lies inside or on an edge of the triangle `g1 g2 g3`: it
is a convex combination of the three vertices. -/
def inClosedTriangle (g1 g2 g3 : GridPoint) (x y : ℤ) : Prop :=
  ∃ a b c : ℚ, 0 ≤ a ∧ 0 ≤ b ∧ 0 ≤ c ∧ a + b + c = 1 ∧
    (x : ℚ) = a * g1.x + b * g2.x + c * g3.x ∧ (y : ℚ) = a * g1.y + b * g2.y + c * g3.y

/-- The bound `minX` of the rasterization loop (and `minY`, on the `y`s). -/
def boxMin (gridSize : ℕ) (a b c : ℤ) : ℤ :=
  max 0 (min ((gridSize : ℤ) - 1) (min a (min b c)))

/-- The bound `maxX` of the rasterization loop (and `maxY`, on the `y`s). -/
def boxMax (gridSize : ℕ) (a b c : ℤ) : ℤ :=
  max 0 (min ((gridSize : ℤ) - 1) (max a (max b c)))

/-- The values of `v` in `for (let v = lo; v <= hi; v++)`, in order. -/
def loopRange (lo hi : ℤ) : List ℤ :=
  (List.range (hi + 1 - lo).toNat).map (fun (k : ℕ) => lo + (k : ℤ))

/-- The index `idx = (y * gridSize + x) * 3` of a cell in `lightmapData`. -/
def cellIndex (gridSize : ℕ) (x y : ℤ) : ℕ := ((y * gridSize + x) * 3).toNat

/-- The assignment `lightmapData[i] = Math.max(lightmapData[i], v)`. -/
def writeMax (data : List ℚ) (i : ℕ) (v : ℚ) : List ℚ :=
  data.set i (max (data.getD i 0) v)

/-- The three assignments of the loop body for one covered cell: each channel
becomes the maximum of what it held and `255` times the shading channel. -/
def writeCell (gridSize : ℕ) (light : Color3) (data : List ℚ) (x y : ℤ) : List ℚ :=
  let idx := cellIndex gridSize x y
  writeMax (writeMax (writeMax data idx (light.r * 255)) (idx + 1) (light.g * 255))
    (idx + 2) (light.b * 255)

/-- The call `pointInTriangle(x, y, g1.x, g1.y, g2.x, g2.y, g3.x, g3.y)`. -/
def cellInTriangle (g1 g2 g3 : GridPoint) (x y : ℤ) : Bool :=
  pointInTriangle (JSNum.ofInt x) (JSNum.ofInt y) (JSNum.ofInt g1.x) (JSNum.ofInt g1.y)
    (JSNum.ofInt g2.x) (JSNum.ofInt g2.y) (JSNum.ofInt g3.x) (JSNum.ofInt g3.y)

/-- The body of the inner loop at cell `(x, y)`. -/
def rasterCell (gridSize : ℕ) (g1 g2 g3 : GridPoint) (light : Color3) (y : ℤ)
    (data : List ℚ) (x : ℤ) : List ℚ :=
  if cellInTriangle g1 g2 g3 x y then writeCell gridSize light data x y else data

/-- The inner loop `for (let x = minX; x <= maxX; x++)` on row `y`. -/
def rasterRow (gridSize : ℕ) (g1 g2 g3 : GridPoint) (light : Color3)
    (data : List ℚ) (y : ℤ) : List ℚ :=
  (loopRange (boxMin gridSize g1.x g2.x g3.x) (boxMax gridSize g1.x g2.x g3.x)).foldl
    (rasterCell gridSize g1 g2 g3 light y) data

/-- The two nested rasterization loops for one triangle. -/
def rasterizeTriangle (gridSize : ℕ) (g1 g2 g3 : GridPoint) (light : Color3)
    (data : List ℚ) : List ℚ :=
  (loopRange (boxMin gridSize g1.y g2.y g3.y) (boxMax gridSize g1.y g2.y g3.y)).foldl
    (rasterRow gridSize g1 g2 g3 light) data

/-- What the body of the triangle loop reads of one triangle once its UVs,
centre and normal are computed: `uv1`, `uv2`, `uv3`, `worldCenter`, `worldNormal`. -/
structure Triangle where
  uv1 : Vector2
  uv2 : Vector2
  uv3 : Vector2
  worldCenter : Vector3
  worldNormal : Vector3

/-- The body of the triangle loop from line 506 on: shade the triangle, map its
UVs to the grid and rasterize it. -/
def processTriangle (sqrt : ℚ → ℚ) (gridSize : ℕ) (isWall isBox : Bool) (lights : List Light)
    (data : List ℚ) (t : Triangle) : List ℚ :=
  rasterizeTriangle gridSize (mapUVToGrid gridSize t.uv1) (mapUVToGrid gridSize t.uv2)
    (mapUVToGrid gridSize t.uv3)
    (triangleShading sqrt isWall isBox t.worldCenter t.worldNormal lights) data

/-- The array `new Array(gridSize * gridSize * 3).fill(0)`. -/
def emptyLightmap (gridSize : ℕ) : List ℚ := List.replicate (gridSize * gridSize * 3) 0

/-- The array `lightmapData` after the triangle loop. -/
def rasterizeMesh (sqrt : ℚ → ℚ) (gridSize : ℕ) (isWall isBox : Bool) (lights : List Light)
    (triangles : List Triangle) : List ℚ :=
  triangles.foldl (processTriangle sqrt gridSize isWall isBox lights) (emptyLightmap gridSize)

/-- Whether the rasterization loops of triangle `t` reach cell `(x, y)` and
`pointInTriangle` accepts it, so that the cell is written. -/
def covers (gridSize : ℕ) (g1 g2 g3 : GridPoint) (x y : ℤ) : Bool :=
  decide (boxMin gridSize g1.x g2.x g3.x ≤ x ∧ x ≤ boxMax gridSize g1.x g2.x g3.x ∧
    boxMin gridSize g1.y g2.y g3.y ≤ y ∧ y ≤ boxMax gridSize g1.y g2.y g3.y) &&
  cellInTriangle g1 g2 g3 x y

/-- Whether triangle `t` of the mesh writes cell `(x, y)`. -/
def Triangle.covers (gridSize : ℕ) (t : Triangle) (x y : ℤ) : Bool :=
  Lightmap.covers gridSize (mapUVToGrid gridSize t.uv1) (mapUVToGrid gridSize t.uv2)
    (mapUVToGrid gridSize t.uv3) x y

/-- The clamped shading value of triangle `t` of the mesh. -/
def Triangle.shading (sqrt : ℚ → ℚ) (isWall isBox : Bool) (lights : List Light)
    (t : Triangle) : Color3 :=
  triangleShading sqrt isWall isBox t.worldCenter t.worldNormal lights

/-- Channel `c` (`0`, `1`, `2` for red, green, blue) of a colour. -/
def Color3.channel (col : Color3) (c : ℕ) : ℚ :=
  if c = 0 then col.r else if c = 1 then col.g else col.b

/-- The entry of `lightmapData` for channel `c` of cell `(x, y)`. -/
def cellValue (gridSize : ℕ) (data : List ℚ) (x y : ℤ) (c : ℕ) : ℚ :=
  data.getD (cellIndex gridSize x y + c) 0

/-! ## UV synthesis and the triangle's centre and normal (lines 415-504) -/

/-- The method `a.add(b)`. -/
def Vector3.add (a b : Vector3) : Vector3 := ⟨a.x + b.x, a.y + b.y, a.z + b.z⟩

/-- The test `name.includes(part)` on strings. -/
def nameIncludes (name part : String) : Bool := decide (part.data <:+: name.data)

/-- The four flags `isWall`, `isGround`, `isBox`, `isSphere` of a mesh. -/
structure MeshKind where
  isWall : Bool
  isGround : Bool
  isBox : Bool
  isSphere : Bool
  deriving DecidableEq

/-- The flags computed from `mesh.name.toLowerCase()` (lines 416-419). -/
def meshKindOf (name : String) : MeshKind :=
  { isWall := nameIncludes name.toLower "wall"
    isGround := nameIncludes name.toLower "ground" || nameIncludes name.toLower "floor"
    isBox := nameIncludes name.toLower "box"
    isSphere := nameIncludes name.toLower "sphere" }

/-- What lines 427-445 read of one triangle: its vertices `v1 v2 v3`, its
vertex normals `n1 n2 n3`, and the UVs `uv1 uv2 uv3` read from the mesh's UV
buffer when the test `uvs && uvs.length >= indices[i] * 2 + 2` passes (`none`
when it fails, as for a mesh without UV data). -/
structure RawTriangle where
  v1 : Vector3
  v2 : Vector3
  v3 : Vector3
  n1 : Vector3
  n2 : Vector3
  n3 : Vector3
  supplied : Option (Vector2 × Vector2 × Vector2)

/-- The three UVs of a triangle and its three vertices as they are after the
UVs were computed (`mapToUV` normalizes its vertex in place). -/
structure TriangleUVs where
  uv1 : Vector2
  uv2 : Vector2
  uv3 : Vector2
  v1 : Vector3
  v2 : Vector3
  v3 : Vector3

/-- The wall UV of a vertex: `(useX ? (v.x + 5) / 10 : (v.z + 5) / 10,
(v.y + 2.5) / 5)`. -/
def wallUV (useX : Bool) (v : Vector3) : Vector2 :=
  ⟨if useX then (v.x + 5) / 10 else (v.z + 5) / 10, (v.y + 5 / 2) / 5⟩

/-- The arrow function `mapToUV` of the sphere branch, applied to the
normalized vertex `dir`. -/
def sphereUV (atan2 : ℚ → ℚ → ℚ) (asin : ℚ → ℚ) (pi : ℚ) (dir : Vector3) : Vector2 :=
  ⟨1 / 2 + atan2 dir.z dir.x / (2 * pi), 1 / 2 - asin dir.y / pi⟩

/-- The branch `else` of line 446: UVs generated from the mesh type. `sqrt`,
`atan2`, `asin` and `pi` stand for `Math.sqrt`, `Math.atan2`, `Math.asin` and
`Math.PI`. -/
def synthesizeUVs (sqrt : ℚ → ℚ) (atan2 : ℚ → ℚ → ℚ) (asin : ℚ → ℚ) (pi : ℚ)
    (kind : MeshKind) (v1 v2 v3 n1 : Vector3) : TriangleUVs :=
  if kind.isWall then
    let useX := decide (|n1.x| < |n1.z|)
    ⟨wallUV useX v1, wallUV useX v2, wallUV useX v3, v1, v2, v3⟩
  else if kind.isGround then
    ⟨⟨(v1.x + 5) / 10, (v1.z + 5) / 10⟩, ⟨(v2.x + 5) / 10, (v2.z + 5) / 10⟩,
      ⟨(v3.x + 5) / 10, (v3.z + 5) / 10⟩, v1, v2, v3⟩
  else if kind.isBox then
    if |n1.x| < |n1.y| ∧ |n1.z| < |n1.y| then
      ⟨⟨(v1.x + 1 / 2) / 1, (v1.z + 1 / 2) / 1⟩, ⟨(v2.x + 1 / 2) / 1, (v2.z + 1 / 2) / 1⟩,
        ⟨(v3.x + 1 / 2) / 1, (v3.z + 1 / 2) / 1⟩, v1, v2, v3⟩
    else if |n1.z| < |n1.x| then
      ⟨⟨(v1.z + 1 / 2) / 1, (v1.y + 1 / 2) / 1⟩, ⟨(v2.z + 1 / 2) / 1, (v2.y + 1 / 2) / 1⟩,
        ⟨(v3.z + 1 / 2) / 1, (v3.y + 1 / 2) / 1⟩, v1, v2, v3⟩
    else
      ⟨⟨(v1.x + 1 / 2) / 1, (v1.y + 1 / 2) / 1⟩, ⟨(v2.x + 1 / 2) / 1, (v2.y + 1 / 2) / 1⟩,
        ⟨(v3.x + 1 / 2) / 1, (v3.y + 1 / 2) / 1⟩, v1, v2, v3⟩
  else if kind.isSphere then
    ⟨sphereUV atan2 asin pi (Vector3.normalize sqrt v1),
      sphereUV atan2 asin pi (Vector3.normalize sqrt v2),
      sphereUV atan2 asin pi (Vector3.normalize sqrt v3),
      Vector3.normalize sqrt v1, Vector3.normalize sqrt v2, Vector3.normalize sqrt v3⟩
  else
    ⟨⟨1 / 2 + v1.x / 10, 1 / 2 + v1.z / 10⟩, ⟨1 / 2 + v2.x / 10, 1 / 2 + v2.z / 10⟩,
      ⟨1 / 2 + v3.x / 10, 1 / 2 + v3.z / 10⟩, v1, v2, v3⟩

/-- Lines 437-494: the UVs of the triangle, read from the mesh when it supplies
them and generated otherwise. -/
def triangleUVs (sqrt : ℚ → ℚ) (atan2 : ℚ → ℚ → ℚ) (asin : ℚ → ℚ) (pi : ℚ)
    (kind : MeshKind) (raw : RawTriangle) : TriangleUVs :=
  match raw.supplied with
  | some uv => ⟨uv.1, uv.2.1, uv.2.2, raw.v1, raw.v2, raw.v3⟩
  | none => synthesizeUVs sqrt atan2 asin pi kind raw.v1 raw.v2 raw.v3 raw.n1

/-- Lines 437-504 for one triangle: its UVs, the centre of its vertices and
the normalized sum of its normals, both taken to world space. `toWorld` and
`normalToWorld` stand for `BABYLON.Vector3.TransformCoordinates` and
`TransformNormal` with the mesh's world matrix. -/
def prepareTriangle (sqrt : ℚ → ℚ) (atan2 : ℚ → ℚ → ℚ) (asin : ℚ → ℚ) (pi : ℚ)
    (kind : MeshKind) (toWorld normalToWorld : Vector3 → Vector3) (raw : RawTriangle) :
    Triangle :=
  let u := triangleUVs sqrt atan2 asin pi kind raw
  let center := Vector3.scale (Vector3.add (Vector3.add u.v1 u.v2) u.v3) (1 / 3)
  let normal := Vector3.normalize sqrt (Vector3.add (Vector3.add raw.n1 raw.n2) raw.n3)
  { uv1 := u.uv1, uv2 := u.uv2, uv3 := u.uv3
    worldCenter := toWorld center
    worldNormal := Vector3.normalize sqrt (normalToWorld normal) }

/-- The triangle `raw` as read from a mesh that supplies the UVs `uvs`. -/
def RawTriangle.withUVs (raw : RawTriangle) (uvs : Vector2 × Vector2 × Vector2) :
    RawTriangle :=
  { raw with supplied := some uvs }

/-- The triangle `raw` as read from a mesh without UV data. -/
def RawTriangle.withoutUVs (raw : RawTriangle) : RawTriangle :=
  { raw with supplied := none }

/-! ## The lightmap canvas of one mesh (lines 385-413 and 623-679) -/

/-- A drawing step on the 2D context of the lightmap canvas. -/
inductive DrawOp where
  /-- `ctx.fillStyle = style; ctx.fillRect(x, y, w, h)`. -/
  | fillRect (style : String) (x y w h : ℚ)
  /-- The lightmap array put on a temporary canvas of side `gridSize` and drawn
  scaled to the whole canvas (lines 623-641). -/
  | drawLightmap (data : List ℚ) (gridSize : ℕ)
  /-- The blur pass of lines 643-646. -/
  | blur
  /-- `ctx.beginPath(); ctx.moveTo(x0, y0); ctx.lineTo(x1, y1); ctx.stroke()`. -/
  | strokeLine (x0 y0 x1 y1 : ℚ)
  /-- `ctx.fillStyle = style; ctx.font = font; ctx.fillText(text, x, y)`. -/
  | fillText (style font text : String) (x y : ℚ)
  deriving DecidableEq

/-- The canvas returned by `createLightmapForMesh`: its size and what was drawn
on it, in order. -/
structure Canvas where
  width : ℕ
  height : ℕ
  ops : List DrawOp
  deriving DecidableEq

/-- A mesh as the bake reads and changes it. `triangles` is what the triangle
loop reads for each index triple, `toWorld` and `normalToWorld` apply the world
matrix, and `throwsAfter` is `some k` when an accessor of the mesh or the canvas
throws inside the `try` block after `k` of its drawing steps (`none` when the
block runs to its end). -/
structure Mesh where
  name : String
  isVisible : Bool
  hasMaterial : Bool
  lightmapApplied : Bool
  hasPositions : Bool
  hasNormals : Bool
  hasIndices : Bool
  indexCount : ℕ
  triangles : List RawTriangle
  toWorld : Vector3 → Vector3
  normalToWorld : Vector3 → Vector3
  throwsAfter : Option ℕ

/-- The grid side `gridSize = size / 2` (for an even `size`). -/
def gridSizeOf (size : ℕ) : ℕ := size / 2

/-- One pass of the overlay loop at offset `i`: a horizontal line from `(0, i)`
to `(size, i)`, then a vertical line from `(i, 0)` to `(i, size)`. -/
def overlayPass (size i : ℚ) : List DrawOp :=
  [DrawOp.strokeLine 0 i size i, DrawOp.strokeLine i 0 i size]

/-- The loop `for (let i = 0; i <= size; i += size / 16)` from offset `i` on;
`none` when `fuel` passes do not reach its end. -/
def overlayLoop (size : ℚ) : ℕ → ℚ → Option (List DrawOp)
  | 0, _ => none
  | fuel + 1, i =>
    if i ≤ size then (overlayLoop size fuel (i + size / 16)).map (overlayPass size i ++ ·)
    else some []

/-- The red marker of the `catch` block (lines 673-676). -/
def errorMarker (size : ℕ) : DrawOp :=
  DrawOp.fillText "red" "20px Arial" "Error" ((size : ℚ) / 2) ((size : ℚ) / 2)

/-- The watermark of lines 665-668: `mesh.name || 'Unnamed Mesh'`. -/
def watermark (name : String) (size : ℕ) : DrawOp :=
  DrawOp.fillText "rgba(255, 255, 255, 0.2)" "16px Arial"
    (if name = "" then "Unnamed Mesh" else name) ((size : ℚ) / 2) ((size : ℚ) - 10)

/-- The dark background of lines 393-394. -/
def background (size : ℕ) : DrawOp := DrawOp.fillRect "#111" 0 0 size size

/-- The array `lightmapData` of a mesh after the triangle loop (lines 408-621). -/
def meshLightmapData (sqrt : ℚ → ℚ) (atan2 : ℚ → ℚ → ℚ) (asin : ℚ → ℚ) (pi : ℚ)
    (mesh : Mesh) (lights : List Light) (size : ℕ) : List ℚ :=
  rasterizeMesh sqrt (gridSizeOf size) (meshKindOf mesh.name).isWall
    (meshKindOf mesh.name).isBox lights
    (mesh.triangles.map (prepareTriangle sqrt atan2 asin pi (meshKindOf mesh.name)
      mesh.toWorld mesh.normalToWorld))

/-- The drawing steps of the `try` block when nothing throws (lines 623-668);
`none` when `fuel` passes do not end the overlay loop. -/
def tryBlockOps (sqrt : ℚ → ℚ) (atan2 : ℚ → ℚ → ℚ) (asin : ℚ → ℚ) (pi : ℚ) (fuel : ℕ)
    (mesh : Mesh) (lights : List Light) (size : ℕ) : Option (List DrawOp) :=
  (overlayLoop size fuel 0).map (fun overlay =>
    [DrawOp.drawLightmap (meshLightmapData sqrt atan2 asin pi mesh lights size)
        (gridSizeOf size), DrawOp.blur] ++ overlay ++ [watermark mesh.name size])

/-- The function `createLightmapForMesh(mesh, scene, size)`, with `lights` for
`scene.lights`. A mesh without positions, normals or indices gets the canvas
with its background only (line 405). The `try` block throws before its first
drawing step when `size` is odd (`new Array` of a fractional length) or zero
(`createImageData(0, 0)`), and after `k` steps when the mesh says so; the
`catch` block then draws the error marker. -/
def createLightmapForMesh (sqrt : ℚ → ℚ) (atan2 : ℚ → ℚ → ℚ) (asin : ℚ → ℚ) (pi : ℚ)
    (fuel : ℕ) (mesh : Mesh) (lights : List Light) (size : ℕ) : Option Canvas :=
  if !mesh.hasPositions || !mesh.hasNormals || !mesh.hasIndices then
    some ⟨size, size, [background size]⟩
  else if size % 2 = 1 ∨ size = 0 then
    some ⟨size, size, [background size, errorMarker size]⟩
  else
    (tryBlockOps sqrt atan2 asin pi fuel mesh lights size).map (fun ops =>
      match mesh.throwsAfter with
      | some k => ⟨size, size, background size :: (ops.take k ++ [errorMarker size])⟩
      | none => ⟨size, size, background size :: ops⟩)

/-- The filter of lines 237-244: the meshes `downloadLightmapAsPNG` processes. -/
def meshToProcess (mesh : Mesh) : Bool :=
  mesh.isVisible && !nameIncludes mesh.name "helper" && !nameIncludes mesh.name "Helper" &&
    mesh.hasIndices && decide (0 < mesh.indexCount)

/-- The size `256` that `downloadLightmapAsPNG` passes to `createLightmapForMesh`
(line 304). -/
def downloadSize : ℕ := 256

/-- The canvases `downloadLightmapAsPNG(scene)` creates, one for each mesh it
processes (lines 302-304), with `lights` for `scene.lights` and `meshes` for
`scene.meshes`. -/
def downloadLightmapAsPNG (sqrt : ℚ → ℚ) (atan2 : ℚ → ℚ → ℚ) (asin : ℚ → ℚ) (pi : ℚ)
    (fuel : ℕ) (lights : List Light) (meshes : List Mesh) : List (Option Canvas) :=
  (meshes.filter meshToProcess).map (fun mesh =>
    createLightmapForMesh sqrt atan2 asin pi fuel mesh lights downloadSize)

/-! ## Quality tiers and the bake orchestrator (lines 1-115) -/

/-- What a property read on the object literal `qualitySettings` can give: one
of its three numbers, or a member inherited from `Object.prototype`. -/
inductive QualityValue where
  | number (n : ℕ)
  | inherited (key : String)
  deriving DecidableEq

/-- The property names every object literal inherits from `Object.prototype`. -/
def objectPrototypeKeys : List String :=
  ["constructor", "hasOwnProperty", "isPrototypeOf", "propertyIsEnumerable",
    "toLocaleString", "toString", "valueOf", "__proto__", "__defineGetter__",
    "__defineSetter__", "__lookupGetter__", "__lookupSetter__"]

/-- The property read `qualitySettings[key]`; `none` is `undefined`. -/
def qualitySettings (key : String) : Option QualityValue :=
  if key = "low" then some (QualityValue.number 256)
  else if key = "medium" then some (QualityValue.number 512)
  else if key = "high" then some (QualityValue.number 1024)
  else if key ∈ objectPrototypeKeys then some (QualityValue.inherited key)
  else none

/-- The value `textureSize = qualitySettings[quality] || qualitySettings.medium`
of `createLightmapTexture`; an absent `quality` reads the key `"undefined"`. -/
def textureSize (quality : Option String) : QualityValue :=
  (qualitySettings (quality.getD "undefined")).getD (QualityValue.number 512)

/-- The light `ambientLight` that `createLightmapTexture` constructs in the
scene (lines 16-18): hemispheric, direction `(0, 1, 0)`, intensity `0.3`,
diffuse colour `(1, 1, 1)`. -/
def bakeAmbientLight : Light :=
  ⟨LightKind.hemispheric, true, ⟨0, 0, 0⟩, ⟨0, 1, 0⟩, 3 / 10, some ⟨1, 1, 1⟩⟩

/-- The scene as the bake reads and changes it. -/
structure Scene where
  lights : List Light
  customRenderTargets : List QualityValue
  lightmapRenderTarget : Option QualityValue
  renderCount : ℕ

/-- What the loop of lines 28-47 does to one mesh. -/
def markMesh (mesh : Mesh) : Mesh :=
  { mesh with isVisible := true, hasMaterial := true, lightmapApplied := true }

/-- The function `createLightmapTexture(scene, meshes, quality)` when nothing
throws: constructing the hemispheric light adds it to `scene.lights` (as the
constructors of `createDefaultScene` do for the lights the lightmap reads), the
render target of the texture size is pushed and stored, every mesh is marked. -/
def createLightmapTexture (scene : Scene) (meshes : List Mesh) (quality : Option String) :
    Scene × List Mesh :=
  ({ scene with
      lights := scene.lights ++ [bakeAmbientLight]
      customRenderTargets := scene.customRenderTargets ++ [textureSize quality]
      lightmapRenderTarget := some (textureSize quality) },
    meshes.map markMesh)

/-- What a node appended to `document.body` by the bake is. -/
inductive NodeKind where
  | loadingIndicator
  | statusView (processed : ℕ)
  deriving DecidableEq

/-- A child of `document.body`, with the identity of the element. -/
structure DomNode where
  id : ℕ
  kind : NodeKind
  deriving DecidableEq

/-- The page as the bake changes it: the children of `document.body`, the
identity the next created element gets, and the messages passed to `alert`. -/
structure Page where
  body : List DomNode
  nextId : ℕ
  alerts : List String

/-- The argument `meshes` of `bakeLightmap`: absent (or another falsy value), a
value that is not an array, or an array of meshes. -/
inductive MeshesArg where
  | absent
  | notArray
  | array (meshes : List Mesh)

/-- Which of the calls inside the `try` block of `bakeLightmap` throw, each with
the message of the error: `createLightmapTexture` (leaving the scene and the
meshes as given), `showLightmapStatus`, `scene.render`. -/
structure BakeFaults where
  texture : Option (String × Scene × List Mesh)
  status : Option String
  render : Option String

/-- The state `bakeLightmap` leaves behind. -/
structure BakeResult where
  page : Page
  scene : Option Scene
  meshes : MeshesArg

/-- The statement `document.body.appendChild(element)` for a new element. -/
def Page.append (page : Page) (kind : NodeKind) : Page :=
  { page with body := page.body ++ [⟨page.nextId, kind⟩], nextId := page.nextId + 1 }

/-- The statement `if (loadingDiv && loadingDiv.parentNode)
document.body.removeChild(loadingDiv)` for the element of identity `id`. -/
def Page.remove (page : Page) (id : ℕ) : Page :=
  { page with body := page.body.filter (fun node => decide (node.id ≠ id)) }

/-- The statement `alert(message)`. -/
def Page.alert (page : Page) (message : String) : Page :=
  { page with alerts := page.alerts ++ [message] }

/-- The `catch` block of `bakeLightmap` (lines 104-114). -/
def bakeCatch (page : Page) (loadingId : ℕ) (message : String) : Page :=
  (page.remove loadingId).alert ("Error during lightmap baking: " ++ message)

/-- The function `bakeLightmap(scene, meshes, quality)`. -/
def bakeLightmap (faults : BakeFaults) (page : Page) (scene : Option Scene)
    (meshes : MeshesArg) (quality : Option String) : BakeResult :=
  match scene, meshes with
  | some sc, MeshesArg.array (m :: ms) =>
    let loadingId := page.nextId
    let page1 := page.append NodeKind.loadingIndicator
    match faults.texture with
    | some (message, sc', ms') =>
      ⟨bakeCatch page1 loadingId message, some sc', MeshesArg.array ms'⟩
    | none =>
      let baked := createLightmapTexture sc (m :: ms) quality
      let page2 := page1.remove loadingId
      match faults.status with
      | some message =>
        ⟨bakeCatch page2 loadingId message, some baked.1, MeshesArg.array baked.2⟩
      | none =>
        let page3 := page2.append (NodeKind.statusView (m :: ms).length)
        match faults.render with
        | some message =>
          ⟨bakeCatch page3 loadingId message, some baked.1, MeshesArg.array baked.2⟩
        | none =>
          ⟨page3, some { baked.1 with renderCount := baked.1.renderCount + 1 },
            MeshesArg.array baked.2⟩
  | _, _ =>
    ⟨page.alert "Error: Could not bake lightmap. Check console for details.", scene, meshes⟩

/-- The message of the error caught by the `try` block of `bakeLightmap`, when
one of its calls throws: the first of `createLightmapTexture`,
`showLightmapStatus`, `scene.render` that does. -/
def BakeFaults.firstMessage (faults : BakeFaults) : Option String :=
  match faults.texture with
  | some (message, _, _) => some message
  | none =>
    match faults.status with
    | some message => some message
    | none => faults.render

/-- The meshes of an array argument (none for a value that is not an array). -/
def MeshesArg.toList : MeshesArg → List Mesh
  | MeshesArg.array meshes => meshes
  | _ => []

/-- The lights of the scene after the bake (none when there is no scene). -/
def BakeResult.lights (result : BakeResult) : List Light :=
  match result.scene with
  | some scene => scene.lights
  | none => []

/-- Whether a drawing step is a stroked horizontal line. -/
def DrawOp.isHorizontalLine : DrawOp → Bool
  | DrawOp.strokeLine _ y0 _ y1 => decide (y0 = y1)
  | _ => false

/-- Whether a drawing step is a stroked vertical line. -/
def DrawOp.isVerticalLine : DrawOp → Bool
  | DrawOp.strokeLine x0 _ x1 _ => decide (x0 = x1)
  | _ => false

/-! ## Concrete inputs -/

/-- A computable square root for concrete inputs: exact on the squares of
rationals, where it agrees with `Math.sqrt`. -/
def ratSqrt (q : ℚ) : ℚ := (Nat.sqrt q.num.natAbs : ℚ) / (Nat.sqrt q.den : ℚ)

/-- A hemispheric light pointing up, with intensity `1` and diffuse colour
`(1, 1, 1)`. -/
def skyLight : Light :=
  ⟨LightKind.hemispheric, true, ⟨0, 0, 0⟩, ⟨0, 1, 0⟩, 1, some ⟨1, 1, 1⟩⟩

/-- A hemispheric light whose direction `(0, -3, 0)` has length `3`. -/
def longDownLight : Light :=
  ⟨LightKind.hemispheric, true, ⟨0, 0, 0⟩, ⟨0, -3, 0⟩, 1, some ⟨1, 1, 1⟩⟩

/-- The default scene's point light at `(0, 5, 0)`, with intensity `1`. -/
def ceilingLight : Light :=
  ⟨LightKind.point, true, ⟨0, 5, 0⟩, ⟨0, 0, 0⟩, 1, some ⟨1, 1, 1⟩⟩

/-- A point light `20` units above the origin. -/
def farLight : Light :=
  ⟨LightKind.point, true, ⟨0, 20, 0⟩, ⟨0, 0, 0⟩, 1, some ⟨1, 1, 1⟩⟩

/-- A disabled point light. -/
def disabledLight : Light :=
  ⟨LightKind.point, false, ⟨0, 5, 0⟩, ⟨0, 0, 0⟩, 1000, some ⟨1, 1, 1⟩⟩

/-- A light of a class the light loop does not know (a spot light, say). -/
def spotLight : Light :=
  ⟨LightKind.other, true, ⟨0, 5, 0⟩, ⟨0, -1, 0⟩, 1, some ⟨1, 1, 1⟩⟩

/-- First triangle of a ground quad: UVs `(0,0)`, `(1,0)`, `(1,1)`, normal up. -/
def groundTriangleA : Triangle :=
  ⟨⟨0, 0⟩, ⟨1, 0⟩, ⟨1, 1⟩, ⟨5 / 3, 0, -5 / 3⟩, ⟨0, 1, 0⟩⟩

/-- Second triangle of a ground quad: UVs `(0,0)`, `(1,1)`, `(0,1)`, normal up. -/
def groundTriangleB : Triangle :=
  ⟨⟨0, 0⟩, ⟨1, 1⟩, ⟨0, 1⟩, ⟨-5 / 3, 0, 5 / 3⟩, ⟨0, 1, 0⟩⟩

/-- No call throws. -/
def noFaults : BakeFaults := ⟨none, none, none⟩

/-- A page with nothing attached by a bake. -/
def emptyPage : Page := ⟨[], 0, []⟩

/-- A scene without lights. -/
def darkScene : Scene := ⟨[], [], none, 0⟩

/-- A stand-in for `Math.atan2` on concrete inputs that do not reach it. -/
def noAtan2 : ℚ → ℚ → ℚ := fun _ _ => 0

/-- A stand-in for `Math.asin` on concrete inputs that do not reach it. -/
def noAsin : ℚ → ℚ := fun _ => 0

/-- A rational stand-in for `Math.PI` on concrete inputs. -/
def approxPi : ℚ := 355 / 113

/-- The two triangles of a ground quad of side `10` with the UVs of the mesh. -/
def groundRawTriangles : List RawTriangle :=
  [⟨⟨-5, 0, 5⟩, ⟨5, 0, 5⟩, ⟨5, 0, -5⟩, ⟨0, 1, 0⟩, ⟨0, 1, 0⟩, ⟨0, 1, 0⟩,
      some (⟨0, 0⟩, ⟨1, 0⟩, ⟨1, 1⟩)⟩,
    ⟨⟨-5, 0, 5⟩, ⟨5, 0, -5⟩, ⟨-5, 0, -5⟩, ⟨0, 1, 0⟩, ⟨0, 1, 0⟩, ⟨0, 1, 0⟩,
      some (⟨0, 0⟩, ⟨1, 1⟩, ⟨0, 1⟩)⟩]

/-- A visible ground mesh with all its data, placed at the origin. -/
def groundMesh : Mesh :=
  { name := "ground", isVisible := true, hasMaterial := true, lightmapApplied := false
    hasPositions := true, hasNormals := true, hasIndices := true, indexCount := 6
    triangles := groundRawTriangles, toWorld := id, normalToWorld := id
    throwsAfter := none }

/-- The ground mesh without normal data. -/
def noNormalsMesh : Mesh := { groundMesh with name := "broken", hasNormals := false }

/-- The ground mesh when the first drawing step of the `try` block throws. -/
def throwingMesh : Mesh := { groundMesh with name := "throwing", throwsAfter := some 0 }

/-- A wall triangle without UV data whose first normal points along `z`. -/
def wallRawTriangle : RawTriangle :=
  ⟨⟨-5, 0, 5⟩, ⟨5, 0, 5⟩, ⟨5, 5, 5⟩, ⟨0, 0, -1⟩, ⟨0, 0, -1⟩, ⟨0, 0, -1⟩, none⟩

/-- The world transform of the default scene's sphere, which is moved to
`(-2, 0.5, -2)` and neither turned nor scaled. -/
def sphereToWorld (v : Vector3) : Vector3 := Vector3.add v ⟨-2, 1 / 2, -2⟩

/-- A triangle at the top of a sphere of diameter `1` without UV data: its
vertices have length `1 / 2` and its normals are the unit directions of the
vertices. -/
def sphereRawTriangle : RawTriangle :=
  ⟨⟨0, 1 / 2, 0⟩, ⟨0, 3 / 10, 2 / 5⟩, ⟨3 / 10, 2 / 5, 0⟩,
    ⟨0, 1, 0⟩, ⟨0, 3 / 5, 4 / 5⟩, ⟨3 / 5, 4 / 5, 0⟩, none⟩

/-- The scene's point light moved to `(-0.5, 6.5, 0)`, with intensity `1`. -/
def movedLight : Light :=
  ⟨LightKind.point, true, ⟨-1 / 2, 13 / 2, 0⟩, ⟨0, 0, 0⟩, 1, some ⟨1, 1, 1⟩⟩

/-- A hemispheric light with direction `(0, 3, 0)`, intensity `1e308` and
diffuse colour `(1, 0, 0)`. -/
def overbrightLight : Binary64.Light :=
  ⟨LightKind.hemispheric, true, ⟨jsZero, jsZero, jsZero⟩, ⟨jsZero, JSNum.fin 3, jsZero⟩,
    JSNum.roundBinary64 ((10 ^ 308 : ℕ) : ℚ), some ⟨jsOne, jsZero, jsZero⟩⟩

/-! ## Lemmas on the number model -/

namespace JSNum

theorem log2Aux_le (fuel : ℕ) : ∀ (n k : ℕ), n < 2 ^ (k + 1) → log2Aux fuel n ≤ k := by
  induction fuel with
  | zero => intro n k _; simp [log2Aux]
  | succ f ih =>
    intro n k h
    unfold log2Aux
    by_cases h2 : n < 2
    · simp [h2]
    · rw [if_neg h2]
      cases k with
      | zero => simp at h; omega
      | succ k =>
        have h3 : n / 2 < 2 ^ (k + 1) := by
          rw [Nat.div_lt_iff_lt_mul (by norm_num)]
          rw [pow_succ] at h
          exact h
        have := ih (n / 2) k h3
        omega

theorem log2Floor_le (n k : ℕ) (h : n < 2 ^ (k + 1)) : log2Floor n ≤ k :=
  log2Aux_le n n k h

theorem pow2_of_nonpos (e : ℤ) (h : e ≤ 0) :
    pow2 e = 1 / (((2 ^ (-e).toNat : ℕ)) : ℚ) := by
  unfold pow2
  by_cases h0 : 0 ≤ e
  · have he : e = 0 := le_antisymm h h0
    subst he
    simp
  · rw [if_neg h0]

theorem roundHalfEven_intCast (z : ℤ) : roundHalfEven (z : ℚ) = z := by
  unfold roundHalfEven
  simp

theorem binade_intCast_bounds (n : ℤ) (hb : |n| < 2 ^ 53) :
    -1 ≤ binade (n : ℚ) ∧ binade (n : ℚ) ≤ 52 := by
  have hnat : n.natAbs < 2 ^ (52 + 1) := by
    have : (n.natAbs : ℤ) < 2 ^ 53 := by rw [Int.natCast_natAbs]; exact hb
    exact_mod_cast this
  have h1 := log2Floor_le n.natAbs 52 hnat
  have h2 : log2Floor 1 = 0 := by decide
  unfold binade
  simp only [Rat.num_intCast, Rat.den_intCast, h2]
  split <;> constructor <;> push_cast <;> omega

theorem ulpExp_intCast_bounds (n : ℤ) (hb : |n| < 2 ^ 53) :
    -53 ≤ ulpExp (n : ℚ) ∧ ulpExp (n : ℚ) ≤ 0 := by
  have h := binade_intCast_bounds n hb
  unfold ulpExp
  constructor
  · exact le_trans (by omega) (le_max_left _ _)
  · exact max_le (by omega) (by norm_num)

/-- An integer below `2 ^ 53` in absolute value is a binary64 value: rounding
leaves it as it is. -/
theorem roundBinary64_intCast (n : ℤ) (hn : n ≠ 0) (hb : |n| < 2 ^ 53) :
    roundBinary64 (n : ℚ) = fin (n : ℚ) := by
  have hu := ulpExp_intCast_bounds n hb
  unfold roundBinary64
  rw [pow2_of_nonpos _ hu.2]
  generalize (-ulpExp (n : ℚ)).toNat = j
  have hpos : (0 : ℚ) < ((2 ^ j : ℕ) : ℚ) := by positivity
  have hq : (n : ℚ) / (1 / ((2 ^ j : ℕ) : ℚ)) = (((n * (2 ^ j : ℕ) : ℤ)) : ℚ) := by
    push_cast
    field_simp
  have hr : ((n * (2 ^ j : ℕ) : ℤ) : ℚ) * (1 / ((2 ^ j : ℕ) : ℚ)) = (n : ℚ) := by
    push_cast
    field_simp
  simp only [hq, roundHalfEven_intCast, hr]
  have hn' : (n : ℚ) ≠ 0 := by exact_mod_cast hn
  have habs : |(n : ℚ)| < 2 ^ 53 := by
    have : ((|n| : ℤ) : ℚ) < ((2 ^ 53 : ℤ) : ℚ) := by exact_mod_cast hb
    simpa using this
  have hbig : ¬ (pow2 1024 ≤ |(n : ℚ)|) := by
    have h1024 : (2 : ℚ) ^ 53 ≤ pow2 1024 := by
      have e : (1024 : ℤ).toNat = 1024 := rfl
      unfold pow2
      rw [if_pos (by norm_num), e]
      norm_num
    intro h
    linarith
  rw [if_neg hbig, if_neg hn']

theorem neg_def (a : JSNum) : -a = neg a := rfl

theorem add_def (a b : JSNum) : a + b = add a b := rfl

theorem sub_def (a b : JSNum) : a - b = add a (neg b) := rfl

theorem mul_def (a b : JSNum) : a * b = mul a b := rfl

theorem div_def (a b : JSNum) : a / b = div a b := rfl

theorem isInt_ofInt (n : ℤ) : IsInt (ofInt n) n := Or.inl rfl

theorem isInt_zero_cases (v : JSNum) (h : IsInt v 0) : v = fin 0 ∨ v = negZero := by
  rcases h with h | ⟨-, h⟩
  · left; simpa using h
  · right; exact h

theorem isInt_neg (a : JSNum) (m : ℤ) (ha : IsInt a m) : IsInt (-a) (-m) := by
  rw [neg_def]
  rcases ha with rfl | ⟨rfl, rfl⟩
  · by_cases h0 : m = 0
    · subst h0
      right
      simp [neg]
    · left
      have h0' : (m : ℚ) ≠ 0 := by exact_mod_cast h0
      simp [neg, h0']
  · left
    simp [neg]

theorem isInt_add (a b : JSNum) (m n : ℤ) (ha : IsInt a m) (hb : IsInt b n)
    (hbound : |m + n| < 2 ^ 53) : IsInt (a + b) (m + n) := by
  rw [add_def]
  rcases ha with rfl | ⟨rfl, rfl⟩ <;> rcases hb with rfl | ⟨rfl, rfl⟩
  · left
    by_cases h0 : m + n = 0
    · have h0' : (m : ℚ) + (n : ℚ) = 0 := by exact_mod_cast h0
      simp [add, h0', h0]
    · have h0' : ¬ ((m : ℚ) + (n : ℚ) = 0) := by exact_mod_cast h0
      have hr := roundBinary64_intCast (m + n) h0 hbound
      push_cast at hr
      simp only [add, if_neg h0', hr]
      push_cast
      rfl
  · left
    simp [add]
  · left
    simp [add]
  · right
    simp [add]

theorem isInt_sub (a b : JSNum) (m n : ℤ) (ha : IsInt a m) (hb : IsInt b n)
    (hbound : |m - n| < 2 ^ 53) : IsInt (a - b) (m - n) := by
  rw [sub_def, ← add_def, sub_eq_add_neg]
  exact isInt_add a (-b) m (-n) ha (isInt_neg b n hb) (by rwa [← sub_eq_add_neg])

theorem zero_isInt (s : Bool) : IsInt (zero s) 0 := by
  cases s
  · left; simp [zero]
  · right; simp [zero]

theorem isInt_mul (a b : JSNum) (m n : ℤ) (ha : IsInt a m) (hb : IsInt b n)
    (hbound : |m * n| < 2 ^ 53) : IsInt (a * b) (m * n) := by
  rw [mul_def]
  rcases ha with rfl | ⟨rfl, rfl⟩ <;> rcases hb with rfl | ⟨rfl, rfl⟩
  · by_cases h0 : m = 0 ∨ n = 0
    · have h0' : (m : ℚ) = 0 ∨ (n : ℚ) = 0 := by
        rcases h0 with h | h
        · left; exact_mod_cast h
        · right; exact_mod_cast h
      have hz : m * n = 0 := mul_eq_zero.mpr h0
      simp only [mul, if_pos h0', hz]
      exact zero_isInt _
    · have h0' : ¬ ((m : ℚ) = 0 ∨ (n : ℚ) = 0) := by
        intro h
        apply h0
        rcases h with h | h
        · left; exact_mod_cast h
        · right; exact_mod_cast h
      have hne : m * n ≠ 0 := fun h => h0 (mul_eq_zero.mp h)
      have hr := roundBinary64_intCast (m * n) hne hbound
      push_cast at hr
      left
      simp only [mul, if_neg h0', hr]
      push_cast
      rfl
  · rw [mul_zero]
    simp only [mul, isInf, isZero, Bool.false_and, Bool.and_false, Bool.or_self,
      Bool.false_eq_true, if_false]
    exact zero_isInt _
  · rw [zero_mul]
    simp only [mul, isInf, isZero, Bool.false_and, Bool.and_false, Bool.or_self,
      Bool.false_eq_true, if_false]
    exact zero_isInt _
  · rw [zero_mul]
    simp only [mul, isInf, isZero, Bool.false_and, Bool.and_false, Bool.or_self,
      Bool.false_eq_true, if_false]
    exact zero_isInt _

theorem finite_mul_zero_isZero (q : ℚ) (z : JSNum) (hz : z = fin 0 ∨ z = negZero) :
    (fin q * z = fin 0 ∨ fin q * z = negZero) := by
  rw [mul_def]
  rcases hz with rfl | rfl
  · simp only [mul, or_true, if_true]
    cases (signBit (fin q) != signBit (fin 0)) <;> simp [zero]
  · simp only [mul, isInf, isZero, Bool.false_and, Bool.and_false, Bool.or_self,
      Bool.false_eq_true, if_false]
    cases (signBit (fin q) != signBit negZero) <;> simp [zero]

theorem one_div_zero (z : JSNum) (hz : z = fin 0 ∨ z = negZero) :
    fin 1 / z = posInf ∨ fin 1 / z = negInf := by
  rw [div_def]
  rcases hz with rfl | rfl
  · left
    simp [div, signBit, inf]
  · right
    simp [div, isInf, isZero, signBit, inf]

theorem isInfOrNan_inf (s : Bool) : isInfOrNan (inf s) = true := by
  cases s <;> rfl

theorem inf_mul_isInfOrNan (r w : JSNum) (hr : r = posInf ∨ r = negInf) :
    isInfOrNan (r * w) = true := by
  rw [mul_def]
  rcases hr with rfl | rfl <;> cases w <;> simp only [mul, isInf, isZero] <;>
    first
      | rfl
      | (split_ifs with h1 h2
         · rfl
         · exact isInfOrNan_inf _
         · simp at h2)

end JSNum

/-! ## Lemmas on the coverage test -/

theorem mul_bound (a b : ℤ) (ha1 : -33554432 < a) (ha2 : a < 33554432)
    (hb1 : -33554432 < b) (hb2 : b < 33554432) :
    -1125899906842624 < a * b ∧ a * b < 1125899906842624 := by
  constructor
  · nlinarith [mul_pos (sub_pos.mpr ha2) (sub_pos.mpr hb2),
      mul_pos (sub_pos.mpr ha1) (sub_pos.mpr hb1)]
  · nlinarith [mul_pos (sub_pos.mpr ha2) (sub_pos.mpr hb1),
      mul_pos (sub_pos.mpr ha1) (sub_pos.mpr hb2)]

/-- On cells of a grid of at most `2 ^ 25` cells a side, the sum that
`pointInTriangle` halves is computed without rounding: it is twice the exact
signed area. -/
theorem area_sum_isInt (gridSize : ℕ) (hgs : gridSize ≤ 2 ^ 25) (g1 g2 g3 : GridPoint)
    (h1 : g1.inGrid gridSize) (h2 : g2.inGrid gridSize) (h3 : g3.inGrid gridSize) :
    JSNum.IsInt
      (-JSNum.ofInt g2.y * JSNum.ofInt g3.x
        + JSNum.ofInt g1.y * (-JSNum.ofInt g2.x + JSNum.ofInt g3.x)
        + JSNum.ofInt g1.x * (JSNum.ofInt g2.y - JSNum.ofInt g3.y)
        + JSNum.ofInt g2.x * JSNum.ofInt g3.y)
      (twiceArea g1 g2 g3) := by
  obtain ⟨a1, a2, a3, a4⟩ := h1
  obtain ⟨b1, b2, b3, b4⟩ := h2
  obtain ⟨c1, c2, c3, c4⟩ := h3
  have hG : (gridSize : ℤ) ≤ 33554432 := by exact_mod_cast hgs
  have hp1 := mul_bound (-g2.y) g3.x (by omega) (by omega) (by omega) (by omega)
  have hp2 := mul_bound g1.y (-g2.x + g3.x) (by omega) (by omega) (by omega) (by omega)
  have hp3 := mul_bound g1.x (g2.y - g3.y) (by omega) (by omega) (by omega) (by omega)
  have hp4 := mul_bound g2.x g3.y (by omega) (by omega) (by omega) (by omega)
  unfold twiceArea
  refine JSNum.isInt_add _ _ _ _
    (JSNum.isInt_add _ _ _ _
      (JSNum.isInt_add _ _ _ _
        (JSNum.isInt_mul _ _ _ _ (JSNum.isInt_neg _ _ (JSNum.isInt_ofInt _))
          (JSNum.isInt_ofInt _) ?_)
        (JSNum.isInt_mul _ _ _ _ (JSNum.isInt_ofInt _)
          (JSNum.isInt_add _ _ _ _ (JSNum.isInt_neg _ _ (JSNum.isInt_ofInt _))
            (JSNum.isInt_ofInt _) ?_) ?_) ?_)
      (JSNum.isInt_mul _ _ _ _ (JSNum.isInt_ofInt _)
        (JSNum.isInt_sub _ _ _ _ (JSNum.isInt_ofInt _) (JSNum.isInt_ofInt _) ?_) ?_) ?_)
    (JSNum.isInt_mul _ _ _ _ (JSNum.isInt_ofInt _) (JSNum.isInt_ofInt _) ?_) ?_
  all_goals (rw [abs_lt]; constructor <;> omega)

theorem test_fails_on_infOrNan (s t : JSNum) (hs : JSNum.isInfOrNan s = true)
    (ht : JSNum.isInfOrNan t = true) :
    (JSNum.ge s jsZero && JSNum.ge t jsZero && JSNum.le (s + t) jsOne) = false := by
  cases s <;> cases t <;> first
    | (simp [JSNum.isInfOrNan] at hs; done)
    | (simp [JSNum.isInfOrNan] at ht; done)
    | rfl

/-- When the divisor `2 * area` is a zero, `pointInTriangle` rejects every point. -/
theorem pointInTriangle_of_zero_divisor (px py v1x v1y v2x v2y v3x v3y : JSNum)
    (hz : baryDivisor v1x v1y v2x v2y v3x v3y = JSNum.fin 0 ∨
      baryDivisor v1x v1y v2x v2y v3x v3y = JSNum.negZero) :
    pointInTriangle px py v1x v1y v2x v2y v3x v3y = false := by
  have hr := JSNum.one_div_zero _ hz
  unfold pointInTriangle
  exact test_fails_on_infOrNan _ _ (JSNum.inf_mul_isInfOrNan _ _ hr)
    (JSNum.inf_mul_isInfOrNan _ _ hr)

/-- On a zero-area triangle of grid cells the divisor `2 * area` is a zero. -/
theorem baryDivisor_zero_of_zero_area (gridSize : ℕ) (hgs : gridSize ≤ 2 ^ 25)
    (g1 g2 g3 : GridPoint) (h1 : g1.inGrid gridSize) (h2 : g2.inGrid gridSize)
    (h3 : g3.inGrid gridSize) (harea : twiceArea g1 g2 g3 = 0) :
    baryDivisor (JSNum.ofInt g1.x) (JSNum.ofInt g1.y) (JSNum.ofInt g2.x) (JSNum.ofInt g2.y)
        (JSNum.ofInt g3.x) (JSNum.ofInt g3.y) = JSNum.fin 0 ∨
      baryDivisor (JSNum.ofInt g1.x) (JSNum.ofInt g1.y) (JSNum.ofInt g2.x) (JSNum.ofInt g2.y)
        (JSNum.ofInt g3.x) (JSNum.ofInt g3.y) = JSNum.negZero := by
  have hsum := area_sum_isInt gridSize hgs g1 g2 g3 h1 h2 h3
  rw [harea] at hsum
  unfold baryDivisor triangleArea jsTwo jsHalf
  exact JSNum.finite_mul_zero_isZero _ _
    (JSNum.finite_mul_zero_isZero _ _ (JSNum.isInt_zero_cases _ hsum))

/-! ## Lemmas on the grid array -/

theorem getD_set_zero (l : List ℚ) (i j : ℕ) (a : ℚ) :
    (l.set i a).getD j 0 = if j = i ∧ i < l.length then a else l.getD j 0 := by
  simp only [List.getD_eq_getElem?_getD, List.getElem?_set]
  by_cases h : i = j
  · subst h
    by_cases h2 : i < l.length
    · simp [h2]
    · simp [h2]
      rw [List.getElem?_eq_none (by omega)]
      simp
  · have h3 : ¬ j = i := fun e => h e.symm
    simp [h, h3]

theorem writeMax_length (data : List ℚ) (i : ℕ) (v : ℚ) :
    (writeMax data i v).length = data.length := by
  simp [writeMax]

theorem getD_writeMax (data : List ℚ) (i j : ℕ) (v : ℚ) :
    (writeMax data i v).getD j 0 =
      if j = i ∧ i < data.length then max (data.getD i 0) v else data.getD j 0 := by
  simp only [writeMax, getD_set_zero]

theorem writeCell_length (gridSize : ℕ) (light : Color3) (data : List ℚ) (x y : ℤ) :
    (writeCell gridSize light data x y).length = data.length := by
  simp [writeCell, writeMax_length]

theorem cellIndex_natCast (gridSize a b : ℕ) :
    cellIndex gridSize (a : ℤ) (b : ℤ) = (b * gridSize + a) * 3 := by
  have h : (((b : ℤ) * gridSize + a) * 3) = (((b * gridSize + a) * 3 : ℕ) : ℤ) := by
    push_cast; ring
  rw [cellIndex, h, Int.toNat_natCast]

theorem index_injective (gs a b c a' b' c' : ℕ) (ha : a < gs) (ha' : a' < gs)
    (hc : c < 3) (hc' : c' < 3) (h : (b * gs + a) * 3 + c = (b' * gs + a') * 3 + c') :
    a = a' ∧ b = b' ∧ c = c' := by
  have hcc : c = c' := by omega
  have h2 : b * gs + a = b' * gs + a' := by omega
  have hb : b = b' := by
    rcases Nat.lt_trichotomy b b' with hlt | heq | hgt
    · have h3 : (b + 1) * gs ≤ b' * gs := Nat.mul_le_mul_right _ hlt
      have e : (b + 1) * gs = b * gs + gs := by ring
      omega
    · exact heq
    · have h3 : (b' + 1) * gs ≤ b * gs := Nat.mul_le_mul_right _ hgt
      have e : (b' + 1) * gs = b' * gs + gs := by ring
      omega
  subst hb
  exact ⟨by omega, rfl, hcc⟩

theorem index_lt (gs a b c : ℕ) (ha : a < gs) (hb : b < gs) (hc : c < 3) :
    (b * gs + a) * 3 + c < gs * gs * 3 := by
  have h3 : (b + 1) * gs ≤ gs * gs := Nat.mul_le_mul_right _ hb
  have e : (b + 1) * gs = b * gs + gs := by ring
  omega

theorem channel_cases (col : Color3) (c : ℕ) (hc : c < 3) :
    (c = 0 ∧ col.channel c = col.r) ∨ (c = 1 ∧ col.channel c = col.g) ∨
      (c = 2 ∧ col.channel c = col.b) := by
  have h : c = 0 ∨ c = 1 ∨ c = 2 := by omega
  rcases h with h | h | h <;> subst h <;> simp [Color3.channel]

theorem channel_const (v : ℚ) (c : ℕ) : (⟨v, v, v⟩ : Color3).channel c = v := by
  unfold Color3.channel
  split
  · rfl
  · split <;> rfl

/-- Writing cell `(x', y')` raises channel `c` of that cell to the maximum with
`255` times the shading channel and leaves every other cell as it was. -/
theorem cellValue_writeCell (gridSize : ℕ) (light : Color3) (data : List ℚ)
    (x y x' y' : ℤ) (c : ℕ) (hlen : data.length = gridSize * gridSize * 3)
    (hx : 0 ≤ x) (hxg : x < gridSize) (hy : 0 ≤ y) (hyg : y < gridSize)
    (hx' : 0 ≤ x') (hxg' : x' < gridSize) (hy' : 0 ≤ y') (hyg' : y' < gridSize)
    (hc : c < 3) :
    cellValue gridSize (writeCell gridSize light data x' y') x y c =
      if x = x' ∧ y = y' then max (cellValue gridSize data x y c) (light.channel c * 255)
      else cellValue gridSize data x y c := by
  lift x to ℕ using hx
  lift y to ℕ using hy
  lift x' to ℕ using hx'
  lift y' to ℕ using hy'
  have hxg2 : x < gridSize := by exact_mod_cast hxg
  have hyg2 : y < gridSize := by exact_mod_cast hyg
  have hxg2' : x' < gridSize := by exact_mod_cast hxg'
  have hyg2' : y' < gridSize := by exact_mod_cast hyg'
  simp only [cellValue, writeCell, cellIndex_natCast, getD_writeMax, writeMax_length]
  have hb0 := index_lt gridSize x' y' 0 hxg2' hyg2' (by omega)
  have hb2 := index_lt gridSize x' y' 2 hxg2' hyg2' (by omega)
  by_cases hsame : (x : ℤ) = x' ∧ (y : ℤ) = y'
  · obtain ⟨e1, e2⟩ := hsame
    have e1' : x = x' := by exact_mod_cast e1
    have e2' : y = y' := by exact_mod_cast e2
    subst e1' e2'
    rcases channel_cases light c hc with ⟨h, hv⟩ | ⟨h, hv⟩ | ⟨h, hv⟩ <;> subst h <;>
      simp [hv, hlen] <;> omega
  · have hne : ∀ c' : ℕ, c' < 3 →
        ¬ ((y * gridSize + x) * 3 + c = (y' * gridSize + x') * 3 + c') := by
      intro c' hc' he
      obtain ⟨h1, h2, -⟩ := index_injective gridSize x y c x' y' c' hxg2 hxg2' hc hc' he
      exact hsame ⟨by exact_mod_cast h1, by exact_mod_cast h2⟩
    have n0 := hne 0 (by omega)
    have n1 := hne 1 (by omega)
    have n2 := hne 2 (by omega)
    simp only [Nat.add_zero] at n0
    have hsame2 : ¬ (x = x' ∧ y = y') := fun h => hsame ⟨by exact_mod_cast h.1, by exact_mod_cast h.2⟩
    simp [hsame2, n0, n1, n2]

/-! ## Lemmas on the rasterization loops -/

theorem mem_loopRange (lo hi k : ℤ) : k ∈ loopRange lo hi ↔ lo ≤ k ∧ k ≤ hi := by
  simp only [loopRange, List.mem_map, List.mem_range]
  constructor
  · rintro ⟨n, hn, rfl⟩
    constructor <;> omega
  · rintro ⟨h1, h2⟩
    refine ⟨(k - lo).toNat, ?_, ?_⟩ <;> omega

theorem boxMin_bounds (gridSize : ℕ) (hg : 0 < gridSize) (a b c : ℤ) :
    0 ≤ boxMin gridSize a b c ∧ boxMin gridSize a b c < gridSize := by
  unfold boxMin
  constructor
  · exact le_max_left _ _
  · have h : min ((gridSize : ℤ) - 1) (min a (min b c)) ≤ (gridSize : ℤ) - 1 := min_le_left _ _
    have h0 : (0 : ℤ) < gridSize := by exact_mod_cast hg
    rcases max_cases (0 : ℤ) (min ((gridSize : ℤ) - 1) (min a (min b c))) with ⟨e, -⟩ | ⟨e, -⟩ <;>
      rw [e] <;> omega

theorem boxMax_bounds (gridSize : ℕ) (hg : 0 < gridSize) (a b c : ℤ) :
    0 ≤ boxMax gridSize a b c ∧ boxMax gridSize a b c < gridSize := by
  unfold boxMax
  constructor
  · exact le_max_left _ _
  · have h : min ((gridSize : ℤ) - 1) (max a (max b c)) ≤ (gridSize : ℤ) - 1 := min_le_left _ _
    have h0 : (0 : ℤ) < gridSize := by exact_mod_cast hg
    rcases max_cases (0 : ℤ) (min ((gridSize : ℤ) - 1) (max a (max b c))) with ⟨e, -⟩ | ⟨e, -⟩ <;>
      rw [e] <;> omega

/-- A loop whose body either raises the watched value to its maximum with `v`
(on a key that hits) or leaves it alone: after the loop the value is raised if
and only if some key hit. -/
theorem foldl_hit_max {K : Type} (P : List ℚ → Prop) (val : List ℚ → ℚ)
    (step : List ℚ → K → List ℚ) (hit : K → Bool) (ok : K → Prop) (v : ℚ)
    (hP : ∀ d k, ok k → P d → P (step d k))
    (hstep : ∀ d k, ok k → P d → val (step d k) = if hit k then max (val d) v else val d) :
    ∀ (keys : List K) (d : List ℚ), (∀ k ∈ keys, ok k) → P d →
      P (keys.foldl step d) ∧
        val (keys.foldl step d) = if keys.any hit then max (val d) v else val d := by
  intro keys
  induction keys with
  | nil => intro d _ hd; simp [hd]
  | cons k ks ih =>
    intro d hok hd
    have hk : ok k := hok k (List.mem_cons_self _ _)
    have hks : ∀ k' ∈ ks, ok k' := fun k' hk' => hok k' (List.mem_cons_of_mem _ hk')
    obtain ⟨h1, h2⟩ := ih (step d k) hks (hP d k hk hd)
    refine ⟨h1, ?_⟩
    rw [List.foldl_cons, h2, hstep d k hk hd]
    by_cases hh : hit k = true
    · by_cases ha : ks.any hit = true
      · simp [hh, ha, max_assoc]
      · simp [hh, ha]
    · by_cases ha : ks.any hit = true
      · simp [hh, ha]
      · simp [hh, ha]

theorem foldl_const_of_step {K : Type} (step : List ℚ → K → List ℚ)
    (h : ∀ d k, step d k = d) : ∀ (keys : List K) (d : List ℚ), keys.foldl step d = d := by
  intro keys
  induction keys with
  | nil => intro d; rfl
  | cons k ks ih => intro d; rw [List.foldl_cons, h, ih]

theorem rasterCell_length (gridSize : ℕ) (g1 g2 g3 : GridPoint) (light : Color3) (y : ℤ)
    (data : List ℚ) (x : ℤ) :
    (rasterCell gridSize g1 g2 g3 light y data x).length = data.length := by
  unfold rasterCell
  split
  · exact writeCell_length _ _ _ _ _
  · rfl

/-- One row of the rasterization loop, seen from cell `(x, y)`. -/
theorem cellValue_rasterRow (gridSize : ℕ) (hg : 0 < gridSize) (g1 g2 g3 : GridPoint)
    (light : Color3) (data : List ℚ) (x y y' : ℤ) (c : ℕ)
    (hlen : data.length = gridSize * gridSize * 3)
    (hx : 0 ≤ x) (hxg : x < gridSize) (hy : 0 ≤ y) (hyg : y < gridSize)
    (hy' : 0 ≤ y') (hyg' : y' < gridSize) (hc : c < 3) :
    (rasterRow gridSize g1 g2 g3 light data y').length = gridSize * gridSize * 3 ∧
    cellValue gridSize (rasterRow gridSize g1 g2 g3 light data y') x y c =
      if y = y' ∧ (boxMin gridSize g1.x g2.x g3.x ≤ x ∧ x ≤ boxMax gridSize g1.x g2.x g3.x) ∧
          cellInTriangle g1 g2 g3 x y = true then
        max (cellValue gridSize data x y c) (light.channel c * 255)
      else cellValue gridSize data x y c := by
  have hmin := boxMin_bounds gridSize hg g1.x g2.x g3.x
  have hmax := boxMax_bounds gridSize hg g1.x g2.x g3.x
  have key := foldl_hit_max (fun d => d.length = gridSize * gridSize * 3)
    (fun d => cellValue gridSize d x y c) (rasterCell gridSize g1 g2 g3 light y')
    (fun k => decide (x = k ∧ y = y') && cellInTriangle g1 g2 g3 k y')
    (fun k => 0 ≤ k ∧ k < gridSize) (light.channel c * 255)
    (fun d k _ hd => by beta_reduce; rw [rasterCell_length]; exact hd)
    (fun d k hk hd => by
      beta_reduce
      unfold rasterCell
      by_cases hin : cellInTriangle g1 g2 g3 k y' = true
      · rw [if_pos hin, cellValue_writeCell gridSize light d x y k y' c hd hx hxg hy hyg
          hk.1 hk.2 hy' hyg' hc]
        simp [hin]
      · rw [if_neg hin]
        simp [hin])
    (loopRange (boxMin gridSize g1.x g2.x g3.x) (boxMax gridSize g1.x g2.x g3.x)) data
    (fun k hk => by
      rw [mem_loopRange] at hk
      omega)
    hlen
  beta_reduce at key
  refine ⟨key.1, ?_⟩
  unfold rasterRow
  rw [key.2]
  have hiff : ((loopRange (boxMin gridSize g1.x g2.x g3.x)
      (boxMax gridSize g1.x g2.x g3.x)).any
        (fun k => decide (x = k ∧ y = y') && cellInTriangle g1 g2 g3 k y') = true) ↔
      (y = y' ∧ (boxMin gridSize g1.x g2.x g3.x ≤ x ∧ x ≤ boxMax gridSize g1.x g2.x g3.x) ∧
          cellInTriangle g1 g2 g3 x y = true) := by
    simp only [List.any_eq_true, mem_loopRange, Bool.and_eq_true, decide_eq_true_eq]
    constructor
    · rintro ⟨k, hk, ⟨rfl, rfl⟩, h4⟩
      exact ⟨rfl, hk, h4⟩
    · rintro ⟨rfl, hk, h4⟩
      exact ⟨x, hk, ⟨rfl, rfl⟩, h4⟩
  by_cases hh : y = y' ∧ (boxMin gridSize g1.x g2.x g3.x ≤ x ∧
      x ≤ boxMax gridSize g1.x g2.x g3.x) ∧ cellInTriangle g1 g2 g3 x y = true
  · rw [if_pos (hiff.mpr hh), if_pos hh]
  · rw [if_neg (fun h => hh (hiff.mp h)), if_neg hh]

/-- The rasterization of one triangle, seen from cell `(x, y)`: a covered cell
is raised to the maximum with `255` times the shading channel, any other cell
keeps its value. -/
theorem cellValue_rasterizeTriangle (gridSize : ℕ) (hg : 0 < gridSize) (g1 g2 g3 : GridPoint)
    (light : Color3) (data : List ℚ) (x y : ℤ) (c : ℕ)
    (hlen : data.length = gridSize * gridSize * 3)
    (hx : 0 ≤ x) (hxg : x < gridSize) (hy : 0 ≤ y) (hyg : y < gridSize) (hc : c < 3) :
    (rasterizeTriangle gridSize g1 g2 g3 light data).length = gridSize * gridSize * 3 ∧
    cellValue gridSize (rasterizeTriangle gridSize g1 g2 g3 light data) x y c =
      if covers gridSize g1 g2 g3 x y = true then
        max (cellValue gridSize data x y c) (light.channel c * 255)
      else cellValue gridSize data x y c := by
  have hmin := boxMin_bounds gridSize hg g1.y g2.y g3.y
  have hmax := boxMax_bounds gridSize hg g1.y g2.y g3.y
  have key := foldl_hit_max (fun d => d.length = gridSize * gridSize * 3)
    (fun d => cellValue gridSize d x y c) (rasterRow gridSize g1 g2 g3 light)
    (fun k => decide (y = k ∧ (boxMin gridSize g1.x g2.x g3.x ≤ x ∧
      x ≤ boxMax gridSize g1.x g2.x g3.x) ∧ cellInTriangle g1 g2 g3 x y = true))
    (fun k => 0 ≤ k ∧ k < gridSize) (light.channel c * 255)
    (fun d k hk hd =>
      (cellValue_rasterRow gridSize hg g1 g2 g3 light d x y k c hd hx hxg hy hyg
        hk.1 hk.2 hc).1)
    (fun d k hk hd => by
      beta_reduce
      rw [(cellValue_rasterRow gridSize hg g1 g2 g3 light d x y k c hd hx hxg hy hyg
        hk.1 hk.2 hc).2]
      simp only [decide_eq_true_eq])
    (loopRange (boxMin gridSize g1.y g2.y g3.y) (boxMax gridSize g1.y g2.y g3.y)) data
    (fun k hk => by
      rw [mem_loopRange] at hk
      omega)
    hlen
  beta_reduce at key
  refine ⟨key.1, ?_⟩
  unfold rasterizeTriangle
  rw [key.2]
  have hiff : ((loopRange (boxMin gridSize g1.y g2.y g3.y)
      (boxMax gridSize g1.y g2.y g3.y)).any
        (fun k => decide (y = k ∧ (boxMin gridSize g1.x g2.x g3.x ≤ x ∧
          x ≤ boxMax gridSize g1.x g2.x g3.x) ∧ cellInTriangle g1 g2 g3 x y = true)) = true) ↔
      covers gridSize g1 g2 g3 x y = true := by
    simp only [List.any_eq_true, mem_loopRange, Bool.and_eq_true, decide_eq_true_eq, covers]
    constructor
    · rintro ⟨k, hk, rfl, hxr, h4⟩
      exact ⟨⟨hxr.1, hxr.2, hk.1, hk.2⟩, h4⟩
    · rintro ⟨⟨h1, h2, h3, h4⟩, h5⟩
      exact ⟨y, ⟨h3, h4⟩, rfl, ⟨h1, h2⟩, h5⟩
  by_cases hh : covers gridSize g1 g2 g3 x y = true
  · rw [if_pos (hiff.mpr hh), if_pos hh]
  · rw [if_neg (fun h => hh (hiff.mp h)), if_neg hh]

/-- A triangle that `pointInTriangle` rejects at every cell leaves the array as
it is. -/
theorem rasterizeTriangle_of_no_cell (gridSize : ℕ) (g1 g2 g3 : GridPoint) (light : Color3)
    (data : List ℚ) (h : ∀ x y, cellInTriangle g1 g2 g3 x y = false) :
    rasterizeTriangle gridSize g1 g2 g3 light data = data := by
  unfold rasterizeTriangle
  apply foldl_const_of_step
  intro d y
  unfold rasterRow
  apply foldl_const_of_step
  intro d' x
  unfold rasterCell
  rw [h x y]
  rfl

/-! ## Lemmas on the shading -/

theorem clampChannel_bounds (v : ℚ) : 1 / 10 ≤ clampChannel v ∧ clampChannel v ≤ 1 := by
  unfold clampChannel
  constructor
  · exact le_max_left _ _
  · exact max_le (by norm_num) (min_le_left _ _)

theorem triangleShading_channel_bounds (sqrt : ℚ → ℚ) (isWall isBox : Bool)
    (worldCenter worldNormal : Vector3) (lights : List Light) (c : ℕ) :
    1 / 10 ≤ (triangleShading sqrt isWall isBox worldCenter worldNormal lights).channel c ∧
      (triangleShading sqrt isWall isBox worldCenter worldNormal lights).channel c ≤ 1 := by
  unfold triangleShading Color3.channel
  dsimp only
  split
  · exact clampChannel_bounds _
  · split
    · exact clampChannel_bounds _
    · exact clampChannel_bounds _

theorem ambient_clamped :
    (⟨clampChannel ambient.r, clampChannel ambient.g, clampChannel ambient.b⟩ : Color3) =
      ⟨1 / 10, 1 / 10, 1 / 10⟩ := by
  simp only [ambient, clampChannel]
  norm_num

theorem attenuation_denominator_pos (d : ℚ) : 0 < 1 + 1 / 10 * d + 1 / 100 * d * d := by
  nlinarith [sq_nonneg (d + 5)]

theorem accumulateLights_append (sqrt : ℚ → ℚ) (isWall isBox : Bool)
    (worldCenter worldNormal : Vector3) (pre post : List Light) :
    accumulateLights sqrt isWall isBox worldCenter worldNormal (pre ++ post) =
      post.foldl (lightStep sqrt isWall isBox worldCenter worldNormal)
        (accumulateLights sqrt isWall isBox worldCenter worldNormal pre) := by
  simp [accumulateLights, List.foldl_append]

/-- A light whose pass of the loop leaves the running value unchanged can be
removed from the list without changing the value after the loop. -/
theorem accumulateLights_remove (sqrt : ℚ → ℚ) (isWall isBox : Bool)
    (worldCenter worldNormal : Vector3) (pre post : List Light) (light : Light)
    (h : ∀ acc, lightStep sqrt isWall isBox worldCenter worldNormal acc light = acc) :
    accumulateLights sqrt isWall isBox worldCenter worldNormal (pre ++ light :: post) =
      accumulateLights sqrt isWall isBox worldCenter worldNormal (pre ++ post) := by
  rw [accumulateLights_append, accumulateLights_append, List.foldl_cons, h]

theorem triangleShading_congr (sqrt : ℚ → ℚ) (isWall isBox : Bool)
    (worldCenter worldNormal : Vector3) (lights lights' : List Light)
    (h : accumulateLights sqrt isWall isBox worldCenter worldNormal lights =
      accumulateLights sqrt isWall isBox worldCenter worldNormal lights') :
    triangleShading sqrt isWall isBox worldCenter worldNormal lights =
      triangleShading sqrt isWall isBox worldCenter worldNormal lights' := by
  unfold triangleShading
  rw [h]

theorem lightStep_disabled (sqrt : ℚ → ℚ) (isWall isBox : Bool)
    (worldCenter worldNormal : Vector3) (acc : Color3) (light : Light)
    (h : light.enabled = false) :
    lightStep sqrt isWall isBox worldCenter worldNormal acc light = acc := by
  simp [lightStep, h]

theorem lightStep_zero (sqrt : ℚ → ℚ) (isWall isBox : Bool)
    (worldCenter worldNormal : Vector3) (acc : Color3) (light : Light)
    (h : light.enabled = true →
      lightContribution sqrt isWall isBox worldCenter worldNormal light = ⟨0, 0, 0⟩) :
    lightStep sqrt isWall isBox worldCenter worldNormal acc light = acc := by
  unfold lightStep
  by_cases he : light.enabled = true
  · rw [if_pos he, h he]
    simp
  · rw [if_neg he]

theorem accumulateLights_zero (sqrt : ℚ → ℚ) (isWall isBox : Bool)
    (worldCenter worldNormal : Vector3) (lights : List Light)
    (h : ∀ light ∈ lights, light.enabled = true →
      lightContribution sqrt isWall isBox worldCenter worldNormal light = ⟨0, 0, 0⟩) :
    accumulateLights sqrt isWall isBox worldCenter worldNormal lights = ambient := by
  unfold accumulateLights
  generalize ambient = a
  induction lights generalizing a with
  | nil => rfl
  | cons l ls ih =>
    rw [List.foldl_cons, lightStep_zero sqrt isWall isBox worldCenter worldNormal a l
      (h l (List.mem_cons_self _ _))]
    exact ih (fun l' hl' => h l' (List.mem_cons_of_mem _ hl')) a

theorem triangleShading_of_zero (sqrt : ℚ → ℚ) (isWall isBox : Bool)
    (worldCenter worldNormal : Vector3) (lights : List Light)
    (h : ∀ light ∈ lights, light.enabled = true →
      lightContribution sqrt isWall isBox worldCenter worldNormal light = ⟨0, 0, 0⟩) :
    triangleShading sqrt isWall isBox worldCenter worldNormal lights =
      ⟨1 / 10, 1 / 10, 1 / 10⟩ := by
  unfold triangleShading
  rw [accumulateLights_zero sqrt isWall isBox worldCenter worldNormal lights h]
  simp only [ambient, clampChannel]
  norm_num

theorem shading_value_bounds (sqrt : ℚ → ℚ) (isWall isBox : Bool) (lights : List Light)
    (t : Triangle) (c : ℕ) :
    51 / 2 ≤ (t.shading sqrt isWall isBox lights).channel c * 255 ∧
      (t.shading sqrt isWall isBox lights).channel c * 255 ≤ 255 := by
  have h := triangleShading_channel_bounds sqrt isWall isBox t.worldCenter t.worldNormal lights c
  unfold Triangle.shading
  constructor <;> nlinarith [h.1, h.2]

/-- The square root `ratSqrt` is exact on the square of a rational. -/
theorem ratSqrt_mul_self (q : ℚ) : ratSqrt (q * q) = |q| := by
  unfold ratSqrt
  rw [Rat.mul_self_num, Rat.mul_self_den, Int.natAbs_mul, Nat.sqrt_eq, Nat.sqrt_eq,
    Rat.abs_def, Rat.divInt_eq_div]
  simp only [Int.cast_natCast]

/-- The shading of a triangle under one enabled point light that it faces, on a
mesh that is neither a wall nor a box, from the direction `dir` and the
distance `d` of the light. -/
theorem triangleShading_of_point_light (sqrt : ℚ → ℚ) (c n : Vector3) (light : Light)
    (dir : Vector3) (d : ℚ) (hkind : light.kind = LightKind.point)
    (hon : light.enabled = true)
    (hdir : Vector3.normalize sqrt (Vector3.subtract light.position c) = dir)
    (hd : Vector3.Distance sqrt light.position c = d) (hdot : 0 < Vector3.Dot n dir) :
    triangleShading sqrt false false c n [light] =
      ⟨clampChannel (1 / 10 + Vector3.Dot n dir * light.intensity *
          (1 / (1 + 1 / 10 * d + 1 / 100 * d * d)) * (lightColorOf light).r),
        clampChannel (1 / 10 + Vector3.Dot n dir * light.intensity *
          (1 / (1 + 1 / 10 * d + 1 / 100 * d * d)) * (lightColorOf light).g),
        clampChannel (1 / 10 + Vector3.Dot n dir * light.intensity *
          (1 / (1 + 1 / 10 * d + 1 / 100 * d * d)) * (lightColorOf light).b)⟩ := by
  have hc : lightContribution sqrt false false c n light =
      tint (Vector3.Dot n dir * light.intensity * (1 / (1 + 1 / 10 * d + 1 / 100 * d * d)))
        (lightColorOf light) := by
    unfold lightContribution
    rw [hkind]
    dsimp only
    rw [hdir, hd, if_pos hdot]
    rfl
  unfold triangleShading accumulateLights
  simp only [List.foldl, lightStep, hon, if_true, hc, tint, ambient]

/-! ## Lemmas on the triangle loop -/

theorem cellValue_emptyLightmap (gridSize : ℕ) (x y : ℤ) (c : ℕ) :
    cellValue gridSize (emptyLightmap gridSize) x y c = 0 := by
  unfold cellValue emptyLightmap
  rw [List.getD_eq_getElem?_getD, List.getElem?_replicate]
  split <;> rfl

theorem emptyLightmap_length (gridSize : ℕ) :
    (emptyLightmap gridSize).length = gridSize * gridSize * 3 := by
  simp [emptyLightmap]

/-- The triangle loop seen from one channel of one cell: a fold that raises the
value to the maximum with each covering triangle's value. -/
theorem cellValue_foldl_processTriangle (sqrt : ℚ → ℚ) (gridSize : ℕ) (hg : 0 < gridSize)
    (isWall isBox : Bool) (lights : List Light) (x y : ℤ) (c : ℕ)
    (hx : 0 ≤ x) (hxg : x < gridSize) (hy : 0 ≤ y) (hyg : y < gridSize) (hc : c < 3) :
    ∀ (triangles : List Triangle) (data : List ℚ), data.length = gridSize * gridSize * 3 →
      cellValue gridSize
          (triangles.foldl (processTriangle sqrt gridSize isWall isBox lights) data) x y c =
        triangles.foldl (fun acc t =>
          if t.covers gridSize x y = true then
            max acc ((t.shading sqrt isWall isBox lights).channel c * 255)
          else acc) (cellValue gridSize data x y c) := by
  intro triangles
  induction triangles with
  | nil => intro data _; rfl
  | cons t ts ih =>
    intro data hlen
    have h := cellValue_rasterizeTriangle gridSize hg (mapUVToGrid gridSize t.uv1)
      (mapUVToGrid gridSize t.uv2) (mapUVToGrid gridSize t.uv3)
      (triangleShading sqrt isWall isBox t.worldCenter t.worldNormal lights) data x y c hlen
      hx hxg hy hyg hc
    have h1 : (processTriangle sqrt gridSize isWall isBox lights data t).length =
        gridSize * gridSize * 3 := h.1
    have h2 : cellValue gridSize (processTriangle sqrt gridSize isWall isBox lights data t)
        x y c = if t.covers gridSize x y = true then
            max (cellValue gridSize data x y c)
              ((t.shading sqrt isWall isBox lights).channel c * 255)
          else cellValue gridSize data x y c := h.2
    rw [List.foldl_cons, List.foldl_cons, ih _ h1, h2]

/-- A fold that conditionally raises a value to a maximum returns the start
value or the value of a selected element, and bounds both from above. -/
theorem foldl_condMax_spec {T : Type} (sel : T → Bool) (v : T → ℚ) :
    ∀ (l : List T) (a : ℚ),
      a ≤ l.foldl (fun acc t => if sel t = true then max acc (v t) else acc) a ∧
      (∀ t ∈ l, sel t = true →
        v t ≤ l.foldl (fun acc t => if sel t = true then max acc (v t) else acc) a) ∧
      (l.foldl (fun acc t => if sel t = true then max acc (v t) else acc) a = a ∨
        ∃ t ∈ l, sel t = true ∧
          l.foldl (fun acc t => if sel t = true then max acc (v t) else acc) a = v t) := by
  intro l
  induction l with
  | nil => intro a; simp
  | cons t ts ih =>
    intro a
    rw [List.foldl_cons]
    obtain ⟨h1, h2, h3⟩ := ih (if sel t = true then max a (v t) else a)
    have ha : a ≤ (if sel t = true then max a (v t) else a) := by
      split
      · exact le_max_left _ _
      · exact le_refl _
    refine ⟨le_trans ha h1, ?_, ?_⟩
    · intro t' ht' hs
      rcases List.mem_cons.mp ht' with rfl | hin
      · refine le_trans ?_ h1
        rw [if_pos hs]
        exact le_max_right _ _
      · exact h2 t' hin hs
    · rcases h3 with h3 | ⟨t', ht', hs, he⟩
      · by_cases hs : sel t = true
        · rw [if_pos hs] at h3 ⊢
          rcases max_cases a (v t) with ⟨e, -⟩ | ⟨e, -⟩
          · left; rw [h3, e]
          · right; exact ⟨t, List.mem_cons_self _ _, hs, by rw [h3, e]⟩
        · rw [if_neg hs] at h3 ⊢
          left; exact h3
      · right
        exact ⟨t', List.mem_cons_of_mem _ ht', hs, he⟩

theorem rasterizeMesh_congr (sqrt : ℚ → ℚ) (gridSize : ℕ) (isWall isBox : Bool)
    (lights lights' : List Light) (triangles : List Triangle)
    (h : ∀ worldCenter worldNormal,
      triangleShading sqrt isWall isBox worldCenter worldNormal lights =
        triangleShading sqrt isWall isBox worldCenter worldNormal lights') :
    rasterizeMesh sqrt gridSize isWall isBox lights triangles =
      rasterizeMesh sqrt gridSize isWall isBox lights' triangles := by
  unfold rasterizeMesh
  have hf : processTriangle sqrt gridSize isWall isBox lights =
      processTriangle sqrt gridSize isWall isBox lights' := by
    funext data t
    unfold processTriangle
    rw [h]
  rw [hf]

/-- The array after the triangle loop, seen from one channel of one cell. -/
theorem cellValue_rasterizeMesh (sqrt : ℚ → ℚ) (gridSize : ℕ) (isWall isBox : Bool)
    (lights : List Light) (triangles : List Triangle) (x y : ℤ) (c : ℕ)
    (hx : 0 ≤ x) (hxg : x < gridSize) (hy : 0 ≤ y) (hyg : y < gridSize) (hc : c < 3) :
    cellValue gridSize (rasterizeMesh sqrt gridSize isWall isBox lights triangles) x y c =
      triangles.foldl (fun acc t =>
        if t.covers gridSize x y = true then
          max acc ((t.shading sqrt isWall isBox lights).channel c * 255)
        else acc) 0 := by
  have hg : 0 < gridSize := by
    have h : (0 : ℤ) < gridSize := lt_of_le_of_lt hx hxg
    exact_mod_cast h
  unfold rasterizeMesh
  rw [cellValue_foldl_processTriangle sqrt gridSize hg isWall isBox lights x y c hx hxg hy hyg hc
    triangles (emptyLightmap gridSize) (emptyLightmap_length gridSize),
    cellValue_emptyLightmap]

/-- The value of a cell after the triangle loop is `0` or the value of a
covering triangle, and it bounds the value of every covering triangle. -/
theorem cellValue_rasterizeMesh_spec (sqrt : ℚ → ℚ) (gridSize : ℕ) (isWall isBox : Bool)
    (lights : List Light) (triangles : List Triangle) (x y : ℤ) (c : ℕ)
    (hx : 0 ≤ x) (hxg : x < gridSize) (hy : 0 ≤ y) (hyg : y < gridSize) (hc : c < 3) :
    (∀ t ∈ triangles, t.covers gridSize x y = true →
      (t.shading sqrt isWall isBox lights).channel c * 255 ≤
        cellValue gridSize (rasterizeMesh sqrt gridSize isWall isBox lights triangles) x y c) ∧
    (cellValue gridSize (rasterizeMesh sqrt gridSize isWall isBox lights triangles) x y c = 0 ∨
      ∃ t ∈ triangles, t.covers gridSize x y = true ∧
        cellValue gridSize (rasterizeMesh sqrt gridSize isWall isBox lights triangles) x y c =
          (t.shading sqrt isWall isBox lights).channel c * 255) := by
  rw [cellValue_rasterizeMesh sqrt gridSize isWall isBox lights triangles x y c hx hxg hy hyg hc]
  obtain ⟨-, h2, h3⟩ := foldl_condMax_spec (fun t : Triangle => t.covers gridSize x y)
    (fun t => (t.shading sqrt isWall isBox lights).channel c * 255) triangles 0
  exact ⟨h2, h3⟩

theorem groundTriangleA_covers : groundTriangleA.covers 128 100 50 = true := by decide!

theorem groundTriangleB_covers : groundTriangleB.covers 128 100 50 = false := by decide!

/-! ## Lemmas on the order of the triangles and on the indices -/

theorem foldl_length_of_step {K : Type} (step : List ℚ → K → List ℚ)
    (h : ∀ d k, (step d k).length = d.length) :
    ∀ (keys : List K) (d : List ℚ), (keys.foldl step d).length = d.length := by
  intro keys
  induction keys with
  | nil => intro d; rfl
  | cons k ks ih => intro d; rw [List.foldl_cons, ih, h]

theorem rasterizeTriangle_length (gridSize : ℕ) (g1 g2 g3 : GridPoint) (light : Color3)
    (data : List ℚ) : (rasterizeTriangle gridSize g1 g2 g3 light data).length = data.length := by
  unfold rasterizeTriangle
  apply foldl_length_of_step
  intro d y
  unfold rasterRow
  apply foldl_length_of_step
  intro d' x
  exact rasterCell_length _ _ _ _ _ _ _ _

theorem rasterizeMesh_length (sqrt : ℚ → ℚ) (gridSize : ℕ) (isWall isBox : Bool)
    (lights : List Light) (triangles : List Triangle) :
    (rasterizeMesh sqrt gridSize isWall isBox lights triangles).length =
      gridSize * gridSize * 3 := by
  unfold rasterizeMesh
  rw [foldl_length_of_step (processTriangle sqrt gridSize isWall isBox lights)
    (fun d t => rasterizeTriangle_length _ _ _ _ _ d), emptyLightmap_length]

/-- Every index of the array is channel `c` of a cell `(x, y)` of the grid. -/
theorem index_is_cell (gridSize i : ℕ) (hi : i < gridSize * gridSize * 3) :
    ∃ (x y : ℤ) (c : ℕ), 0 ≤ x ∧ x < gridSize ∧ 0 ≤ y ∧ y < gridSize ∧ c < 3 ∧
      cellIndex gridSize x y + c = i := by
  have hg : 0 < gridSize := by
    rcases Nat.eq_zero_or_pos gridSize with h | h
    · subst h; simp at hi
    · exact h
  have h3 : i / 3 < gridSize * gridSize := by
    rw [Nat.div_lt_iff_lt_mul (by norm_num)]
    exact hi
  have hy : i / 3 / gridSize < gridSize := by
    rw [Nat.div_lt_iff_lt_mul hg]
    exact h3
  have hx : i / 3 % gridSize < gridSize := Nat.mod_lt _ hg
  refine ⟨((i / 3 % gridSize : ℕ) : ℤ), ((i / 3 / gridSize : ℕ) : ℤ), i % 3,
    by positivity, by exact_mod_cast hx, by positivity, by exact_mod_cast hy,
    Nat.mod_lt _ (by norm_num), ?_⟩
  rw [cellIndex_natCast]
  have e1 : i / 3 / gridSize * gridSize + i / 3 % gridSize = i / 3 := by
    rw [Nat.mul_comm]
    exact Nat.div_add_mod _ _
  rw [e1]
  omega

/-- The fold that one cell sees of the triangle loop does not depend on the
order of the triangles. -/
theorem foldl_condMax_perm {T : Type} (sel : T → Bool) (v : T → ℚ) (l l' : List T)
    (h : l.Perm l') (a : ℚ) :
    l.foldl (fun acc t => if sel t = true then max acc (v t) else acc) a =
      l'.foldl (fun acc t => if sel t = true then max acc (v t) else acc) a := by
  haveI : RightCommutative (fun (acc : ℚ) (t : T) =>
      if sel t = true then max acc (v t) else acc) := ⟨by
    intro acc t1 t2
    by_cases h1 : sel t1 = true <;> by_cases h2 : sel t2 = true <;>
      simp [h1, h2, max_assoc, max_comm (v t1) (v t2)]⟩
  exact List.Perm.foldl_eq h a

/-- The array after the triangle loop does not depend on the order of the
triangles. -/
theorem rasterizeMesh_of_perm (sqrt : ℚ → ℚ) (gridSize : ℕ) (isWall isBox : Bool)
    (lights : List Light) (triangles triangles' : List Triangle)
    (h : triangles.Perm triangles') :
    rasterizeMesh sqrt gridSize isWall isBox lights triangles =
      rasterizeMesh sqrt gridSize isWall isBox lights triangles' := by
  apply List.ext_getElem
  · rw [rasterizeMesh_length, rasterizeMesh_length]
  · intro i h1 h2
    rw [← List.getD_eq_getElem _ 0 h1, ← List.getD_eq_getElem _ 0 h2]
    rw [rasterizeMesh_length] at h1
    obtain ⟨x, y, c, hx, hxg, hy, hyg, hc, rfl⟩ := index_is_cell gridSize i h1
    have e1 := cellValue_rasterizeMesh sqrt gridSize isWall isBox lights triangles x y c
      hx hxg hy hyg hc
    have e2 := cellValue_rasterizeMesh sqrt gridSize isWall isBox lights triangles' x y c
      hx hxg hy hyg hc
    unfold cellValue at e1 e2
    rw [e1, e2]
    exact foldl_condMax_perm _ _ _ _ h 0

theorem scaleToGrid_ne_nan (gridSize : ℕ) (u : ℚ) : scaleToGrid gridSize u ≠ JSNum.nan := by
  unfold scaleToGrid JSNum.ofInt
  rw [JSNum.mul_def]
  unfold JSNum.mul
  dsimp only
  split_ifs
  · unfold JSNum.zero
    split_ifs <;> exact JSNum.noConfusion
  · unfold JSNum.roundBinary64
    dsimp only
    split_ifs <;> exact JSNum.noConfusion

theorem scaleToGrid_of_ne_zero (gridSize : ℕ) (hg : 1 ≤ gridSize) (u : ℚ) (hu : u ≠ 0) :
    scaleToGrid gridSize u = JSNum.roundBinary64 (u * gridSize) := by
  have hq : ((gridSize : ℤ) : ℚ) ≠ 0 := by
    have : (gridSize : ℤ) ≠ 0 := by omega
    exact_mod_cast this
  unfold scaleToGrid JSNum.ofInt
  rw [JSNum.mul_def]
  unfold JSNum.mul
  dsimp only
  rw [if_neg (by tauto)]
  norm_cast

theorem clampToGrid_bounds (gridSize : ℕ) (hg : 1 ≤ gridSize) (p : JSNum) :
    0 ≤ clampToGrid gridSize p ∧ clampToGrid gridSize p < gridSize := by
  have h0 : (1 : ℤ) ≤ gridSize := by exact_mod_cast hg
  cases p with
  | fin q =>
    show 0 ≤ max 0 (min ((gridSize : ℤ) - 1) ⌊q⌋) ∧
      max 0 (min ((gridSize : ℤ) - 1) ⌊q⌋) < gridSize
    refine ⟨le_max_left _ _, ?_⟩
    have h := min_le_left ((gridSize : ℤ) - 1) ⌊q⌋
    rcases max_cases (0 : ℤ) (min ((gridSize : ℤ) - 1) ⌊q⌋) with ⟨e, -⟩ | ⟨e, -⟩ <;>
      rw [e] <;> omega
  | negZero =>
    show 0 ≤ max 0 (min ((gridSize : ℤ) - 1) 0) ∧ max 0 (min ((gridSize : ℤ) - 1) 0) < gridSize
    refine ⟨le_max_left _ _, ?_⟩
    have h := min_le_left ((gridSize : ℤ) - 1) 0
    rcases max_cases (0 : ℤ) (min ((gridSize : ℤ) - 1) 0) with ⟨e, -⟩ | ⟨e, -⟩ <;>
      rw [e] <;> omega
  | posInf =>
    show 0 ≤ max 0 ((gridSize : ℤ) - 1) ∧ max 0 ((gridSize : ℤ) - 1) < gridSize
    refine ⟨le_max_left _ _, ?_⟩
    rcases max_cases (0 : ℤ) ((gridSize : ℤ) - 1) with ⟨e, -⟩ | ⟨e, -⟩ <;> rw [e] <;> omega
  | negInf =>
    show (0 : ℤ) ≤ 0 ∧ (0 : ℤ) < gridSize
    omega
  | nan =>
    show (0 : ℤ) ≤ 0 ∧ (0 : ℤ) < gridSize
    omega

theorem mapUVToGrid_inGrid (gridSize : ℕ) (hg : 1 ≤ gridSize) (uv : Vector2) :
    (mapUVToGrid gridSize uv).inGrid gridSize := by
  have hx := clampToGrid_bounds gridSize hg (scaleToGrid gridSize uv.x)
  have hy := clampToGrid_bounds gridSize hg (scaleToGrid gridSize uv.y)
  exact ⟨hx.1, hx.2, hy.1, hy.2⟩

theorem boxMin_eq (gridSize : ℕ) (a b c : ℤ) (ha : 0 ≤ a ∧ a < gridSize)
    (hb : 0 ≤ b ∧ b < gridSize) (hc : 0 ≤ c ∧ c < gridSize) :
    boxMin gridSize a b c = min a (min b c) := by
  unfold boxMin
  have h1 : min a (min b c) ≤ (gridSize : ℤ) - 1 := le_trans (min_le_left _ _) (by omega)
  have h2 : 0 ≤ min a (min b c) := le_min ha.1 (le_min hb.1 hc.1)
  rw [min_eq_right h1, max_eq_right h2]

theorem boxMax_eq (gridSize : ℕ) (a b c : ℤ) (ha : 0 ≤ a ∧ a < gridSize)
    (hb : 0 ≤ b ∧ b < gridSize) (hc : 0 ≤ c ∧ c < gridSize) :
    boxMax gridSize a b c = max a (max b c) := by
  unfold boxMax
  have h1 : max a (max b c) ≤ (gridSize : ℤ) - 1 :=
    max_le (by omega) (max_le (by omega) (by omega))
  have h2 : 0 ≤ max a (max b c) := le_trans ha.1 (le_max_left _ _)
  rw [min_eq_right h1, max_eq_right h2]

theorem cellIndex_lt (gridSize : ℕ) (x y : ℤ) (c : ℕ) (hx : 0 ≤ x) (hxg : x < gridSize)
    (hy : 0 ≤ y) (hyg : y < gridSize) (hc : c < 3) :
    cellIndex gridSize x y + c < gridSize * gridSize * 3 := by
  lift x to ℕ using hx
  lift y to ℕ using hy
  rw [cellIndex_natCast]
  exact index_lt gridSize x y c (by exact_mod_cast hxg) (by exact_mod_cast hyg) hc

theorem textureSize_of_unknown_key (key : String) (h1 : key ≠ "low") (h2 : key ≠ "medium")
    (h3 : key ≠ "high") (h4 : key ∉ objectPrototypeKeys) :
    textureSize (some key) = QualityValue.number 512 := by
  simp [textureSize, qualitySettings, h1, h2, h3, h4]

/-! ## Lemmas on the bake orchestrator -/

theorem mem_remove (page : Page) (id : ℕ) (node : DomNode) :
    node ∈ (page.remove id).body ↔ node ∈ page.body ∧ node.id ≠ id := by
  simp [Page.remove]

theorem bakeCatch_body (page : Page) (id : ℕ) (message : String) :
    (bakeCatch page id message).body = (page.remove id).body := rfl

theorem bakeCatch_alerts (page : Page) (id : ℕ) (message : String) :
    (bakeCatch page id message).alerts =
      page.alerts ++ ["Error during lightmap baking: " ++ message] := rfl

/-- The children of `document.body` after a valid call of `bakeLightmap`: those
it had, without the loading indicator, and the status view when
`createLightmapTexture` and `showLightmapStatus` returned. -/
theorem bakeLightmap_body (faults : BakeFaults) (page : Page) (sc : Scene) (m : Mesh)
    (ms : List Mesh) (quality : Option String) :
    (bakeLightmap faults page (some sc) (MeshesArg.array (m :: ms)) quality).page.body =
      (page.body.filter (fun node => decide (node.id ≠ page.nextId))) ++
        (if faults.texture.isNone && faults.status.isNone then
          [⟨page.nextId + 1, NodeKind.statusView (m :: ms).length⟩]
        else []) := by
  unfold bakeLightmap
  rcases ht : faults.texture with _ | ⟨message, sc', ms'⟩
  · rcases hs : faults.status with _ | message
    · rcases hr : faults.render with _ | message <;>
        simp [bakeCatch, Page.remove, Page.append, Page.alert, List.filter_append]
    · simp [bakeCatch, Page.remove, Page.append, Page.alert, List.filter_append]
  · simp [bakeCatch, Page.remove, Page.append, Page.alert, List.filter_append]

/-- The alerts after a valid call of `bakeLightmap`. -/
theorem bakeLightmap_alerts (faults : BakeFaults) (page : Page) (sc : Scene) (m : Mesh)
    (ms : List Mesh) (quality : Option String) :
    (bakeLightmap faults page (some sc) (MeshesArg.array (m :: ms)) quality).page.alerts =
      match faults.firstMessage with
      | some message => page.alerts ++ ["Error during lightmap baking: " ++ message]
      | none => page.alerts := by
  unfold bakeLightmap BakeFaults.firstMessage
  rcases ht : faults.texture with _ | ⟨message, sc', ms'⟩
  · rcases hs : faults.status with _ | message
    · rcases hr : faults.render with _ | message <;>
        simp [bakeCatch, Page.remove, Page.append, Page.alert]
    · simp [bakeCatch, Page.remove, Page.append, Page.alert]
  · simp [bakeCatch, Page.remove, Page.append, Page.alert]

/-- The scene after a valid call of `bakeLightmap` in which
`createLightmapTexture` returns: its lights are the old ones and the ambient
light of the bake. -/
theorem bakeLightmap_lights (faults : BakeFaults) (page : Page) (sc : Scene) (m : Mesh)
    (ms : List Mesh) (quality : Option String) (hok : faults.texture = none) :
    (bakeLightmap faults page (some sc) (MeshesArg.array (m :: ms)) quality).lights =
      sc.lights ++ [bakeAmbientLight] := by
  unfold bakeLightmap BakeResult.lights
  rw [hok]
  rcases hs : faults.status with _ | message
  · rcases hr : faults.render with _ | message <;> simp [createLightmapTexture]
  · simp [createLightmapTexture]

/-- A cell covered by some triangle, in a mesh all of whose triangles have the
same value `v` for a channel, holds `v` in that channel. -/
theorem cellValue_rasterizeMesh_uniform (sqrt : ℚ → ℚ) (gridSize : ℕ) (isWall isBox : Bool)
    (lights : List Light) (triangles : List Triangle) (x y : ℤ) (c : ℕ) (v : ℚ)
    (hx : 0 ≤ x) (hxg : x < gridSize) (hy : 0 ≤ y) (hyg : y < gridSize) (hc : c < 3)
    (hall : ∀ t ∈ triangles, (t.shading sqrt isWall isBox lights).channel c * 255 = v)
    (hcov : ∃ t ∈ triangles, t.covers gridSize x y = true) :
    cellValue gridSize (rasterizeMesh sqrt gridSize isWall isBox lights triangles) x y c = v := by
  obtain ⟨h1, h2⟩ := cellValue_rasterizeMesh_spec sqrt gridSize isWall isBox lights triangles
    x y c hx hxg hy hyg hc
  obtain ⟨t, ht, hcv⟩ := hcov
  rcases h2 with h0 | ⟨t', ht', -, he⟩
  · have hle := h1 t ht hcv
    have hpos := (shading_value_bounds sqrt isWall isBox lights t c).1
    rw [h0] at hle
    linarith
  · rw [he, hall t' ht']

theorem meshKindOf_ground : meshKindOf "ground" = ⟨false, true, false, false⟩ := by decide!

/-- The lightmap of the ground mesh at cell `(100, 50)`, for a light list that
gives both of its triangles the red value `v`. -/
theorem groundMesh_cell (lights : List Light) (v : ℚ)
    (hall : ∀ t ∈ groundRawTriangles.map
        (prepareTriangle ratSqrt noAtan2 noAsin approxPi ⟨false, true, false, false⟩ id id),
      (t.shading ratSqrt false false lights).channel 0 * 255 = v) :
    cellValue 128 (meshLightmapData ratSqrt noAtan2 noAsin approxPi groundMesh lights 256) 100 50 0
      = v := by
  have hg : gridSizeOf 256 = 128 := by decide
  simp only [meshLightmapData, groundMesh, meshKindOf_ground, hg]
  refine cellValue_rasterizeMesh_uniform ratSqrt 128 false false lights _ 100 50 0 v
    (by decide) (by decide) (by decide) (by decide) (by decide) hall
    ⟨prepareTriangle ratSqrt noAtan2 noAsin approxPi ⟨false, true, false, false⟩ id id
      ⟨⟨-5, 0, 5⟩, ⟨5, 0, 5⟩, ⟨5, 0, -5⟩, ⟨0, 1, 0⟩, ⟨0, 1, 0⟩, ⟨0, 1, 0⟩,
        some (⟨0, 0⟩, ⟨1, 0⟩, ⟨1, 1⟩)⟩, ?_, by decide!⟩
  simp [groundRawTriangles]

/-! ## Lemmas on the canvas -/

/-- The lines of the overlay: for `k = 0, ..., 16` a horizontal and a vertical
line at offset `k * (size / 16)`. -/
theorem overlayLoop_from (size : ℚ) (hs : 0 < size) :
    ∀ (n fuel k : ℕ), k + n = 17 → n < fuel →
      overlayLoop size fuel ((k : ℚ) * (size / 16)) =
        some (((List.range n).map (fun j => j + k)).flatMap
          (fun j => overlayPass size ((j : ℚ) * (size / 16)))) := by
  intro n
  induction n with
  | zero =>
    intro fuel k hk hf
    obtain ⟨f, rfl⟩ := Nat.exists_eq_succ_of_ne_zero (Nat.pos_iff_ne_zero.mp hf)
    have hk17 : k = 17 := by omega
    subst hk17
    have hgt : ¬ ((17 : ℕ) : ℚ) * (size / 16) ≤ size := by
      push_cast
      intro h
      linarith
    unfold overlayLoop
    rw [if_neg hgt]
    rfl
  | succ n ih =>
    intro fuel k hk hf
    obtain ⟨f, rfl⟩ := Nat.exists_eq_succ_of_ne_zero (Nat.pos_iff_ne_zero.mp (by omega : 0 < fuel))
    have hk16 : (k : ℚ) ≤ 16 := by
      have : k ≤ 16 := by omega
      exact_mod_cast this
    have hle : (k : ℚ) * (size / 16) ≤ size := by
      have h1 : (k : ℚ) * (size / 16) ≤ 16 * (size / 16) :=
        mul_le_mul_of_nonneg_right hk16 (by positivity)
      linarith
    have hnext : (k : ℚ) * (size / 16) + size / 16 = ((k + 1 : ℕ) : ℚ) * (size / 16) := by
      push_cast
      ring
    unfold overlayLoop
    rw [if_pos hle, hnext, ih f (k + 1) (by omega) (by omega)]
    simp only [Option.map_some', List.range_succ_eq_map, List.map_cons, List.map_map,
      List.flatMap_cons, Nat.zero_add]
    have hmap : List.map ((fun j => j + k) ∘ Nat.succ) (List.range n) =
        List.map (fun j => j + (k + 1)) (List.range n) := by
      apply List.map_congr_left
      intro j _
      simp only [Function.comp]
      omega
    rw [hmap]

/-- The overlay loop ends after 17 passes, whatever the positive size. -/
theorem overlayLoop_eq (size : ℚ) (hs : 0 < size) (fuel : ℕ) (hf : 18 ≤ fuel) :
    overlayLoop size fuel 0 =
      some ((List.range 17).flatMap (fun j => overlayPass size ((j : ℚ) * (size / 16)))) := by
  have h := overlayLoop_from size hs 17 fuel 0 (by omega) (by omega)
  simpa using h

theorem overlayLoop_mem (size : ℚ) : ∀ (fuel : ℕ) (i : ℚ) (ops : List DrawOp),
    overlayLoop size fuel i = some ops →
    ∀ op ∈ ops, ∃ x0 y0 x1 y1, op = DrawOp.strokeLine x0 y0 x1 y1 := by
  intro fuel
  induction fuel with
  | zero => intro i ops h; simp [overlayLoop] at h
  | succ f ih =>
    intro i ops h op hop
    unfold overlayLoop at h
    split at h
    · rcases hrec : overlayLoop size f (i + size / 16) with _ | rest
      · rw [hrec] at h; simp at h
      · rw [hrec] at h
        simp only [Option.map_some', Option.some.injEq] at h
        rw [← h] at hop
        rcases List.mem_append.mp hop with h1 | h1
        · simp only [overlayPass, List.mem_cons, List.mem_singleton, List.not_mem_nil,
            or_false] at h1
          rcases h1 with rfl | rfl
          · exact ⟨_, _, _, _, rfl⟩
          · exact ⟨_, _, _, _, rfl⟩
        · exact ih _ _ hrec op h1
    · simp only [Option.some.injEq] at h
      rw [← h] at hop
      simp at hop

theorem overlay_horizontal_lines (size : ℚ) (hs : 0 < size) (offsets : List ℚ) :
    (offsets.flatMap (fun i => overlayPass size i)).filter DrawOp.isHorizontalLine =
      offsets.map (fun i => DrawOp.strokeLine 0 i size i) := by
  induction offsets with
  | nil => rfl
  | cons i rest ih =>
    rw [List.flatMap_cons, List.filter_append, ih]
    simp [overlayPass, DrawOp.isHorizontalLine, hs.ne]

theorem overlay_vertical_lines (size : ℚ) (hs : 0 < size) (offsets : List ℚ) :
    (offsets.flatMap (fun i => overlayPass size i)).filter DrawOp.isVerticalLine =
      offsets.map (fun i => DrawOp.strokeLine i 0 i size) := by
  induction offsets with
  | nil => rfl
  | cons i rest ih =>
    rw [List.flatMap_cons, List.filter_append, ih]
    simp [overlayPass, DrawOp.isVerticalLine, hs.ne]

theorem overlay_offsets (size : ℚ) :
    (List.range 17).flatMap (fun j => overlayPass size ((j : ℚ) * (size / 16))) =
      ((List.range 17).map (fun j : ℕ => (j : ℚ) * (size / 16))).flatMap
        (fun i => overlayPass size i) := by
  rw [List.flatMap_map]

/-- A mesh without positions, normals or indices gets the canvas with its
background only. -/
theorem createLightmapForMesh_of_missing (sqrt : ℚ → ℚ) (atan2 : ℚ → ℚ → ℚ) (asin : ℚ → ℚ)
    (pi : ℚ) (fuel : ℕ) (mesh : Mesh) (lights : List Light) (size : ℕ)
    (h : mesh.hasPositions = false ∨ mesh.hasNormals = false ∨ mesh.hasIndices = false) :
    createLightmapForMesh sqrt atan2 asin pi fuel mesh lights size =
      some ⟨size, size, [background size]⟩ := by
  unfold createLightmapForMesh
  rcases h with h | h | h <;> simp [h]

/-- With fuel for 18 passes of the overlay loop, the `try` block of an even
positive size runs to its end. -/
theorem tryBlockOps_eq (sqrt : ℚ → ℚ) (atan2 : ℚ → ℚ → ℚ) (asin : ℚ → ℚ) (pi : ℚ)
    (fuel : ℕ) (hf : 18 ≤ fuel) (mesh : Mesh) (lights : List Light) (size : ℕ)
    (hs : 0 < size) :
    tryBlockOps sqrt atan2 asin pi fuel mesh lights size =
      some ([DrawOp.drawLightmap (meshLightmapData sqrt atan2 asin pi mesh lights size)
          (gridSizeOf size), DrawOp.blur] ++
        (List.range 17).flatMap (fun j => overlayPass size ((j : ℚ) * ((size : ℚ) / 16))) ++
        [watermark mesh.name size]) := by
  unfold tryBlockOps
  rw [overlayLoop_eq (size : ℚ) (by exact_mod_cast hs) fuel hf]
  rfl

/-- With fuel for 18 passes of the overlay loop, `createLightmapForMesh`
returns a canvas. -/
theorem createLightmapForMesh_returns (sqrt : ℚ → ℚ) (atan2 : ℚ → ℚ → ℚ) (asin : ℚ → ℚ)
    (pi : ℚ) (fuel : ℕ) (hf : 18 ≤ fuel) (mesh : Mesh) (lights : List Light) (size : ℕ) :
    ∃ canvas, createLightmapForMesh sqrt atan2 asin pi fuel mesh lights size = some canvas := by
  unfold createLightmapForMesh
  split
  · exact ⟨_, rfl⟩
  · split
    · exact ⟨_, rfl⟩
    · rename_i h1 h2
      have hs : 0 < size := by omega
      rw [tryBlockOps_eq sqrt atan2 asin pi fuel hf mesh lights size hs]
      exact ⟨_, rfl⟩

/-- The canvas of `createLightmapForMesh` has the requested size, and the
lightmap drawn on it has a grid of half that size. -/
theorem createLightmapForMesh_size (sqrt : ℚ → ℚ) (atan2 : ℚ → ℚ → ℚ) (asin : ℚ → ℚ)
    (pi : ℚ) (fuel : ℕ) (mesh : Mesh) (lights : List Light) (size : ℕ) (canvas : Canvas)
    (h : createLightmapForMesh sqrt atan2 asin pi fuel mesh lights size = some canvas) :
    canvas.width = size ∧ canvas.height = size ∧
      ∀ data g, DrawOp.drawLightmap data g ∈ canvas.ops → g = gridSizeOf size := by
  unfold createLightmapForMesh at h
  split at h
  · simp only [Option.some.injEq] at h
    subst h
    simp [background]
  · split at h
    · simp only [Option.some.injEq] at h
      subst h
      simp [background, errorMarker]
    · unfold tryBlockOps at h
      rcases hov : overlayLoop (size : ℚ) fuel 0 with _ | overlay
      · rw [hov] at h; simp at h
      · rw [hov] at h
        have hmem : ∀ data g, DrawOp.drawLightmap data g ∈
            ([DrawOp.drawLightmap (meshLightmapData sqrt atan2 asin pi mesh lights size)
              (gridSizeOf size), DrawOp.blur] ++ overlay ++ [watermark mesh.name size]) →
            g = gridSizeOf size := by
          intro data g hm
          simp only [List.mem_append, List.mem_cons, List.mem_singleton, List.not_mem_nil,
            or_false, DrawOp.drawLightmap.injEq, watermark] at hm
          rcases hm with ((⟨-, rfl⟩ | hm) | hm) | hm
          · rfl
          · cases hm
          · obtain ⟨x0, y0, x1, y1, e⟩ := overlayLoop_mem _ _ _ _ hov _ hm
            cases e
          · cases hm
        simp only [Option.map_some'] at h
        rcases hth : mesh.throwsAfter with _ | k
        · rw [hth] at h
          simp only [Option.some.injEq] at h
          subst h
          refine ⟨rfl, rfl, ?_⟩
          intro data g hm
          simp only [List.mem_cons, background] at hm
          rcases hm with hm | hm
          · cases hm
          · exact hmem data g hm
        · rw [hth] at h
          simp only [Option.some.injEq] at h
          subst h
          refine ⟨rfl, rfl, ?_⟩
          intro data g hm
          simp only [List.mem_cons, List.mem_append, List.mem_singleton, background,
            errorMarker] at hm
          rcases hm with hm | hm | hm | hm
          · cases hm
          · exact hmem data g (List.mem_of_mem_take hm)
          · cases hm
          · cases hm

/-! ## Lemmas on UV synthesis -/

/-- The flags of a mesh named `sphere`. -/
theorem meshKindOf_sphere : meshKindOf "sphere" = ⟨false, false, false, true⟩ := by
  decide!

/-- The centre that `prepareTriangle` takes to world space is the centre of the
vertices as they are after the UVs were computed. -/
theorem prepareTriangle_worldCenter (sqrt : ℚ → ℚ) (atan2 : ℚ → ℚ → ℚ) (asin : ℚ → ℚ)
    (pi : ℚ) (kind : MeshKind) (toWorld normalToWorld : Vector3 → Vector3)
    (raw : RawTriangle) :
    (prepareTriangle sqrt atan2 asin pi kind toWorld normalToWorld raw).worldCenter =
      toWorld (Vector3.scale (Vector3.add (Vector3.add
        (triangleUVs sqrt atan2 asin pi kind raw).v1
        (triangleUVs sqrt atan2 asin pi kind raw).v2)
        (triangleUVs sqrt atan2 asin pi kind raw).v3) (1 / 3)) := rfl

/-- The world normal of `prepareTriangle` reads the vertex normals only. -/
theorem prepareTriangle_worldNormal (sqrt : ℚ → ℚ) (atan2 : ℚ → ℚ → ℚ) (asin : ℚ → ℚ)
    (pi : ℚ) (kind : MeshKind) (toWorld normalToWorld : Vector3 → Vector3)
    (raw : RawTriangle) :
    (prepareTriangle sqrt atan2 asin pi kind toWorld normalToWorld raw).worldNormal =
      Vector3.normalize sqrt (normalToWorld (Vector3.normalize sqrt
        (Vector3.add (Vector3.add raw.n1 raw.n2) raw.n3))) := rfl

/-- A mesh that supplies its UVs keeps the vertices it was read with. -/
theorem triangleUVs_vertices_of_supplied (sqrt : ℚ → ℚ) (atan2 : ℚ → ℚ → ℚ) (asin : ℚ → ℚ)
    (pi : ℚ) (kind : MeshKind) (raw : RawTriangle) (uvs : Vector2 × Vector2 × Vector2) :
    (triangleUVs sqrt atan2 asin pi kind (raw.withUVs uvs)).v1 = raw.v1 ∧
    (triangleUVs sqrt atan2 asin pi kind (raw.withUVs uvs)).v2 = raw.v2 ∧
    (triangleUVs sqrt atan2 asin pi kind (raw.withUVs uvs)).v3 = raw.v3 :=
  ⟨rfl, rfl, rfl⟩

/-- The wall, ground, box and default branches of the UV synthesis keep the
vertices: only the sphere branch, reached when the three other flags are off,
changes them. -/
theorem synthesizeUVs_vertices_of_not_sphere (sqrt : ℚ → ℚ) (atan2 : ℚ → ℚ → ℚ)
    (asin : ℚ → ℚ) (pi : ℚ) (kind : MeshKind) (v1 v2 v3 n1 : Vector3)
    (hkind : kind.isWall = true ∨ kind.isGround = true ∨ kind.isBox = true ∨
      kind.isSphere = false) :
    (synthesizeUVs sqrt atan2 asin pi kind v1 v2 v3 n1).v1 = v1 ∧
    (synthesizeUVs sqrt atan2 asin pi kind v1 v2 v3 n1).v2 = v2 ∧
    (synthesizeUVs sqrt atan2 asin pi kind v1 v2 v3 n1).v3 = v3 := by
  unfold synthesizeUVs
  by_cases hw : kind.isWall = true
  · simp [hw]
  by_cases hg : kind.isGround = true
  · simp [hw, hg]
  by_cases hb : kind.isBox = true
  · simp only [hw, hg, hb, if_true, Bool.false_eq_true, if_false]
    split_ifs <;> exact ⟨rfl, rfl, rfl⟩
  have hs : kind.isSphere = false := by
    rcases hkind with h | h | h | h
    · exact absurd h hw
    · exact absurd h hg
    · exact absurd h hb
    · exact h
  simp [hw, hg, hb, hs]

/-- The sphere branch replaces each vertex by its normalized value. -/
theorem synthesizeUVs_vertices_of_sphere (sqrt : ℚ → ℚ) (atan2 : ℚ → ℚ → ℚ)
    (asin : ℚ → ℚ) (pi : ℚ) (v1 v2 v3 n1 : Vector3) :
    (synthesizeUVs sqrt atan2 asin pi ⟨false, false, false, true⟩ v1 v2 v3 n1).v1 =
      Vector3.normalize sqrt v1 ∧
    (synthesizeUVs sqrt atan2 asin pi ⟨false, false, false, true⟩ v1 v2 v3 n1).v2 =
      Vector3.normalize sqrt v2 ∧
    (synthesizeUVs sqrt atan2 asin pi ⟨false, false, false, true⟩ v1 v2 v3 n1).v3 =
      Vector3.normalize sqrt v3 :=
  ⟨rfl, rfl, rfl⟩

/-- Outside the sphere branch the centre, the normal and the shading value of a
triangle are the same whether its UVs are generated or supplied. -/
theorem prepareTriangle_frame_of_not_sphere (sqrt : ℚ → ℚ) (atan2 : ℚ → ℚ → ℚ)
    (asin : ℚ → ℚ) (pi : ℚ) (kind : MeshKind) (toWorld normalToWorld : Vector3 → Vector3)
    (lights : List Light) (raw : RawTriangle) (uvs : Vector2 × Vector2 × Vector2)
    (hkind : kind.isWall = true ∨ kind.isGround = true ∨ kind.isBox = true ∨
      kind.isSphere = false) :
    (prepareTriangle sqrt atan2 asin pi kind toWorld normalToWorld raw.withoutUVs).worldCenter =
      (prepareTriangle sqrt atan2 asin pi kind toWorld normalToWorld
        (raw.withUVs uvs)).worldCenter ∧
    (prepareTriangle sqrt atan2 asin pi kind toWorld normalToWorld raw.withoutUVs).worldNormal =
      (prepareTriangle sqrt atan2 asin pi kind toWorld normalToWorld
        (raw.withUVs uvs)).worldNormal ∧
    Triangle.shading sqrt kind.isWall kind.isBox lights
        (prepareTriangle sqrt atan2 asin pi kind toWorld normalToWorld raw.withoutUVs) =
      Triangle.shading sqrt kind.isWall kind.isBox lights
        (prepareTriangle sqrt atan2 asin pi kind toWorld normalToWorld (raw.withUVs uvs)) := by
  have hcenter : (prepareTriangle sqrt atan2 asin pi kind toWorld normalToWorld
      raw.withoutUVs).worldCenter =
      (prepareTriangle sqrt atan2 asin pi kind toWorld normalToWorld
        (raw.withUVs uvs)).worldCenter := by
    obtain ⟨h1, h2, h3⟩ := synthesizeUVs_vertices_of_not_sphere sqrt atan2 asin pi kind
      raw.v1 raw.v2 raw.v3 raw.n1 hkind
    rw [prepareTriangle_worldCenter, prepareTriangle_worldCenter]
    have hs : triangleUVs sqrt atan2 asin pi kind raw.withoutUVs =
        synthesizeUVs sqrt atan2 asin pi kind raw.v1 raw.v2 raw.v3 raw.n1 := rfl
    obtain ⟨g1, g2, g3⟩ := triangleUVs_vertices_of_supplied sqrt atan2 asin pi kind raw uvs
    rw [hs, h1, h2, h3, g1, g2, g3]
  refine ⟨hcenter, rfl, ?_⟩
  unfold Triangle.shading
  rw [hcenter]
  rfl

/-! ## Lemmas on the shading in exact arithmetic -/

/-- In exact arithmetic, where no sum or product overflows, every channel of the
clamped shading value lies in `[0.1, 1.0]`, so the value `255 * channel` written
for it lies in `[25.5, 255]`, and after the triangle loop every channel of a
covered cell lies in `[25.5, 255]`. -/
theorem shading_and_written_values_bounded (sqrt : ℚ → ℚ) (gridSize : ℕ)
    (isWall isBox : Bool) (lights : List Light) (triangles : List Triangle) (x y : ℤ) (c : ℕ)
    (hx : 0 ≤ x) (hxg : x < gridSize) (hy : 0 ≤ y) (hyg : y < gridSize) (hc : c < 3)
    (hcov : ∃ t ∈ triangles, t.covers gridSize x y = true) :
    (∀ (worldCenter worldNormal : Vector3) (k : ℕ),
      1 / 10 ≤ (triangleShading sqrt isWall isBox worldCenter worldNormal lights).channel k ∧
      (triangleShading sqrt isWall isBox worldCenter worldNormal lights).channel k ≤ 1 ∧
      51 / 2 ≤ (triangleShading sqrt isWall isBox worldCenter worldNormal lights).channel k * 255 ∧
      (triangleShading sqrt isWall isBox worldCenter worldNormal lights).channel k * 255 ≤ 255) ∧
    51 / 2 ≤ cellValue gridSize (rasterizeMesh sqrt gridSize isWall isBox lights triangles) x y c ∧
    cellValue gridSize (rasterizeMesh sqrt gridSize isWall isBox lights triangles) x y c ≤ 255 := by
  refine ⟨?_, ?_, ?_⟩
  · intro worldCenter worldNormal k
    have h := triangleShading_channel_bounds sqrt isWall isBox worldCenter worldNormal lights k
    refine ⟨h.1, h.2, ?_, ?_⟩ <;> nlinarith [h.1, h.2]
  · obtain ⟨t, ht, hc'⟩ := hcov
    obtain ⟨h1, -⟩ := cellValue_rasterizeMesh_spec sqrt gridSize isWall isBox lights triangles
      x y c hx hxg hy hyg hc
    exact le_trans (shading_value_bounds sqrt isWall isBox lights t c).1 (h1 t ht hc')
  · obtain ⟨-, h2⟩ := cellValue_rasterizeMesh_spec sqrt gridSize isWall isBox lights triangles
      x y c hx hxg hy hyg hc
    rcases h2 with h0 | ⟨t, -, -, he⟩
    · rw [h0]; norm_num
    · rw [he]
      exact (shading_value_bounds sqrt isWall isBox lights t c).2

theorem shading_and_written_values_bounded_witness :
    51 / 2 ≤ cellValue 128
        (rasterizeMesh ratSqrt 128 false false [skyLight]
          [groundTriangleA, groundTriangleB]) 100 50 0 ∧
      cellValue 128
        (rasterizeMesh ratSqrt 128 false false [skyLight]
          [groundTriangleA, groundTriangleB]) 100 50 0 ≤ 255 :=
  (shading_and_written_values_bounded ratSqrt 128 false false [skyLight]
    [groundTriangleA, groundTriangleB] 100 50 0 (by decide) (by decide) (by decide) (by decide)
    (by decide) ⟨groundTriangleA, List.mem_cons_self _ _, groundTriangleA_covers⟩).2

/-! ## Lemmas on the shading in binary64 -/

/-- The literal `0.1` as a binary64 value. -/
theorem tenth_eq : Binary64.tenth = JSNum.fin (3602879701896397 / 36028797018963968) := by
  decide!

/-- The clamp of NaN is NaN. -/
theorem clampChannel_nan : Binary64.clampChannel JSNum.nan = JSNum.nan := by
  decide!

/-- The clamp of a value that is not NaN is a finite value between the literals
`0.1` and `1.0`; infinite values are clamped as well. -/
theorem clampChannel_of_ne_nan (v : JSNum) (hv : v ≠ JSNum.nan) :
    ∃ q : ℚ, Binary64.clampChannel v = JSNum.fin q ∧
      3602879701896397 / 36028797018963968 ≤ q ∧ q ≤ 1 := by
  unfold Binary64.clampChannel
  rw [tenth_eq]
  cases v with
  | nan => exact absurd rfl hv
  | posInf => exact ⟨1, by decide!, by norm_num, le_refl _⟩
  | negInf => exact ⟨3602879701896397 / 36028797018963968, by decide!, le_refl _, by norm_num⟩
  | negZero => exact ⟨3602879701896397 / 36028797018963968, by decide!, le_refl _, by norm_num⟩
  | fin q =>
    by_cases h1 : (1 : ℚ) ≤ q
    · refine ⟨1, ?_, by norm_num, le_refl _⟩
      have hmin : JSNum.min jsOne (JSNum.fin q) = JSNum.fin 1 := by
        simp [JSNum.min, jsOne, JSNum.le, h1]
      rw [hmin]
      decide!
    · have hmin : JSNum.min jsOne (JSNum.fin q) = JSNum.fin q := by
        simp [JSNum.min, jsOne, JSNum.le, h1]
      rw [hmin]
      by_cases h2 : (3602879701896397 / 36028797018963968 : ℚ) ≤ q
      · refine ⟨q, ?_, h2, le_of_lt (not_le.mp h1)⟩
        simp [JSNum.max, JSNum.le, h2]
      · refine ⟨3602879701896397 / 36028797018963968, ?_, le_refl _, by norm_num⟩
        simp [JSNum.max, JSNum.le, h2]

/-- The contribution of an enabled hemispheric light in binary64. -/
theorem lightContribution_hemispheric (sqrt : JSNum → JSNum) (isWall isBox : Bool)
    (worldCenter worldNormal : Binary64.Vector3) (light : Binary64.Light)
    (hkind : light.kind = LightKind.hemispheric) :
    Binary64.lightContribution sqrt isWall isBox worldCenter worldNormal light =
      Binary64.tint ((Binary64.Vector3.Dot worldNormal light.direction * jsHalf + jsHalf) *
        light.intensity) (Binary64.lightColorOf light) := by
  unfold Binary64.lightContribution
  rw [hkind]

/-! ## The claims -/

/-! ### C1: coverage and the closed triangle -/

/-- C1 (failing input): the triangle of cells `(0,0)`, `(2,11)`, `(11,2)` has
non-zero area and the cell `(4, 9)` lies in its bounding box and on its edge
from `(2,11)` to `(11,2)`, being `7/9 (2,11) + 2/9 (11,2)`; `pointInTriangle`
computes `s + t = 1.0000000000000002`, rejects the cell, and the rasterizer
leaves it unwritten. -/
theorem edge_cell_rejected_by_rounding :
    twiceArea ⟨0, 0⟩ ⟨2, 11⟩ ⟨11, 2⟩ = -117 ∧
    inClosedTriangle ⟨0, 0⟩ ⟨2, 11⟩ ⟨11, 2⟩ 4 9 ∧
    (boxMin 128 0 2 11 ≤ 4 ∧ 4 ≤ boxMax 128 0 2 11 ∧
      boxMin 128 0 11 2 ≤ 9 ∧ 9 ≤ boxMax 128 0 11 2) ∧
    baryS (JSNum.ofInt 4) (JSNum.ofInt 9) (JSNum.ofInt 0) (JSNum.ofInt 0) (JSNum.ofInt 2)
        (JSNum.ofInt 11) (JSNum.ofInt 11) (JSNum.ofInt 2)
      + baryT (JSNum.ofInt 4) (JSNum.ofInt 9) (JSNum.ofInt 0) (JSNum.ofInt 0) (JSNum.ofInt 2)
        (JSNum.ofInt 11) (JSNum.ofInt 11) (JSNum.ofInt 2)
      = JSNum.fin (4503599627370497 / 4503599627370496) ∧
    cellInTriangle ⟨0, 0⟩ ⟨2, 11⟩ ⟨11, 2⟩ 4 9 = false ∧
    cellValue 128
      (rasterizeTriangle 128 ⟨0, 0⟩ ⟨2, 11⟩ ⟨11, 2⟩ ⟨1, 1, 1⟩ (emptyLightmap 128)) 4 9 0 = 0 := by
  have hcell : cellInTriangle ⟨0, 0⟩ ⟨2, 11⟩ ⟨11, 2⟩ 4 9 = false := by decide!
  refine ⟨by decide, ⟨0, 7 / 9, 2 / 9, by norm_num, by norm_num, by norm_num, by norm_num,
    by norm_num, by norm_num⟩, by decide, by decide!, hcell, ?_⟩
  have hcov : covers 128 ⟨0, 0⟩ ⟨2, 11⟩ ⟨11, 2⟩ 4 9 = false := by
    unfold covers
    rw [hcell, Bool.and_false]
  rw [(cellValue_rasterizeTriangle 128 (by norm_num) ⟨0, 0⟩ ⟨2, 11⟩ ⟨11, 2⟩ ⟨1, 1, 1⟩
    (emptyLightmap 128) 4 9 0 (emptyLightmap_length 128) (by decide) (by decide) (by decide)
    (by decide) (by decide)).2, hcov]
  simp [cellValue_emptyLightmap]

/-! ### C2: a cell holds the maximum over its covering triangles -/

/-- C2: after the triangle loop every channel of every grid cell is the maximum,
over the triangles that covered the cell, of `255` times the triangle's clamped
shading channel, and `0` when no triangle covered it: it is `0` if no triangle
covers the cell, it is the value of some covering triangle otherwise, and no
covering triangle has a greater value. -/
theorem cell_holds_max_of_covering_triangles (sqrt : ℚ → ℚ) (gridSize : ℕ)
    (isWall isBox : Bool) (lights : List Light) (triangles : List Triangle) (x y : ℤ) (c : ℕ)
    (hx : 0 ≤ x) (hxg : x < gridSize) (hy : 0 ≤ y) (hyg : y < gridSize) (hc : c < 3) :
    ((∀ t ∈ triangles, t.covers gridSize x y = false) →
      cellValue gridSize (rasterizeMesh sqrt gridSize isWall isBox lights triangles) x y c = 0) ∧
    ((∃ t ∈ triangles, t.covers gridSize x y = true) →
      ∃ t ∈ triangles, t.covers gridSize x y = true ∧
        cellValue gridSize (rasterizeMesh sqrt gridSize isWall isBox lights triangles) x y c =
          (t.shading sqrt isWall isBox lights).channel c * 255) ∧
    (∀ t ∈ triangles, t.covers gridSize x y = true →
      (t.shading sqrt isWall isBox lights).channel c * 255 ≤
        cellValue gridSize (rasterizeMesh sqrt gridSize isWall isBox lights triangles) x y c) := by
  obtain ⟨h1, h2⟩ := cellValue_rasterizeMesh_spec sqrt gridSize isWall isBox lights triangles
    x y c hx hxg hy hyg hc
  refine ⟨?_, ?_, h1⟩
  · intro hnone
    rcases h2 with h0 | ⟨t, ht, hcov, -⟩
    · exact h0
    · rw [hnone t ht] at hcov
      exact absurd hcov (by decide)
  · rintro ⟨t, ht, hcov⟩
    rcases h2 with h0 | h
    · have hle := h1 t ht hcov
      have hpos := (shading_value_bounds sqrt isWall isBox lights t c).1
      rw [h0] at hle
      linarith
    · exact h

theorem cell_holds_max_of_covering_triangles_witness :
    (groundTriangleA.shading ratSqrt false false [skyLight]).channel 0 * 255 ≤
      cellValue 128
        (rasterizeMesh ratSqrt 128 false false [skyLight] [groundTriangleA, groundTriangleB])
        100 50 0 :=
  (cell_holds_max_of_covering_triangles ratSqrt 128 false false [skyLight]
    [groundTriangleA, groundTriangleB] 100 50 0 (by decide) (by decide) (by decide) (by decide)
    (by decide)).2.2 groundTriangleA (List.mem_cons_self _ _) groundTriangleA_covers

/-! ### C3: zero-area triangles -/

/-- C3 (counterexample): on the collinear cells `(0,0)`, `(1,1)`, `(2,2)` the
divisor `2 * area` of `pointInTriangle` is zero and the division
`1 / (2 * area)` is carried out, with result `+Infinity`. -/
theorem zero_area_triangle_divides_by_zero :
    twiceArea ⟨0, 0⟩ ⟨1, 1⟩ ⟨2, 2⟩ = 0 ∧
    baryDivisor (JSNum.ofInt 0) (JSNum.ofInt 0) (JSNum.ofInt 1) (JSNum.ofInt 1)
      (JSNum.ofInt 2) (JSNum.ofInt 2) = JSNum.fin 0 ∧
    jsOne / baryDivisor (JSNum.ofInt 0) (JSNum.ofInt 0) (JSNum.ofInt 1) (JSNum.ofInt 1)
      (JSNum.ofInt 2) (JSNum.ofInt 2) = JSNum.posInf ∧
    baryS (JSNum.ofInt 1) (JSNum.ofInt 1) (JSNum.ofInt 0) (JSNum.ofInt 0) (JSNum.ofInt 1)
      (JSNum.ofInt 1) (JSNum.ofInt 2) (JSNum.ofInt 2) = JSNum.nan := by
  decide!

/-- C3 (amended): for every triangle whose three grid-cell vertices have zero
area, `pointInTriangle` does divide by zero (`2 * area` is a zero and
`1 / (2 * area)` is an infinity, which raises no error), its test fails at every
cell, and the rasterizer writes no cell: the array is unchanged. -/
theorem zero_area_triangle_is_skipped (gridSize : ℕ) (hgs : gridSize ≤ 2 ^ 25)
    (g1 g2 g3 : GridPoint) (h1 : g1.inGrid gridSize) (h2 : g2.inGrid gridSize)
    (h3 : g3.inGrid gridSize) (harea : twiceArea g1 g2 g3 = 0)
    (light : Color3) (data : List ℚ) :
    JSNum.isZero (baryDivisor (JSNum.ofInt g1.x) (JSNum.ofInt g1.y) (JSNum.ofInt g2.x)
      (JSNum.ofInt g2.y) (JSNum.ofInt g3.x) (JSNum.ofInt g3.y)) = true ∧
    JSNum.isInf (jsOne / baryDivisor (JSNum.ofInt g1.x) (JSNum.ofInt g1.y) (JSNum.ofInt g2.x)
      (JSNum.ofInt g2.y) (JSNum.ofInt g3.x) (JSNum.ofInt g3.y)) = true ∧
    (∀ x y, cellInTriangle g1 g2 g3 x y = false) ∧
    rasterizeTriangle gridSize g1 g2 g3 light data = data := by
  have hz := baryDivisor_zero_of_zero_area gridSize hgs g1 g2 g3 h1 h2 h3 harea
  have hcell : ∀ x y, cellInTriangle g1 g2 g3 x y = false := fun x y =>
    pointInTriangle_of_zero_divisor _ _ _ _ _ _ _ _ hz
  refine ⟨?_, ?_, hcell, rasterizeTriangle_of_no_cell gridSize g1 g2 g3 light data hcell⟩
  · rcases hz with h | h <;> rw [h] <;> simp [JSNum.isZero]
  · rcases JSNum.one_div_zero _ hz with h | h <;> (unfold jsOne; rw [h]; rfl)

theorem zero_area_triangle_is_skipped_witness :
    twiceArea ⟨0, 0⟩ ⟨1, 1⟩ ⟨2, 2⟩ = 0 ∧
    rasterizeTriangle 128 ⟨0, 0⟩ ⟨1, 1⟩ ⟨2, 2⟩ ⟨1, 1, 1⟩ (emptyLightmap 128) =
      emptyLightmap 128 :=
  ⟨by decide, (zero_area_triangle_is_skipped 128 (by norm_num) ⟨0, 0⟩ ⟨1, 1⟩ ⟨2, 2⟩
    ⟨by decide, by decide, by decide, by decide⟩ ⟨by decide, by decide, by decide, by decide⟩
    ⟨by decide, by decide, by decide, by decide⟩ (by decide) ⟨1, 1, 1⟩
    (emptyLightmap 128)).2.2.2⟩

/-! ### C4: bounds of the shading value -/

/-- C4 (fails on the code): the clamp `Math.max(0.1, Math.min(1.0, v))` returns
NaN for NaN, and lights with finite parameters can make the running value NaN.
For the enabled hemispheric light `overbrightLight` (direction `(0, 3, 0)`,
intensity `1e308`, diffuse colour `(1, 0, 0)`) and a triangle with world normal
`(0, 1, 0)`, whatever its centre, the mesh kind and `Math.sqrt` are: the
intensity `(3 * 0.5 + 0.5) * 1e308` overflows to `Infinity`, the contribution is
`(Infinity, Infinity * 0, Infinity * 0) = (Infinity, NaN, NaN)`, the running
value is `(Infinity, NaN, NaN)`, the shading value after the clamp is
`(1, NaN, NaN)`, and the green value written to a covered cell that held `0` is
`Math.max(0, NaN * 255) = NaN`, which lies in no interval. -/
theorem clamp_lets_nan_through (sqrt : JSNum → JSNum) (isWall isBox : Bool)
    (worldCenter : Binary64.Vector3) :
    Binary64.lightContribution sqrt isWall isBox worldCenter ⟨jsZero, jsOne, jsZero⟩
        overbrightLight = ⟨JSNum.posInf, JSNum.nan, JSNum.nan⟩ ∧
    Binary64.accumulateLights sqrt isWall isBox worldCenter ⟨jsZero, jsOne, jsZero⟩
        [overbrightLight] = ⟨JSNum.posInf, JSNum.nan, JSNum.nan⟩ ∧
    Binary64.triangleShading sqrt isWall isBox worldCenter ⟨jsZero, jsOne, jsZero⟩
        [overbrightLight] = ⟨jsOne, JSNum.nan, JSNum.nan⟩ ∧
    Binary64.writtenValue jsZero
        (Binary64.triangleShading sqrt isWall isBox worldCenter ⟨jsZero, jsOne, jsZero⟩
          [overbrightLight]).g = JSNum.nan := by
  have hc : Binary64.lightContribution sqrt isWall isBox worldCenter ⟨jsZero, jsOne, jsZero⟩
      overbrightLight = ⟨JSNum.posInf, JSNum.nan, JSNum.nan⟩ := by
    rw [lightContribution_hemispheric sqrt isWall isBox worldCenter _ overbrightLight rfl]
    decide!
  have ha : Binary64.accumulateLights sqrt isWall isBox worldCenter ⟨jsZero, jsOne, jsZero⟩
      [overbrightLight] = ⟨JSNum.posInf, JSNum.nan, JSNum.nan⟩ := by
    unfold Binary64.accumulateLights
    simp only [List.foldl, Binary64.lightStep]
    have hon : overbrightLight.enabled = true := rfl
    rw [if_pos hon, hc]
    decide!
  have hs : Binary64.triangleShading sqrt isWall isBox worldCenter ⟨jsZero, jsOne, jsZero⟩
      [overbrightLight] = ⟨jsOne, JSNum.nan, JSNum.nan⟩ := by
    unfold Binary64.triangleShading
    rw [ha]
    decide!
  refine ⟨hc, ha, hs, ?_⟩
  rw [hs]
  rfl

/-! ### C5: disabled lights -/

/-- C5: a disabled light contributes nothing: the running light value, the
clamped shading value and the lightmap array are those computed with the light
removed from the list, whatever the light's other fields are. -/
theorem disabled_light_is_ignored (sqrt : ℚ → ℚ) (isWall isBox : Bool)
    (pre post : List Light) (light : Light) (hoff : light.enabled = false) :
    (∀ worldCenter worldNormal,
      accumulateLights sqrt isWall isBox worldCenter worldNormal (pre ++ light :: post) =
        accumulateLights sqrt isWall isBox worldCenter worldNormal (pre ++ post)) ∧
    (∀ worldCenter worldNormal,
      triangleShading sqrt isWall isBox worldCenter worldNormal (pre ++ light :: post) =
        triangleShading sqrt isWall isBox worldCenter worldNormal (pre ++ post)) ∧
    (∀ gridSize triangles,
      rasterizeMesh sqrt gridSize isWall isBox (pre ++ light :: post) triangles =
        rasterizeMesh sqrt gridSize isWall isBox (pre ++ post) triangles) := by
  have hacc : ∀ worldCenter worldNormal,
      accumulateLights sqrt isWall isBox worldCenter worldNormal (pre ++ light :: post) =
        accumulateLights sqrt isWall isBox worldCenter worldNormal (pre ++ post) :=
    fun worldCenter worldNormal =>
      accumulateLights_remove sqrt isWall isBox worldCenter worldNormal pre post light
        (fun acc => lightStep_disabled sqrt isWall isBox worldCenter worldNormal acc light hoff)
  have hsh : ∀ worldCenter worldNormal,
      triangleShading sqrt isWall isBox worldCenter worldNormal (pre ++ light :: post) =
        triangleShading sqrt isWall isBox worldCenter worldNormal (pre ++ post) :=
    fun worldCenter worldNormal =>
      triangleShading_congr sqrt isWall isBox worldCenter worldNormal _ _
        (hacc worldCenter worldNormal)
  exact ⟨hacc, hsh, fun gridSize triangles =>
    rasterizeMesh_congr sqrt gridSize isWall isBox _ _ triangles hsh⟩

theorem disabled_light_is_ignored_witness :
    disabledLight.enabled = false ∧
    rasterizeMesh ratSqrt 128 false false ([skyLight] ++ disabledLight :: [ceilingLight])
        [groundTriangleA, groundTriangleB] =
      rasterizeMesh ratSqrt 128 false false ([skyLight] ++ [ceilingLight])
        [groundTriangleA, groundTriangleB] :=
  ⟨rfl, (disabled_light_is_ignored ratSqrt false false [skyLight] [ceilingLight] disabledLight
    rfl).2.2 128 [groundTriangleA, groundTriangleB]⟩

/-! ### C6: point lights -/

/-- C6: the contribution of a point light is
`max(0, dot(n, dir)) * intensity * (1 / (1 + 0.1 d + 0.01 d^2)) * colour` with
`dir = normalize(position - c)` and `d = |position - c|`; on a wall or box mesh
it is also multiplied by `max(0, dir.y * 0.5 + 0.5)` and by `max(0, 1 - d / 15)`,
so that it is zero whenever `d >= 15`; an enabled light adds exactly this
contribution to the running value. -/
theorem point_light_contribution_formula (sqrt : ℚ → ℚ) (isWall isBox : Bool)
    (worldCenter normal : Vector3) (light : Light) (acc : Color3)
    (hkind : light.kind = LightKind.point) (hon : light.enabled = true) :
    lightContribution sqrt isWall isBox worldCenter normal light =
      tint (max 0 (Vector3.Dot normal
            (Vector3.normalize sqrt (Vector3.subtract light.position worldCenter))) *
          light.intensity *
          (1 / (1 + 1 / 10 * Vector3.Distance sqrt light.position worldCenter +
            1 / 100 * Vector3.Distance sqrt light.position worldCenter ^ 2)) *
          (if isWall || isBox then
            max 0 ((Vector3.normalize sqrt
              (Vector3.subtract light.position worldCenter)).y * (1 / 2) + 1 / 2) *
            max 0 (1 - Vector3.Distance sqrt light.position worldCenter / 15)
          else 1))
        (lightColorOf light) ∧
    ((isWall || isBox) = true → 15 ≤ Vector3.Distance sqrt light.position worldCenter →
      lightContribution sqrt isWall isBox worldCenter normal light = ⟨0, 0, 0⟩) ∧
    lightStep sqrt isWall isBox worldCenter normal acc light =
      ⟨acc.r + (lightContribution sqrt isWall isBox worldCenter normal light).r,
        acc.g + (lightContribution sqrt isWall isBox worldCenter normal light).g,
        acc.b + (lightContribution sqrt isWall isBox worldCenter normal light).b⟩ := by
  have hformula : lightContribution sqrt isWall isBox worldCenter normal light =
      tint (max 0 (Vector3.Dot normal
            (Vector3.normalize sqrt (Vector3.subtract light.position worldCenter))) *
          light.intensity *
          (1 / (1 + 1 / 10 * Vector3.Distance sqrt light.position worldCenter +
            1 / 100 * Vector3.Distance sqrt light.position worldCenter ^ 2)) *
          (if isWall || isBox then
            max 0 ((Vector3.normalize sqrt
              (Vector3.subtract light.position worldCenter)).y * (1 / 2) + 1 / 2) *
            max 0 (1 - Vector3.Distance sqrt light.position worldCenter / 15)
          else 1))
        (lightColorOf light) := by
    unfold lightContribution
    rw [hkind]
    dsimp only
    by_cases hdot : 0 < Vector3.Dot normal
        (Vector3.normalize sqrt (Vector3.subtract light.position worldCenter))
    · rw [if_pos hdot, max_eq_right (le_of_lt hdot)]
      by_cases hw : (isWall || isBox) = true
      · rw [if_pos hw, if_pos hw]
        simp only [tint, Color3.mk.injEq]
        refine ⟨?_, ?_, ?_⟩ <;> ring
      · rw [if_neg hw, if_neg hw]
        simp only [tint, Color3.mk.injEq]
        refine ⟨?_, ?_, ?_⟩ <;> ring
    · rw [if_neg hdot, max_eq_left (not_lt.mp hdot)]
      simp [tint]
  refine ⟨hformula, ?_, ?_⟩
  · intro hw hfar
    rw [hformula, if_pos hw]
    have hs : max 0 (1 - Vector3.Distance sqrt light.position worldCenter / 15) = 0 :=
      max_eq_left (by linarith)
    rw [hs]
    simp [tint]
  · simp [lightStep, hon]

theorem point_light_contribution_formula_witness :
    15 ≤ Vector3.Distance ratSqrt farLight.position ⟨0, 0, 0⟩ ∧
    lightContribution ratSqrt true false ⟨0, 0, 0⟩ ⟨0, 1, 0⟩ farLight = ⟨0, 0, 0⟩ :=
  ⟨by decide!, (point_light_contribution_formula ratSqrt true false ⟨0, 0, 0⟩ ⟨0, 1, 0⟩ farLight
    ambient rfl rfl).2.1 rfl (by decide!)⟩

/-! ### C7: hemispheric lights -/

/-- C7 (counterexample): a hemispheric light of intensity `1` and diffuse colour
`(1, 1, 1)` whose direction `(0, -3, 0)` is not a unit vector contributes
`(-1, -1, -1)` to a triangle of unit world normal `(0, 1, 0)`. -/
theorem hemispheric_contribution_negative_for_long_direction :
    longDownLight.kind = LightKind.hemispheric ∧ longDownLight.enabled = true ∧
    0 ≤ longDownLight.intensity ∧ 0 ≤ (lightColorOf longDownLight).r ∧
    0 ≤ (lightColorOf longDownLight).g ∧ 0 ≤ (lightColorOf longDownLight).b ∧
    Vector3.lengthSquared ⟨0, 1, 0⟩ = 1 ∧
    lightContribution ratSqrt false false ⟨0, 0, 0⟩ ⟨0, 1, 0⟩ longDownLight = ⟨-1, -1, -1⟩ ∧
    (lightContribution ratSqrt false false ⟨0, 0, 0⟩ ⟨0, 1, 0⟩ longDownLight).r < 0 := by
  simp [longDownLight, lightColorOf, Vector3.lengthSquared, lightContribution, tint,
    Vector3.Dot]
  norm_num

/-- C7 (amended): for a hemispheric light with non-negative intensity and
non-negative diffuse colour channels whose direction has length at most `1`,
and a triangle with unit world normal, the contribution
`((dot(normal, direction) * 0.5 + 0.5) * intensity) * colour` is non-negative in
every channel. -/
theorem hemispheric_contribution_nonneg (sqrt : ℚ → ℚ) (isWall isBox : Bool)
    (worldCenter normal : Vector3) (light : Light)
    (hkind : light.kind = LightKind.hemispheric)
    (hint : 0 ≤ light.intensity)
    (hr : 0 ≤ (lightColorOf light).r) (hg : 0 ≤ (lightColorOf light).g)
    (hb : 0 ≤ (lightColorOf light).b)
    (hunit : Vector3.lengthSquared normal = 1)
    (hdir : Vector3.lengthSquared light.direction ≤ 1) :
    lightContribution sqrt isWall isBox worldCenter normal light =
      tint ((Vector3.Dot normal light.direction * (1 / 2) + 1 / 2) * light.intensity)
        (lightColorOf light) ∧
    0 ≤ (lightContribution sqrt isWall isBox worldCenter normal light).r ∧
    0 ≤ (lightContribution sqrt isWall isBox worldCenter normal light).g ∧
    0 ≤ (lightContribution sqrt isWall isBox worldCenter normal light).b := by
  have hformula : lightContribution sqrt isWall isBox worldCenter normal light =
      tint ((Vector3.Dot normal light.direction * (1 / 2) + 1 / 2) * light.intensity)
        (lightColorOf light) := by
    simp [lightContribution, hkind]
  have hdot : 0 ≤ Vector3.Dot normal light.direction * (1 / 2) + 1 / 2 := by
    unfold Vector3.lengthSquared at hunit hdir
    unfold Vector3.Dot
    nlinarith [sq_nonneg (normal.x + light.direction.x),
      sq_nonneg (normal.y + light.direction.y), sq_nonneg (normal.z + light.direction.z)]
  have hk : 0 ≤ (Vector3.Dot normal light.direction * (1 / 2) + 1 / 2) * light.intensity :=
    mul_nonneg hdot hint
  rw [hformula]
  exact ⟨rfl, mul_nonneg hk hr, mul_nonneg hk hg, mul_nonneg hk hb⟩

theorem hemispheric_contribution_nonneg_witness :
    Vector3.lengthSquared skyLight.direction ≤ 1 ∧
    0 ≤ (lightContribution ratSqrt false false ⟨0, 0, 0⟩ ⟨0, 1, 0⟩ skyLight).r :=
  ⟨by decide!, (hemispheric_contribution_nonneg ratSqrt false false ⟨0, 0, 0⟩ ⟨0, 1, 0⟩ skyLight
    rfl (by decide!) (by decide!) (by decide!) (by decide!) (by decide!) (by decide!)).2.1⟩

/-! ### C8: unknown light classes -/

/-- C8: a light that is neither a point, a directional nor a hemispheric light
contributes `(0, 0, 0)`: the running light value, the clamped shading value and
the lightmap array are those computed with the light removed from the list. -/
theorem unknown_light_is_ignored (sqrt : ℚ → ℚ) (isWall isBox : Bool)
    (pre post : List Light) (light : Light) (hkind : light.kind = LightKind.other) :
    (∀ worldCenter worldNormal,
      lightContribution sqrt isWall isBox worldCenter worldNormal light = ⟨0, 0, 0⟩) ∧
    (∀ worldCenter worldNormal,
      accumulateLights sqrt isWall isBox worldCenter worldNormal (pre ++ light :: post) =
        accumulateLights sqrt isWall isBox worldCenter worldNormal (pre ++ post)) ∧
    (∀ worldCenter worldNormal,
      triangleShading sqrt isWall isBox worldCenter worldNormal (pre ++ light :: post) =
        triangleShading sqrt isWall isBox worldCenter worldNormal (pre ++ post)) ∧
    (∀ gridSize triangles,
      rasterizeMesh sqrt gridSize isWall isBox (pre ++ light :: post) triangles =
        rasterizeMesh sqrt gridSize isWall isBox (pre ++ post) triangles) := by
  have hzero : ∀ worldCenter worldNormal,
      lightContribution sqrt isWall isBox worldCenter worldNormal light = ⟨0, 0, 0⟩ := by
    intro worldCenter worldNormal
    simp [lightContribution, hkind]
  have hacc : ∀ worldCenter worldNormal,
      accumulateLights sqrt isWall isBox worldCenter worldNormal (pre ++ light :: post) =
        accumulateLights sqrt isWall isBox worldCenter worldNormal (pre ++ post) :=
    fun worldCenter worldNormal =>
      accumulateLights_remove sqrt isWall isBox worldCenter worldNormal pre post light
        (fun acc => lightStep_zero sqrt isWall isBox worldCenter worldNormal acc light
          (fun _ => hzero worldCenter worldNormal))
  have hsh : ∀ worldCenter worldNormal,
      triangleShading sqrt isWall isBox worldCenter worldNormal (pre ++ light :: post) =
        triangleShading sqrt isWall isBox worldCenter worldNormal (pre ++ post) :=
    fun worldCenter worldNormal =>
      triangleShading_congr sqrt isWall isBox worldCenter worldNormal _ _
        (hacc worldCenter worldNormal)
  exact ⟨hzero, hacc, hsh, fun gridSize triangles =>
    rasterizeMesh_congr sqrt gridSize isWall isBox _ _ triangles hsh⟩

theorem unknown_light_is_ignored_witness :
    spotLight.kind = LightKind.other ∧
    rasterizeMesh ratSqrt 128 false false ([skyLight] ++ spotLight :: [ceilingLight])
        [groundTriangleA, groundTriangleB] =
      rasterizeMesh ratSqrt 128 false false ([skyLight] ++ [ceilingLight])
        [groundTriangleA, groundTriangleB] :=
  ⟨rfl, (unknown_light_is_ignored ratSqrt false false [skyLight] [ceilingLight] spotLight
    rfl).2.2.2 128 [groundTriangleA, groundTriangleB]⟩

/-! ### C9: the ambient floor -/

/-- C9: a triangle whose lights add nothing to the ambient start value (no
lights, only disabled lights, or only lights of contribution zero) is shaded
with exactly the ambient floor `(0.1, 0.1, 0.1)`, and a cell that is covered,
and covered only by such triangles, holds `0.1 * 255 = 25.5` in each channel. -/
theorem zero_contribution_gives_ambient_floor (sqrt : ℚ → ℚ) (gridSize : ℕ)
    (isWall isBox : Bool) (lights : List Light) (triangles : List Triangle) (x y : ℤ) (c : ℕ)
    (hx : 0 ≤ x) (hxg : x < gridSize) (hy : 0 ≤ y) (hyg : y < gridSize) (hc : c < 3)
    (hcov : ∃ t ∈ triangles, t.covers gridSize x y = true)
    (hzero : ∀ t ∈ triangles, t.covers gridSize x y = true →
      accumulateLights sqrt isWall isBox t.worldCenter t.worldNormal lights = ambient) :
    (∀ worldCenter worldNormal,
      (∀ light ∈ lights, light.enabled = true →
        lightContribution sqrt isWall isBox worldCenter worldNormal light = ⟨0, 0, 0⟩) →
      accumulateLights sqrt isWall isBox worldCenter worldNormal lights = ambient) ∧
    (∀ worldCenter worldNormal,
      accumulateLights sqrt isWall isBox worldCenter worldNormal lights = ambient →
      triangleShading sqrt isWall isBox worldCenter worldNormal lights =
        ⟨1 / 10, 1 / 10, 1 / 10⟩) ∧
    cellValue gridSize (rasterizeMesh sqrt gridSize isWall isBox lights triangles) x y c =
      51 / 2 := by
  have hfloor : ∀ worldCenter worldNormal,
      accumulateLights sqrt isWall isBox worldCenter worldNormal lights = ambient →
      triangleShading sqrt isWall isBox worldCenter worldNormal lights =
        ⟨1 / 10, 1 / 10, 1 / 10⟩ := by
    intro worldCenter worldNormal h
    unfold triangleShading
    rw [h]
    exact ambient_clamped
  refine ⟨fun worldCenter worldNormal h =>
    accumulateLights_zero sqrt isWall isBox worldCenter worldNormal lights h, hfloor, ?_⟩
  obtain ⟨h1, h2⟩ := cellValue_rasterizeMesh_spec sqrt gridSize isWall isBox lights triangles
    x y c hx hxg hy hyg hc
  have hval : ∀ t ∈ triangles, t.covers gridSize x y = true →
      (t.shading sqrt isWall isBox lights).channel c * 255 = 51 / 2 := by
    intro t ht hcv
    unfold Triangle.shading
    rw [hfloor t.worldCenter t.worldNormal (hzero t ht hcv), channel_const]
    norm_num
  rcases h2 with h0 | ⟨t, ht, hcv, he⟩
  · obtain ⟨t, ht, hcv⟩ := hcov
    have hle := h1 t ht hcv
    rw [hval t ht hcv, h0] at hle
    norm_num at hle
  · rw [he, hval t ht hcv]

theorem zero_contribution_gives_ambient_floor_witness :
    cellValue 128
      (rasterizeMesh ratSqrt 128 false false [disabledLight]
        [groundTriangleA, groundTriangleB]) 100 50 0 = 51 / 2 :=
  (zero_contribution_gives_ambient_floor ratSqrt 128 false false [disabledLight]
    [groundTriangleA, groundTriangleB] 100 50 0 (by decide) (by decide) (by decide) (by decide)
    (by decide) ⟨groundTriangleA, List.mem_cons_self _ _, groundTriangleA_covers⟩
    (fun _ _ _ => rfl)).2.2

/-! ### C10: a hemispheric light along the normal -/

/-- C10: when the only enabled light is a hemispheric light of intensity `1` and
diffuse colour `(1, 1, 1)` whose direction is the unit world normal of the
triangle, the contribution is `(1, 1, 1)`, the value before the clamp is
`(1.1, 1.1, 1.1)`, the clamped shading is `(1, 1, 1)`, and every channel of
every cell covered by such a triangle holds `255` after the triangle loop. -/
theorem hemispheric_light_along_normal_saturates (sqrt : ℚ → ℚ) (isWall isBox : Bool)
    (pre post : List Light) (light : Light) (worldCenter normal : Vector3)
    (hpre : ∀ l ∈ pre, l.enabled = false) (hpost : ∀ l ∈ post, l.enabled = false)
    (hkind : light.kind = LightKind.hemispheric) (hon : light.enabled = true)
    (hdir : light.direction = normal) (hunit : Vector3.Dot normal normal = 1)
    (hint : light.intensity = 1) (hcol : light.diffuse = some ⟨1, 1, 1⟩) :
    lightContribution sqrt isWall isBox worldCenter normal light = ⟨1, 1, 1⟩ ∧
    accumulateLights sqrt isWall isBox worldCenter normal (pre ++ light :: post) =
      ⟨11 / 10, 11 / 10, 11 / 10⟩ ∧
    triangleShading sqrt isWall isBox worldCenter normal (pre ++ light :: post) = ⟨1, 1, 1⟩ ∧
    (∀ (gridSize : ℕ) (triangles : List Triangle) (t : Triangle) (x y : ℤ) (c : ℕ),
      t ∈ triangles → t.worldNormal = normal → t.covers gridSize x y = true →
      0 ≤ x → x < gridSize → 0 ≤ y → y < gridSize → c < 3 →
      cellValue gridSize
        (rasterizeMesh sqrt gridSize isWall isBox (pre ++ light :: post) triangles) x y c =
          255) := by
  have hcontrib : ∀ wc, lightContribution sqrt isWall isBox wc normal light = ⟨1, 1, 1⟩ := by
    intro wc
    simp [lightContribution, hkind, hdir, hunit, hint, lightColorOf, hcol, tint]
    norm_num
  have hskip : ∀ (wc : Vector3) (ls : List Light) (a : Color3),
      (∀ l ∈ ls, l.enabled = false) →
      ls.foldl (lightStep sqrt isWall isBox wc normal) a = a := by
    intro wc ls
    induction ls with
    | nil => intro a _; rfl
    | cons l ls ih =>
      intro a h
      rw [List.foldl_cons, lightStep_disabled sqrt isWall isBox wc normal a l
        (h l (List.mem_cons_self _ _))]
      exact ih a (fun l' hl' => h l' (List.mem_cons_of_mem _ hl'))
  have hacc : ∀ wc, accumulateLights sqrt isWall isBox wc normal (pre ++ light :: post) =
      ⟨11 / 10, 11 / 10, 11 / 10⟩ := by
    intro wc
    rw [accumulateLights_append, List.foldl_cons]
    have h0 : accumulateLights sqrt isWall isBox wc normal pre = ambient :=
      hskip wc pre ambient hpre
    rw [h0, hskip wc post _ hpost]
    simp only [lightStep, hon, if_true, hcontrib wc, ambient]
    norm_num
  have hshade : ∀ wc, triangleShading sqrt isWall isBox wc normal (pre ++ light :: post) =
      ⟨1, 1, 1⟩ := by
    intro wc
    unfold triangleShading
    rw [hacc wc]
    simp only [clampChannel]
    norm_num
  refine ⟨hcontrib worldCenter, hacc worldCenter, hshade worldCenter, ?_⟩
  intro gridSize triangles t x y c ht hn hcv hx hxg hy hyg hc
  obtain ⟨h1, h2⟩ := cellValue_rasterizeMesh_spec sqrt gridSize isWall isBox
    (pre ++ light :: post) triangles x y c hx hxg hy hyg hc
  have hge := h1 t ht hcv
  have htv : (t.shading sqrt isWall isBox (pre ++ light :: post)).channel c * 255 = 255 := by
    unfold Triangle.shading
    rw [hn, hshade t.worldCenter, channel_const]
    norm_num
  rw [htv] at hge
  refine le_antisymm ?_ hge
  rcases h2 with h0 | ⟨t', -, -, he⟩
  · rw [h0]; norm_num
  · rw [he]
    exact (shading_value_bounds sqrt isWall isBox (pre ++ light :: post) t' c).2

theorem hemispheric_light_along_normal_saturates_witness :
    cellValue 128
      (rasterizeMesh ratSqrt 128 false false ([disabledLight] ++ skyLight :: [])
        [groundTriangleA, groundTriangleB]) 100 50 0 = 255 :=
  (hemispheric_light_along_normal_saturates ratSqrt false false [disabledLight] [] skyLight
    ⟨0, 0, 0⟩ ⟨0, 1, 0⟩
    (fun l hl => by rw [List.mem_singleton.mp hl]; rfl)
    (fun l hl => absurd hl (List.not_mem_nil l)) rfl rfl rfl (by decide!) rfl rfl).2.2.2
    128 [groundTriangleA, groundTriangleB] groundTriangleA 100 50 0 (List.mem_cons_self _ _) rfl
    groundTriangleA_covers (by decide) (by decide) (by decide) (by decide) (by decide)

/-! ### C11: the order of the triangles -/

/-- C11: rasterizing the triangles of a mesh in any order gives the same array:
for every permutation of the triangle list, and so for every pair of triangles
in either order; a cell that two triangles cover holds the greater of their two
values, whichever came first. -/
theorem triangle_order_does_not_matter (sqrt : ℚ → ℚ) (gridSize : ℕ) (isWall isBox : Bool)
    (lights : List Light) (triangles triangles' : List Triangle)
    (hperm : triangles.Perm triangles') :
    rasterizeMesh sqrt gridSize isWall isBox lights triangles =
      rasterizeMesh sqrt gridSize isWall isBox lights triangles' ∧
    (∀ a b : Triangle,
      rasterizeMesh sqrt gridSize isWall isBox lights [a, b] =
        rasterizeMesh sqrt gridSize isWall isBox lights [b, a]) ∧
    (∀ (a b : Triangle) (x y : ℤ) (c : ℕ), 0 ≤ x → x < gridSize → 0 ≤ y → y < gridSize →
      c < 3 → a.covers gridSize x y = true → b.covers gridSize x y = true →
      cellValue gridSize (rasterizeMesh sqrt gridSize isWall isBox lights [a, b]) x y c =
        max ((a.shading sqrt isWall isBox lights).channel c * 255)
          ((b.shading sqrt isWall isBox lights).channel c * 255)) := by
  refine ⟨rasterizeMesh_of_perm sqrt gridSize isWall isBox lights _ _ hperm,
    fun a b => rasterizeMesh_of_perm sqrt gridSize isWall isBox lights _ _
      (List.Perm.swap b a []), ?_⟩
  intro a b x y c hx hxg hy hyg hc ha hb
  rw [cellValue_rasterizeMesh sqrt gridSize isWall isBox lights [a, b] x y c hx hxg hy hyg hc]
  have hpos := (shading_value_bounds sqrt isWall isBox lights a c).1
  simp only [List.foldl_cons, List.foldl_nil, ha, hb, if_true]
  rw [max_eq_right (by linarith : (0 : ℚ) ≤ (a.shading sqrt isWall isBox lights).channel c * 255)]

theorem triangle_order_does_not_matter_witness :
    rasterizeMesh ratSqrt 128 false false [skyLight] [groundTriangleA, groundTriangleB] =
      rasterizeMesh ratSqrt 128 false false [skyLight] [groundTriangleB, groundTriangleA] :=
  (triangle_order_does_not_matter ratSqrt 128 false false [skyLight]
    [groundTriangleA, groundTriangleB] [groundTriangleB, groundTriangleA]
    (List.Perm.swap groundTriangleB groundTriangleA [])).1

/-! ### C12: cells and indices stay in the grid -/

/-- C12: for a grid of side at least `1` and a UV with finite components,
`mapUVToGrid` returns `floor(uv * gridSize)` clamped into `[0, gridSize - 1]`,
where `uv * gridSize` is the binary64 product: it is never NaN, a finite
product `r` gives `max(0, min(gridSize - 1, floor(r)))`, an overflow to
`+Infinity` gives `gridSize - 1`, and `-Infinity` or `-0` give `0`. The two
rasterization loops visit only cells of the triangle's bounding box, all inside
the grid, and for every such cell and channel `c < 3` the index
`(y * gridSize + x) * 3 + c` lies below `3 * gridSize * gridSize`, the length of
`lightmapData`, which the triangle loop keeps. -/
theorem cells_and_indices_in_bounds (gridSize : ℕ) (hg : 1 ≤ gridSize)
    (uv1 uv2 uv3 : Vector2) :
    (∀ uv : Vector2,
      (uv.x ≠ 0 → scaleToGrid gridSize uv.x = JSNum.roundBinary64 (uv.x * gridSize)) ∧
      (uv.y ≠ 0 → scaleToGrid gridSize uv.y = JSNum.roundBinary64 (uv.y * gridSize)) ∧
      scaleToGrid gridSize uv.x ≠ JSNum.nan ∧ scaleToGrid gridSize uv.y ≠ JSNum.nan ∧
      (∀ r : ℚ, scaleToGrid gridSize uv.x = JSNum.fin r →
        (mapUVToGrid gridSize uv).x = max 0 (min ((gridSize : ℤ) - 1) ⌊r⌋)) ∧
      (∀ r : ℚ, scaleToGrid gridSize uv.y = JSNum.fin r →
        (mapUVToGrid gridSize uv).y = max 0 (min ((gridSize : ℤ) - 1) ⌊r⌋)) ∧
      (scaleToGrid gridSize uv.x = JSNum.posInf →
        (mapUVToGrid gridSize uv).x = (gridSize : ℤ) - 1) ∧
      (scaleToGrid gridSize uv.y = JSNum.posInf →
        (mapUVToGrid gridSize uv).y = (gridSize : ℤ) - 1) ∧
      (scaleToGrid gridSize uv.x = JSNum.negInf ∨ scaleToGrid gridSize uv.x = JSNum.negZero →
        (mapUVToGrid gridSize uv).x = 0) ∧
      (scaleToGrid gridSize uv.y = JSNum.negInf ∨ scaleToGrid gridSize uv.y = JSNum.negZero →
        (mapUVToGrid gridSize uv).y = 0) ∧
      (mapUVToGrid gridSize uv).inGrid gridSize) ∧
    (∀ y ∈ loopRange
        (boxMin gridSize (mapUVToGrid gridSize uv1).y (mapUVToGrid gridSize uv2).y
          (mapUVToGrid gridSize uv3).y)
        (boxMax gridSize (mapUVToGrid gridSize uv1).y (mapUVToGrid gridSize uv2).y
          (mapUVToGrid gridSize uv3).y),
      ∀ x ∈ loopRange
        (boxMin gridSize (mapUVToGrid gridSize uv1).x (mapUVToGrid gridSize uv2).x
          (mapUVToGrid gridSize uv3).x)
        (boxMax gridSize (mapUVToGrid gridSize uv1).x (mapUVToGrid gridSize uv2).x
          (mapUVToGrid gridSize uv3).x),
      (min (mapUVToGrid gridSize uv1).x
          (min (mapUVToGrid gridSize uv2).x (mapUVToGrid gridSize uv3).x) ≤ x ∧
        x ≤ max (mapUVToGrid gridSize uv1).x
          (max (mapUVToGrid gridSize uv2).x (mapUVToGrid gridSize uv3).x)) ∧
      (min (mapUVToGrid gridSize uv1).y
          (min (mapUVToGrid gridSize uv2).y (mapUVToGrid gridSize uv3).y) ≤ y ∧
        y ≤ max (mapUVToGrid gridSize uv1).y
          (max (mapUVToGrid gridSize uv2).y (mapUVToGrid gridSize uv3).y)) ∧
      (0 ≤ x ∧ x < gridSize ∧ 0 ≤ y ∧ y < gridSize) ∧
      ∀ c < 3, cellIndex gridSize x y + c < 3 * gridSize * gridSize ∧
        cellIndex gridSize x y + c < (emptyLightmap gridSize).length) ∧
    (∀ (sqrt : ℚ → ℚ) (isWall isBox : Bool) (lights : List Light) (triangles : List Triangle),
      (rasterizeMesh sqrt gridSize isWall isBox lights triangles).length =
        3 * gridSize * gridSize) := by
  have hpos : 0 < gridSize := hg
  have h1 := mapUVToGrid_inGrid gridSize hg uv1
  have h2 := mapUVToGrid_inGrid gridSize hg uv2
  have h3 := mapUVToGrid_inGrid gridSize hg uv3
  have h0 : (1 : ℤ) ≤ gridSize := by exact_mod_cast hg
  refine ⟨fun uv => ⟨scaleToGrid_of_ne_zero gridSize hg uv.x,
    scaleToGrid_of_ne_zero gridSize hg uv.y, scaleToGrid_ne_nan gridSize uv.x,
    scaleToGrid_ne_nan gridSize uv.y, ?_, ?_, ?_, ?_, ?_, ?_,
    mapUVToGrid_inGrid gridSize hg uv⟩, ?_, ?_⟩
  · intro r hr
    unfold mapUVToGrid
    rw [hr]
    rfl
  · intro r hr
    unfold mapUVToGrid
    rw [hr]
    rfl
  · intro hr
    unfold mapUVToGrid
    rw [hr]
    exact max_eq_right (by omega)
  · intro hr
    unfold mapUVToGrid
    rw [hr]
    exact max_eq_right (by omega)
  · intro hr
    unfold mapUVToGrid
    rcases hr with hr | hr <;> rw [hr]
    · rfl
    · exact max_eq_left (min_le_right _ _)
  · intro hr
    unfold mapUVToGrid
    rcases hr with hr | hr <;> rw [hr]
    · rfl
    · exact max_eq_left (min_le_right _ _)
  · intro y hy x hx
    rw [mem_loopRange, boxMin_eq gridSize _ _ _ ⟨h1.2.2.1, h1.2.2.2⟩ ⟨h2.2.2.1, h2.2.2.2⟩
      ⟨h3.2.2.1, h3.2.2.2⟩, boxMax_eq gridSize _ _ _ ⟨h1.2.2.1, h1.2.2.2⟩
      ⟨h2.2.2.1, h2.2.2.2⟩ ⟨h3.2.2.1, h3.2.2.2⟩] at hy
    rw [mem_loopRange, boxMin_eq gridSize _ _ _ ⟨h1.1, h1.2.1⟩ ⟨h2.1, h2.2.1⟩ ⟨h3.1, h3.2.1⟩,
      boxMax_eq gridSize _ _ _ ⟨h1.1, h1.2.1⟩ ⟨h2.1, h2.2.1⟩ ⟨h3.1, h3.2.1⟩] at hx
    have hx0 : 0 ≤ x := le_trans (le_min h1.1 (le_min h2.1 h3.1)) hx.1
    have hx1 : x < gridSize :=
      lt_of_le_of_lt hx.2 (max_lt h1.2.1 (max_lt h2.2.1 h3.2.1))
    have hy0 : 0 ≤ y := le_trans (le_min h1.2.2.1 (le_min h2.2.2.1 h3.2.2.1)) hy.1
    have hy1 : y < gridSize :=
      lt_of_le_of_lt hy.2 (max_lt h1.2.2.2 (max_lt h2.2.2.2 h3.2.2.2))
    refine ⟨hx, hy, ⟨hx0, hx1, hy0, hy1⟩, ?_⟩
    intro c hc
    have hlt := cellIndex_lt gridSize x y c hx0 hx1 hy0 hy1 hc
    rw [emptyLightmap_length]
    have e : 3 * gridSize * gridSize = gridSize * gridSize * 3 := by ring
    rw [e]
    exact ⟨hlt, hlt⟩
  · intro sqrt isWall isBox lights triangles
    rw [rasterizeMesh_length]
    ring

theorem cells_and_indices_in_bounds_witness :
    scaleToGrid 3 (6004799503160661 / 18014398509481984) = JSNum.fin 1 ∧
    (mapUVToGrid 3 ⟨6004799503160661 / 18014398509481984, 0⟩).x =
      max 0 (min (((3 : ℕ) : ℤ) - 1) ⌊(1 : ℚ)⌋) ∧
    (mapUVToGrid 128 ⟨3 / 2, -1 / 4⟩).inGrid 128 ∧
    (rasterizeMesh ratSqrt 128 false false [skyLight]
      [groundTriangleA, groundTriangleB]).length = 3 * 128 * 128 :=
  ⟨by decide!,
    ((cells_and_indices_in_bounds 3 (by decide) ⟨0, 0⟩ ⟨1, 0⟩ ⟨1, 1⟩).1
      ⟨6004799503160661 / 18014398509481984, 0⟩).2.2.2.2.1 1 (by decide!),
    ((cells_and_indices_in_bounds 128 (by decide) ⟨0, 0⟩ ⟨1, 0⟩ ⟨1, 1⟩).1
      ⟨3 / 2, -1 / 4⟩).2.2.2.2.2.2.2.2.2.2,
    (cells_and_indices_in_bounds 128 (by decide) ⟨0, 0⟩ ⟨1, 0⟩ ⟨1, 1⟩).2.2 ratSqrt false false
      [skyLight] [groundTriangleA, groundTriangleB]⟩

/-! ### C13: the size of the baked textures -/

/-- C13 (counterexample): a bake of quality `high` has texture size `1024`, and
the texture that `downloadLightmapAsPNG` then creates for the ground mesh has
size `256`, with a grid of side `128`. -/
theorem high_quality_bake_gives_small_texture :
    textureSize (some "high") = QualityValue.number 1024 ∧
    (downloadLightmapAsPNG ratSqrt noAtan2 noAsin approxPi 20
      (bakeLightmap noFaults emptyPage (some darkScene) (MeshesArg.array [groundMesh])
        (some "high")).lights
      (bakeLightmap noFaults emptyPage (some darkScene) (MeshesArg.array [groundMesh])
        (some "high")).meshes.toList).map (Option.map Canvas.width) = [some 256] ∧
    gridSizeOf downloadSize = 128 := by
  refine ⟨by decide, ?_, by decide⟩
  have hm : (bakeLightmap noFaults emptyPage (some darkScene) (MeshesArg.array [groundMesh])
      (some "high")).meshes.toList = [markMesh groundMesh] := rfl
  have hp : meshToProcess (markMesh groundMesh) = true := by decide!
  obtain ⟨canvas, hc⟩ := createLightmapForMesh_returns ratSqrt noAtan2 noAsin approxPi 20
    (by decide) (markMesh groundMesh)
    (bakeLightmap noFaults emptyPage (some darkScene) (MeshesArg.array [groundMesh])
      (some "high")).lights downloadSize
  have hw := (createLightmapForMesh_size _ _ _ _ _ _ _ _ _ hc).1
  rw [hm]
  simp only [downloadLightmapAsPNG, List.filter_cons_of_pos hp, List.filter_nil, List.map_cons,
    List.map_nil, hc, Option.map_some', hw]
  rfl

/-- C13 (amended): for every quality requested in a bake, each texture that
`downloadLightmapAsPNG` creates for a mesh has size `256` and is drawn from a
grid of side `128`, half of `256`, whatever the tier; the tier's size (`256`,
`512`, `1024` for `low`, `medium`, `high`) is the size of the render target
that `createLightmapTexture` stores in the scene. -/
theorem baked_textures_have_size_256 (faults : BakeFaults) (page : Page) (sc : Scene)
    (m : Mesh) (ms : List Mesh) (quality : Option String) (sqrt : ℚ → ℚ)
    (atan2 : ℚ → ℚ → ℚ) (asin : ℚ → ℚ) (pi : ℚ) (fuel : ℕ) (hf : 18 ≤ fuel) :
    (∀ entry ∈ downloadLightmapAsPNG sqrt atan2 asin pi fuel
        (bakeLightmap faults page (some sc) (MeshesArg.array (m :: ms)) quality).lights
        (bakeLightmap faults page (some sc) (MeshesArg.array (m :: ms)) quality).meshes.toList,
      ∃ canvas, entry = some canvas ∧ canvas.width = 256 ∧ canvas.height = 256 ∧
        ∀ data g, DrawOp.drawLightmap data g ∈ canvas.ops → g = 128) ∧
    (faults.texture = none →
      ∃ scene, (bakeLightmap faults page (some sc) (MeshesArg.array (m :: ms)) quality).scene =
          some scene ∧ scene.lightmapRenderTarget = some (textureSize quality)) ∧
    textureSize (some "low") = QualityValue.number 256 ∧
    textureSize (some "medium") = QualityValue.number 512 ∧
    textureSize (some "high") = QualityValue.number 1024 := by
  refine ⟨?_, ?_, by decide, by decide, by decide⟩
  · intro entry he
    unfold downloadLightmapAsPNG at he
    obtain ⟨mesh, -, rfl⟩ := List.mem_map.mp he
    obtain ⟨canvas, hc⟩ := createLightmapForMesh_returns sqrt atan2 asin pi fuel hf mesh
      (bakeLightmap faults page (some sc) (MeshesArg.array (m :: ms)) quality).lights
      downloadSize
    obtain ⟨h1, h2, h3⟩ := createLightmapForMesh_size _ _ _ _ _ _ _ _ _ hc
    exact ⟨canvas, hc, h1, h2, h3⟩
  · intro hok
    unfold bakeLightmap
    rw [hok]
    rcases hs : faults.status with _ | message
    · rcases hr : faults.render with _ | message <;>
        exact ⟨_, rfl, rfl⟩
    · exact ⟨_, rfl, rfl⟩

theorem baked_textures_have_size_256_witness :
    ∃ scene, (bakeLightmap noFaults emptyPage (some darkScene) (MeshesArg.array [groundMesh])
        (some "high")).scene = some scene ∧
      scene.lightmapRenderTarget = some (textureSize (some "high")) :=
  (baked_textures_have_size_256 noFaults emptyPage darkScene groundMesh [] (some "high")
    ratSqrt noAtan2 noAsin approxPi 20 (by decide)).2.1 rfl

/-! ### C14: the texture size of a quality -/

/-- C14 (failing input): the texture size is `256`, `512`, `1024` for `low`,
`medium`, `high`, and `512` for an absent quality and for `"ultra"`; for the
quality `"constructor"` the read `qualitySettings[quality]` gives the member
inherited from `Object.prototype`, which is truthy, so the texture size is that
member and not `512`. -/
theorem textureSize_of_inherited_key :
    textureSize (some "low") = QualityValue.number 256 ∧
    textureSize (some "medium") = QualityValue.number 512 ∧
    textureSize (some "high") = QualityValue.number 1024 ∧
    textureSize none = QualityValue.number 512 ∧
    textureSize (some "ultra") = QualityValue.number 512 ∧
    textureSize (some "constructor") = QualityValue.inherited "constructor" := by
  decide

/-! ### C15: invalid input to the bake -/

/-- C15: when `scene` is absent, or `meshes` is absent, not an array or an empty
array, `bakeLightmap` alerts the user and returns before any mutation: the
children of `document.body` are as before (no loading indicator, no status
view), the scene is as before (`createLightmapTexture` was not called: no light
and no render target was added), and the meshes are as before. -/
theorem bake_rejects_invalid_input (faults : BakeFaults) (page : Page) (scene : Option Scene)
    (meshes : MeshesArg) (quality : Option String)
    (hbad : scene = none ∨ meshes = MeshesArg.absent ∨ meshes = MeshesArg.notArray ∨
      meshes = MeshesArg.array []) :
    (bakeLightmap faults page scene meshes quality).page.body = page.body ∧
    (bakeLightmap faults page scene meshes quality).page.nextId = page.nextId ∧
    (bakeLightmap faults page scene meshes quality).page.alerts =
      page.alerts ++ ["Error: Could not bake lightmap. Check console for details."] ∧
    (bakeLightmap faults page scene meshes quality).scene = scene ∧
    (bakeLightmap faults page scene meshes quality).meshes = meshes := by
  rcases hbad with h | h | h | h
  · subst h
    cases meshes <;> exact ⟨rfl, rfl, rfl, rfl, rfl⟩
  · subst h
    cases scene <;> exact ⟨rfl, rfl, rfl, rfl, rfl⟩
  · subst h
    cases scene <;> exact ⟨rfl, rfl, rfl, rfl, rfl⟩
  · subst h
    cases scene <;> exact ⟨rfl, rfl, rfl, rfl, rfl⟩

theorem bake_rejects_invalid_input_witness :
    (bakeLightmap noFaults emptyPage (some darkScene) (MeshesArg.array []) (some "high")).page.body
        = [] ∧
    (bakeLightmap noFaults emptyPage (some darkScene) (MeshesArg.array []) (some "high")).page.alerts
        = ["Error: Could not bake lightmap. Check console for details."] :=
  ⟨(bake_rejects_invalid_input noFaults emptyPage (some darkScene) (MeshesArg.array [])
      (some "high") (Or.inr (Or.inr (Or.inr rfl)))).1,
    (bake_rejects_invalid_input noFaults emptyPage (some darkScene) (MeshesArg.array [])
      (some "high") (Or.inr (Or.inr (Or.inr rfl)))).2.2.1⟩

/-! ### C16: a mesh without vertex data -/

/-- C16 (counterexample): for the mesh without normal data
`createLightmapForMesh` returns the canvas with its dark background only, on
which no `Error` marker is drawn; the canvas of a caught exception is the
background with the red `Error` marker. -/
theorem missing_normals_canvas_has_no_marker :
    noNormalsMesh.hasNormals = false ∧
    createLightmapForMesh ratSqrt noAtan2 noAsin approxPi 20 noNormalsMesh [] 256 =
      some ⟨256, 256, [background 256]⟩ ∧
    decide (errorMarker 256 ∈ [background 256]) = false ∧
    createLightmapForMesh ratSqrt noAtan2 noAsin approxPi 20 throwingMesh [] 256 =
      some ⟨256, 256, [background 256, errorMarker 256]⟩ := by
  refine ⟨rfl, createLightmapForMesh_of_missing _ _ _ _ _ _ _ _ (Or.inr (Or.inl rfl)),
    by decide!, ?_⟩
  unfold createLightmapForMesh
  rw [tryBlockOps_eq ratSqrt noAtan2 noAsin approxPi 20 (by decide) throwingMesh [] 256
    (by decide)]
  rfl

/-- C16 (amended): for every mesh that lacks position data, normal data or
indices, `createLightmapForMesh` returns the canvas with its dark background
only: the red `Error` marker, drawn for a caught exception, is not drawn on it.
It returns normally, and with it every mesh of the batch gets its canvas. -/
theorem missing_data_gives_background_only (sqrt : ℚ → ℚ) (atan2 : ℚ → ℚ → ℚ)
    (asin : ℚ → ℚ) (pi : ℚ) (fuel : ℕ) (mesh : Mesh) (lights : List Light) (size : ℕ)
    (hmiss : mesh.hasPositions = false ∨ mesh.hasNormals = false ∨ mesh.hasIndices = false) :
    createLightmapForMesh sqrt atan2 asin pi fuel mesh lights size =
      some ⟨size, size, [background size]⟩ ∧
    (∀ op ∈ [background size], op ≠ errorMarker size) ∧
    (18 ≤ fuel → ∀ meshes : List Mesh,
      (downloadLightmapAsPNG sqrt atan2 asin pi fuel lights meshes).length =
        (meshes.filter meshToProcess).length ∧
      ∀ entry ∈ downloadLightmapAsPNG sqrt atan2 asin pi fuel lights meshes,
        ∃ canvas, entry = some canvas) := by
  refine ⟨createLightmapForMesh_of_missing _ _ _ _ _ _ _ _ hmiss, ?_, ?_⟩
  · intro op hop
    rw [List.mem_singleton] at hop
    rw [hop]
    simp [background, errorMarker]
  · intro hf meshes
    refine ⟨by simp [downloadLightmapAsPNG], ?_⟩
    intro entry he
    unfold downloadLightmapAsPNG at he
    obtain ⟨mesh', -, rfl⟩ := List.mem_map.mp he
    exact createLightmapForMesh_returns sqrt atan2 asin pi fuel hf mesh' lights downloadSize

theorem missing_data_gives_background_only_witness :
    createLightmapForMesh ratSqrt noAtan2 noAsin approxPi 20 noNormalsMesh [skyLight] 256 =
      some ⟨256, 256, [background 256]⟩ :=
  (missing_data_gives_background_only ratSqrt noAtan2 noAsin approxPi 20 noNormalsMesh
    [skyLight] 256 (Or.inr (Or.inl rfl))).1

/-! ### C17: the loading indicator -/

/-- C17: after every call of `bakeLightmap` that passes the validation, the
loading indicator it attached (the element of identity `page.nextId`) is not a
child of `document.body`, and no loading indicator is attached that was not
there before the call, whether the calls of the `try` block return or
`createLightmapTexture`, `showLightmapStatus` or `scene.render` throws; when one
throws, the user is alerted with `Error during lightmap baking: ` and the
message of the error, and when none throws nothing is alerted. -/
theorem loading_indicator_is_removed (faults : BakeFaults) (page : Page) (sc : Scene)
    (m : Mesh) (ms : List Mesh) (quality : Option String) :
    (∀ node ∈ (bakeLightmap faults page (some sc) (MeshesArg.array (m :: ms)) quality).page.body,
      node.id ≠ page.nextId) ∧
    (∀ node ∈ (bakeLightmap faults page (some sc) (MeshesArg.array (m :: ms)) quality).page.body,
      node.kind = NodeKind.loadingIndicator → node ∈ page.body) ∧
    (∀ message, faults.firstMessage = some message →
      (bakeLightmap faults page (some sc) (MeshesArg.array (m :: ms)) quality).page.alerts =
        page.alerts ++ ["Error during lightmap baking: " ++ message]) ∧
    (faults.firstMessage = none →
      (bakeLightmap faults page (some sc) (MeshesArg.array (m :: ms)) quality).page.alerts =
        page.alerts) := by
  refine ⟨?_, ?_, ?_, ?_⟩
  · intro node hn
    rw [bakeLightmap_body] at hn
    rcases List.mem_append.mp hn with h | h
    · simpa using (List.mem_filter.mp h).2
    · split at h
      · rw [List.mem_singleton] at h
        rw [h]
        simp
      · simp at h
  · intro node hn hk
    rw [bakeLightmap_body] at hn
    rcases List.mem_append.mp hn with h | h
    · exact (List.mem_filter.mp h).1
    · split at h
      · rw [List.mem_singleton] at h
        rw [h] at hk
        simp at hk
      · simp at h
  · intro message hm
    rw [bakeLightmap_alerts, hm]
  · intro hm
    rw [bakeLightmap_alerts, hm]

/-! ### C18: the lights of the scene -/

/-- C18 (counterexample): a bake of a scene without lights leaves one light in
the scene, the hemispheric `ambientLight` of intensity `0.3`; cell `(100, 50)`
of the ground mesh's lightmap holds `25.5` when computed from the lights before
the bake and `102` when computed from the lights after it. -/
theorem bake_adds_a_light :
    darkScene.lights = [] ∧
    (bakeLightmap noFaults emptyPage (some darkScene) (MeshesArg.array [groundMesh])
      (some "medium")).lights = [bakeAmbientLight] ∧
    cellValue 128 (meshLightmapData ratSqrt noAtan2 noAsin approxPi groundMesh darkScene.lights 256)
      100 50 0 = 51 / 2 ∧
    cellValue 128 (meshLightmapData ratSqrt noAtan2 noAsin approxPi groundMesh
      (bakeLightmap noFaults emptyPage (some darkScene) (MeshesArg.array [groundMesh])
        (some "medium")).lights 256) 100 50 0 = 102 := by
  have hl : (bakeLightmap noFaults emptyPage (some darkScene) (MeshesArg.array [groundMesh])
      (some "medium")).lights = [bakeAmbientLight] := rfl
  refine ⟨rfl, hl, ?_, ?_⟩
  · apply groundMesh_cell
    intro t ht
    simp only [groundRawTriangles, List.map_cons, List.map_nil, List.mem_cons,
      List.mem_singleton, List.not_mem_nil, or_false] at ht
    rcases ht with rfl | rfl <;> decide!
  · rw [hl]
    apply groundMesh_cell
    intro t ht
    simp only [groundRawTriangles, List.map_cons, List.map_nil, List.mem_cons,
      List.mem_singleton, List.not_mem_nil, or_false] at ht
    rcases ht with rfl | rfl <;> decide!

/-- C18 (amended): after every valid call of `bakeLightmap` in which
`createLightmapTexture` returns, the lights of the scene are the lights it had,
unchanged and in the same order, followed by one new light: the enabled
hemispheric `ambientLight` with direction `(0, 1, 0)`, intensity `0.3` and
diffuse colour `(1, 1, 1)`; a later per-mesh lightmap is computed from that
longer list. -/
theorem bake_appends_ambient_light (faults : BakeFaults) (page : Page) (sc : Scene) (m : Mesh)
    (ms : List Mesh) (quality : Option String) (hok : faults.texture = none) :
    (bakeLightmap faults page (some sc) (MeshesArg.array (m :: ms)) quality).lights =
      sc.lights ++ [bakeAmbientLight] ∧
    (bakeAmbientLight.kind = LightKind.hemispheric ∧ bakeAmbientLight.enabled = true ∧
      bakeAmbientLight.direction = ⟨0, 1, 0⟩ ∧ bakeAmbientLight.intensity = 3 / 10 ∧
      bakeAmbientLight.diffuse = some ⟨1, 1, 1⟩) ∧
    (∀ (sqrt : ℚ → ℚ) (atan2 : ℚ → ℚ → ℚ) (asin : ℚ → ℚ) (pi : ℚ) (fuel : ℕ)
      (meshes : List Mesh),
      downloadLightmapAsPNG sqrt atan2 asin pi fuel
          (bakeLightmap faults page (some sc) (MeshesArg.array (m :: ms)) quality).lights
          meshes =
        downloadLightmapAsPNG sqrt atan2 asin pi fuel (sc.lights ++ [bakeAmbientLight])
          meshes) := by
  have h := bakeLightmap_lights faults page sc m ms quality hok
  refine ⟨h, ⟨rfl, rfl, rfl, rfl, rfl⟩, ?_⟩
  intro sqrt atan2 asin pi fuel meshes
  rw [h]

theorem bake_appends_ambient_light_witness :
    (bakeLightmap noFaults emptyPage (some ⟨[ceilingLight], [], none, 0⟩)
      (MeshesArg.array [groundMesh]) (some "low")).lights =
      [ceilingLight] ++ [bakeAmbientLight] :=
  (bake_appends_ambient_light noFaults emptyPage ⟨[ceilingLight], [], none, 0⟩ groundMesh []
    (some "low") rfl).1

/-! ### C19: the overlay grid -/

/-- C19 (counterexample): for the size `256` the overlay loop ends and draws 17
horizontal lines, at the offsets `0, 16, ..., 256`, and 17 vertical lines. -/
theorem overlay_of_256_has_17_lines :
    (overlayLoop 256 20 0).map (fun ops => (ops.filter DrawOp.isHorizontalLine).length) =
      some 17 ∧
    (overlayLoop 256 20 0).map (fun ops => (ops.filter DrawOp.isVerticalLine).length) =
      some 17 ∧
    (overlayLoop 256 20 0).map (fun ops => ops.filter DrawOp.isHorizontalLine) =
      some ((List.range 17).map (fun k : ℕ => DrawOp.strokeLine 0 (16 * k) 256 (16 * k))) := by
  decide!

/-- C19 (amended): for every positive texture size the overlay loop ends after
17 passes and the overlay consists of exactly 17 evenly spaced horizontal lines
and exactly 17 evenly spaced vertical lines, at the offsets `k * size / 16` for
`k = 0, ..., 16` (both borders included); for an even size and a mesh with its
data these lines are drawn on the canvas between the blurred lightmap and the
watermark. -/
theorem overlay_has_17_lines_each_way (size fuel : ℕ) (hs : 0 < size) (hf : 18 ≤ fuel) :
    (∃ ops, overlayLoop size fuel 0 = some ops ∧
      ops.filter DrawOp.isHorizontalLine =
        (List.range 17).map (fun k : ℕ =>
          DrawOp.strokeLine 0 ((k : ℚ) * ((size : ℚ) / 16)) size ((k : ℚ) * ((size : ℚ) / 16))) ∧
      ops.filter DrawOp.isVerticalLine =
        (List.range 17).map (fun k : ℕ =>
          DrawOp.strokeLine ((k : ℚ) * ((size : ℚ) / 16)) 0 ((k : ℚ) * ((size : ℚ) / 16)) size) ∧
      (ops.filter DrawOp.isHorizontalLine).length = 17 ∧
      (ops.filter DrawOp.isVerticalLine).length = 17 ∧ ops.length = 34) ∧
    (∀ (sqrt : ℚ → ℚ) (atan2 : ℚ → ℚ → ℚ) (asin : ℚ → ℚ) (pi : ℚ) (mesh : Mesh)
      (lights : List Light),
      mesh.hasPositions = true → mesh.hasNormals = true → mesh.hasIndices = true →
      mesh.throwsAfter = none → size % 2 = 0 →
      ∃ ops, overlayLoop size fuel 0 = some ops ∧
        createLightmapForMesh sqrt atan2 asin pi fuel mesh lights size =
          some ⟨size, size, background size ::
            ([DrawOp.drawLightmap (meshLightmapData sqrt atan2 asin pi mesh lights size)
              (gridSizeOf size), DrawOp.blur] ++ ops ++ [watermark mesh.name size])⟩) := by
  have hsq : (0 : ℚ) < (size : ℚ) := by exact_mod_cast hs
  have hloop := overlayLoop_eq (size : ℚ) hsq fuel hf
  constructor
  · refine ⟨_, hloop, ?_, ?_, ?_, ?_, ?_⟩
    · rw [overlay_offsets, overlay_horizontal_lines _ hsq, List.map_map]
      rfl
    · rw [overlay_offsets, overlay_vertical_lines _ hsq, List.map_map]
      rfl
    · rw [overlay_offsets, overlay_horizontal_lines _ hsq]
      simp
    · rw [overlay_offsets, overlay_vertical_lines _ hsq]
      simp
    · have hlen : ∀ offsets : List ℚ,
          (offsets.flatMap (fun i => overlayPass (size : ℚ) i)).length = 2 * offsets.length := by
        intro offsets
        induction offsets with
        | nil => rfl
        | cons i rest ih =>
          rw [List.flatMap_cons, List.length_append, ih]
          simp only [overlayPass, List.length_cons, List.length_nil]
          omega
      rw [overlay_offsets, hlen]
      simp
  · intro sqrt atan2 asin pi mesh lights h1 h2 h3 h4 h5
    refine ⟨_, hloop, ?_⟩
    unfold createLightmapForMesh
    have hsz : ¬ (size % 2 = 1 ∨ size = 0) := by omega
    simp only [h1, h2, h3, Bool.not_true, Bool.or_self, Bool.false_eq_true, if_false, hsz,
      tryBlockOps, hloop, Option.map_some', h4]

theorem overlay_has_17_lines_each_way_witness :
    ∃ ops, overlayLoop ((256 : ℕ) : ℚ) 20 0 = some ops ∧
      (ops.filter DrawOp.isHorizontalLine).length = 17 ∧
      (ops.filter DrawOp.isVerticalLine).length = 17 :=
  match (overlay_has_17_lines_each_way 256 20 (by decide) (by decide)).1 with
  | ⟨ops, h, _, _, h1, h2, _⟩ => ⟨ops, h, h1, h2⟩

/-! ### C20: the UVs of a wall -/

/-- C20: for a mesh whose name contains `wall` in any letter case and a triangle
for which no UV is read from the mesh, each vertex `(x, y, z)` gets the UV
`((h + 5) / 10, (y + 2.5) / 5)` where `h` is `x` if `|n1.z| > |n1.x|` and `z`
otherwise, `n1` being the first vertex normal; both components are in `[0, 1]`
exactly when `h` is in `[-5, 5]` and `y` in `[-2.5, 2.5]`; the other flags of
the mesh (ground, box, sphere) do not matter. -/
theorem wall_uv_synthesis (sqrt : ℚ → ℚ) (atan2 : ℚ → ℚ → ℚ) (asin : ℚ → ℚ) (pi : ℚ)
    (name : String) (raw : RawTriangle)
    (hwall : nameIncludes name.toLower "wall" = true) (hnone : raw.supplied = none) :
    (triangleUVs sqrt atan2 asin pi (meshKindOf name) raw).uv1 =
      ⟨((if |raw.n1.x| < |raw.n1.z| then raw.v1.x else raw.v1.z) + 5) / 10,
        (raw.v1.y + 5 / 2) / 5⟩ ∧
    (triangleUVs sqrt atan2 asin pi (meshKindOf name) raw).uv2 =
      ⟨((if |raw.n1.x| < |raw.n1.z| then raw.v2.x else raw.v2.z) + 5) / 10,
        (raw.v2.y + 5 / 2) / 5⟩ ∧
    (triangleUVs sqrt atan2 asin pi (meshKindOf name) raw).uv3 =
      ⟨((if |raw.n1.x| < |raw.n1.z| then raw.v3.x else raw.v3.z) + 5) / 10,
        (raw.v3.y + 5 / 2) / 5⟩ ∧
    (∀ h y : ℚ, (0 ≤ (h + 5) / 10 ∧ (h + 5) / 10 ≤ 1 ∧ 0 ≤ (y + 5 / 2) / 5 ∧
        (y + 5 / 2) / 5 ≤ 1) ↔ (-5 ≤ h ∧ h ≤ 5 ∧ -5 / 2 ≤ y ∧ y ≤ 5 / 2)) ∧
    (∀ kind : MeshKind, kind.isWall = true →
      triangleUVs sqrt atan2 asin pi kind raw =
        triangleUVs sqrt atan2 asin pi ⟨true, false, false, false⟩ raw) := by
  have hk : (meshKindOf name).isWall = true := hwall
  have hgen : ∀ kind : MeshKind, kind.isWall = true →
      triangleUVs sqrt atan2 asin pi kind raw =
        ⟨wallUV (decide (|raw.n1.x| < |raw.n1.z|)) raw.v1,
          wallUV (decide (|raw.n1.x| < |raw.n1.z|)) raw.v2,
          wallUV (decide (|raw.n1.x| < |raw.n1.z|)) raw.v3, raw.v1, raw.v2, raw.v3⟩ := by
    intro kind hkw
    simp [triangleUVs, hnone, synthesizeUVs, hkw]
  have hw : ∀ v : Vector3, wallUV (decide (|raw.n1.x| < |raw.n1.z|)) v =
      ⟨((if |raw.n1.x| < |raw.n1.z| then v.x else v.z) + 5) / 10, (v.y + 5 / 2) / 5⟩ := by
    intro v
    unfold wallUV
    by_cases h : |raw.n1.x| < |raw.n1.z| <;> simp [h]
  refine ⟨?_, ?_, ?_, ?_, ?_⟩
  · rw [hgen _ hk]; exact hw raw.v1
  · rw [hgen _ hk]; exact hw raw.v2
  · rw [hgen _ hk]; exact hw raw.v3
  · intro h y
    constructor
    · rintro ⟨h1, h2, h3, h4⟩
      rw [le_div_iff₀ (by norm_num)] at h1 h3
      rw [div_le_iff₀ (by norm_num)] at h2 h4
      refine ⟨by linarith, by linarith, by linarith, by linarith⟩
    · rintro ⟨h1, h2, h3, h4⟩
      refine ⟨?_, ?_, ?_, ?_⟩
      · rw [le_div_iff₀ (by norm_num)]; linarith
      · rw [div_le_iff₀ (by norm_num)]; linarith
      · rw [le_div_iff₀ (by norm_num)]; linarith
      · rw [div_le_iff₀ (by norm_num)]; linarith
  · intro kind hkw
    rw [hgen kind hkw, hgen ⟨true, false, false, false⟩ rfl]

theorem wall_uv_synthesis_witness :
    (meshKindOf "Ground-Wall-Box").isGround = true ∧
    (meshKindOf "Ground-Wall-Box").isBox = true ∧
    (triangleUVs ratSqrt noAtan2 noAsin approxPi (meshKindOf "Ground-Wall-Box")
        wallRawTriangle).uv3 =
      ⟨((if |wallRawTriangle.n1.x| < |wallRawTriangle.n1.z| then wallRawTriangle.v3.x
          else wallRawTriangle.v3.z) + 5) / 10, (wallRawTriangle.v3.y + 5 / 2) / 5⟩ :=
  ⟨by decide!, by decide!,
    (wall_uv_synthesis ratSqrt noAtan2 noAsin approxPi "Ground-Wall-Box" wallRawTriangle
      (by decide!) rfl).2.2.1⟩

/-! ### C21: the vertices after UV synthesis -/

/-- C21 (fails on the code): on a sphere mesh the UV synthesis normalizes the
three vertices in place, so the centre and the shading value of a triangle are
not those of the same triangle with supplied UVs. For the triangle
`sphereRawTriangle` of a sphere of diameter `1` placed at `(-2, 0.5, -2)` and
the point light at `(-0.5, 6.5, 0)`, whatever `Math.atan2`, `Math.asin` and
`Math.PI` give and whatever UVs the mesh supplies: without UV data the world
centre is `(-1.8, 1.3, -26/15)` and each shading channel is
`1069261/1692610`; with supplied UVs the world centre is the centroid
`(-1.9, 0.9, -28/15)` of the triangle and each shading channel is
`269431/444310`. -/
theorem sphere_uv_synthesis_moves_the_centroid (atan2 : ℚ → ℚ → ℚ) (asin : ℚ → ℚ) (pi : ℚ)
    (uvs : Vector2 × Vector2 × Vector2) :
    (prepareTriangle ratSqrt atan2 asin pi (meshKindOf "sphere") sphereToWorld id
        sphereRawTriangle.withoutUVs).worldCenter = ⟨-9 / 5, 13 / 10, -26 / 15⟩ ∧
    (prepareTriangle ratSqrt atan2 asin pi (meshKindOf "sphere") sphereToWorld id
        (sphereRawTriangle.withUVs uvs)).worldCenter = ⟨-19 / 10, 9 / 10, -28 / 15⟩ ∧
    Triangle.shading ratSqrt (meshKindOf "sphere").isWall (meshKindOf "sphere").isBox
        [movedLight]
        (prepareTriangle ratSqrt atan2 asin pi (meshKindOf "sphere") sphereToWorld id
          sphereRawTriangle.withoutUVs) =
      ⟨1069261 / 1692610, 1069261 / 1692610, 1069261 / 1692610⟩ ∧
    Triangle.shading ratSqrt (meshKindOf "sphere").isWall (meshKindOf "sphere").isBox
        [movedLight]
        (prepareTriangle ratSqrt atan2 asin pi (meshKindOf "sphere") sphereToWorld id
          (sphereRawTriangle.withUVs uvs)) =
      ⟨269431 / 444310, 269431 / 444310, 269431 / 444310⟩ := by
  rw [meshKindOf_sphere]
  have hn : (prepareTriangle ratSqrt atan2 asin pi ⟨false, false, false, true⟩ sphereToWorld id
      sphereRawTriangle.withoutUVs).worldCenter = ⟨-9 / 5, 13 / 10, -26 / 15⟩ := by
    rw [prepareTriangle_worldCenter]
    have hs : triangleUVs ratSqrt atan2 asin pi ⟨false, false, false, true⟩
        sphereRawTriangle.withoutUVs =
        synthesizeUVs ratSqrt atan2 asin pi ⟨false, false, false, true⟩
          sphereRawTriangle.v1 sphereRawTriangle.v2 sphereRawTriangle.v3
          sphereRawTriangle.n1 := rfl
    obtain ⟨h1, h2, h3⟩ := synthesizeUVs_vertices_of_sphere ratSqrt atan2 asin pi
      sphereRawTriangle.v1 sphereRawTriangle.v2 sphereRawTriangle.v3 sphereRawTriangle.n1
    rw [hs, h1, h2, h3]
    decide!
  have hu : (prepareTriangle ratSqrt atan2 asin pi ⟨false, false, false, true⟩ sphereToWorld id
      (sphereRawTriangle.withUVs uvs)).worldCenter = ⟨-19 / 10, 9 / 10, -28 / 15⟩ := by
    rw [prepareTriangle_worldCenter]
    obtain ⟨g1, g2, g3⟩ := triangleUVs_vertices_of_supplied ratSqrt atan2 asin pi
      ⟨false, false, false, true⟩ sphereRawTriangle uvs
    rw [g1, g2, g3]
    decide!
  have hnormal : ∀ raw : RawTriangle, raw.n1 = sphereRawTriangle.n1 →
      raw.n2 = sphereRawTriangle.n2 → raw.n3 = sphereRawTriangle.n3 →
      (prepareTriangle ratSqrt atan2 asin pi ⟨false, false, false, true⟩ sphereToWorld id
        raw).worldNormal = ⟨3 / 13, 12 / 13, 4 / 13⟩ := by
    intro raw e1 e2 e3
    rw [prepareTriangle_worldNormal, e1, e2, e3]
    decide!
  have hshade : ∀ (c : Vector3) (d : ℚ), 0 ≤ d →
      Vector3.lengthSquared (Vector3.subtract movedLight.position c) = d * d →
      Vector3.scale (Vector3.subtract movedLight.position c) (1 / d) =
        ⟨3 / 13, 12 / 13, 4 / 13⟩ → d ≠ 0 → d ≠ 1 →
      triangleShading ratSqrt false false c ⟨3 / 13, 12 / 13, 4 / 13⟩ [movedLight] =
        ⟨clampChannel (1 / 10 + 1 / (1 + 1 / 10 * d + 1 / 100 * d * d)),
          clampChannel (1 / 10 + 1 / (1 + 1 / 10 * d + 1 / 100 * d * d)),
          clampChannel (1 / 10 + 1 / (1 + 1 / 10 * d + 1 / 100 * d * d))⟩ := by
    intro c d hd0 hsq hscale h0 h1
    have hlen : Vector3.length ratSqrt (Vector3.subtract movedLight.position c) = d := by
      unfold Vector3.length
      rw [hsq, ratSqrt_mul_self, abs_of_nonneg hd0]
    have hdir : Vector3.normalize ratSqrt (Vector3.subtract movedLight.position c) =
        ⟨3 / 13, 12 / 13, 4 / 13⟩ := by
      unfold Vector3.normalize
      dsimp only
      rw [hlen, if_neg (by tauto), hscale]
    have hdist : Vector3.Distance ratSqrt movedLight.position c = d := hlen
    rw [triangleShading_of_point_light ratSqrt c ⟨3 / 13, 12 / 13, 4 / 13⟩ movedLight
      ⟨3 / 13, 12 / 13, 4 / 13⟩ d rfl rfl hdir hdist (by decide!)]
    have hone : Vector3.Dot ⟨3 / 13, 12 / 13, 4 / 13⟩ ⟨3 / 13, 12 / 13, 4 / 13⟩ *
        movedLight.intensity = 1 := by decide!
    have hcol : lightColorOf movedLight = ⟨1, 1, 1⟩ := rfl
    rw [hone, hcol]
    simp only [one_mul, mul_one]
  refine ⟨hn, hu, ?_, ?_⟩
  · unfold Triangle.shading
    rw [hn, hnormal sphereRawTriangle.withoutUVs rfl rfl rfl,
      hshade ⟨-9 / 5, 13 / 10, -26 / 15⟩ (169 / 30) (by decide!) (by decide!) (by decide!)
        (by decide!) (by decide!)]
    decide!
  · unfold Triangle.shading
    rw [hu, hnormal (sphereRawTriangle.withUVs uvs) rfl rfl rfl,
      hshade ⟨-19 / 10, 9 / 10, -28 / 15⟩ (91 / 15) (by decide!) (by decide!) (by decide!)
        (by decide!) (by decide!)]
    decide!

end Lightmap
